import Mathlib

/-!
# codeTraining: the terrain renderer of Lab Project 7.1 (`CTerrain.cpp`)

A shallow embedding of the parts of `CTerrain.cpp` that carry logic, and the
properties proved about them.

Conventions of the embedding

* `float` values are exact rationals (`ℚ`); no rounding is modelled.
* `ULONG` / `USHORT` / `int` values are `Nat` / `Int`; where the source computes
  in 32-bit unsigned arithmetic the reduction `% 2 ^ 32` is written out.
* A pointer is an `Option`: `none` is `NULL`.
* A read through a pointer outside the array it points to (or through `NULL`)
  has no defined result: the embedded function then returns `none`.
-/

/-! ## Data model -/

/-- The D3DX vector of three floats. -/
structure D3DXVECTOR3 where
  x : ℚ
  y : ℚ
  z : ℚ
deriving DecidableEq

/-- Module local constant `BlockWidth`: vertices in a terrain block (X). -/
def BlockWidth : Nat := 17

/-- Module local constant `BlockHeight`: vertices in a terrain block (Z). -/
def BlockHeight : Nat := 17

/-- Module local constant `QuadsWide = BlockWidth - 1`. -/
def QuadsWide : Nat := BlockWidth - 1

/-- Module local constant `QuadsHigh = BlockHeight - 1`. -/
def QuadsHigh : Nat := BlockHeight - 1

/-- Module local constant `WaterLevel` (multiplied by the Y scale when used). -/
def WaterLevel : ℚ := 54

/-- Range of the 32-bit `ULONG`. -/
def ULONG_RANGE : Nat := 2 ^ 32

/-- The terrain vertex `CVertex` (position and two texture coordinate sets). -/
structure CVertex where
  x : ℚ
  y : ℚ
  z : ℚ
  tu : ℚ
  tv : ℚ
  tu2 : ℚ
  tv2 : ℚ
deriving DecidableEq

/-- The fields of `CMesh` (declared in `CObject.h`) that `CTerrain.cpp` touches.
A slot of `m_pVertex` / `m_pIndex` that has been allocated but not yet written
is `none`. -/
structure CMesh where
  m_nFVFCode : Nat
  m_nStride : Nat
  m_pVertex : Option (List (Option CVertex))
  m_pIndex : Option (List (Option Nat))
  m_bBuffersBuilt : Bool
deriving DecidableEq

/-- One cell of the `CMesh **` array: not yet initialised memory, a `NULL`
pointer, or a pointer to a mesh. -/
inductive MeshSlot where
  | garbage : MeshSlot
  | null : MeshSlot
  | mesh : CMesh → MeshSlot
deriving DecidableEq

/-- The member variables of `CTerrain`. -/
structure CTerrain where
  m_pD3DDevice : Option Nat
  m_bHardwareTnL : Bool
  m_bSinglePass : Bool
  m_fmtTexture : Nat
  m_pBaseTexture : Option Nat
  m_pDetailTexture : Option Nat
  m_pWaterTexture : Option Nat
  m_pHeightMap : Option (List Nat)
  m_nHeightMapWidth : Nat
  m_nHeightMapHeight : Nat
  m_pMesh : Option (List MeshSlot)
  m_nMeshCount : Nat
  m_vecScale : D3DXVECTOR3
  m_nPrimitiveCount : Nat
deriving DecidableEq

/-! ## Primitive operations -/

/-- The C cast `(int)f` of a float: truncation toward zero. -/
def castInt (f : ℚ) : Int :=
  if f < 0 then -⌊-f⌋ else ⌊f⌋

/-- The array offset `a + b * Width` as the source computes it: an `int` (or
`long`) combined with the `ULONG` width, hence in 32-bit unsigned arithmetic. -/
def ulongIndex (a b : Int) (Width : Nat) : Nat :=
  ((a + b * (Width : Int)) % (ULONG_RANGE : Int)).toNat

/-- The read `(float)m_pHeightMap[i]`. -/
def CTerrain.heightMapAt (t : CTerrain) (i : Nat) : Option ℚ :=
  match t.m_pHeightMap with
  | none => none
  | some hm => (hm.get? i).map (fun (b : Nat) => (b : ℚ))

/-! ## `CTerrain::GetHeight` -/

/-- `CTerrain::GetHeight`: the height at a world space location, `none` when a
heightmap read falls outside the array. -/
def CTerrain.GetHeight (t : CTerrain) (x z : ℚ) (ReverseQuad : Bool) : Option ℚ :=
  -- Adjust Input Values
  let x := x / t.m_vecScale.x
  let z := z / t.m_vecScale.z
  -- Make sure we are not OOB
  if x < 0 ∨ z < 0 ∨ x ≥ (t.m_nHeightMapWidth : ℚ) ∨ z ≥ (t.m_nHeightMapHeight : ℚ) then
    some 0
  else
    -- First retrieve the Heightmap Points
    let ix := castInt x
    let iz := castInt z
    -- Calculate the remainder (percent across quad)
    let fPercentX := x - (ix : ℚ)
    let fPercentZ := z - (iz : ℚ)
    let W := t.m_nHeightMapWidth
    let sy := t.m_vecScale.y
    let corners : Option (ℚ × ℚ × ℚ × ℚ) :=
      if ReverseQuad then
        (t.heightMapAt (ulongIndex ix iz W)).bind fun hTL =>
        (t.heightMapAt (ulongIndex (ix + 1) (iz + 1) W)).bind fun hBR =>
        let fTopLeft := hTL * sy
        let fBottomRight := hBR * sy
        if fPercentX < fPercentZ then
          (t.heightMapAt (ulongIndex ix (iz + 1) W)).bind fun hBL =>
          let fBottomLeft := hBL * sy
          let fTopRight := fTopLeft + (fBottomRight - fBottomLeft)
          some (fTopLeft, fTopRight, fBottomLeft, fBottomRight)
        else
          (t.heightMapAt (ulongIndex (ix + 1) iz W)).bind fun hTR =>
          let fTopRight := hTR * sy
          let fBottomLeft := fTopLeft + (fBottomRight - fTopRight)
          some (fTopLeft, fTopRight, fBottomLeft, fBottomRight)
      else
        (t.heightMapAt (ulongIndex (ix + 1) iz W)).bind fun hTR =>
        (t.heightMapAt (ulongIndex ix (iz + 1) W)).bind fun hBL =>
        let fTopRight := hTR * sy
        let fBottomLeft := hBL * sy
        if fPercentX < 1 - fPercentZ then
          (t.heightMapAt (ulongIndex ix iz W)).bind fun hTL =>
          let fTopLeft := hTL * sy
          let fBottomRight := fBottomLeft + (fTopRight - fTopLeft)
          some (fTopLeft, fTopRight, fBottomLeft, fBottomRight)
        else
          (t.heightMapAt (ulongIndex (ix + 1) (iz + 1) W)).bind fun hBR =>
          let fBottomRight := hBR * sy
          let fTopLeft := fTopRight + (fBottomLeft - fBottomRight)
          some (fTopLeft, fTopRight, fBottomLeft, fBottomRight)
    corners.map fun (fTopLeft, fTopRight, fBottomLeft, fBottomRight) =>
      -- Calculate the height interpolated across the top and bottom edges
      let fTopHeight := fTopLeft + ((fTopRight - fTopLeft) * fPercentX)
      let fBottomHeight := fBottomLeft + ((fBottomRight - fBottomLeft) * fPercentX)
      -- Calculate the resulting height interpolated between the two heights
      fTopHeight + ((fBottomHeight - fTopHeight) * fPercentZ)

/-- The heightmap offsets that `CTerrain::GetHeight` reads, in program order,
for the branch it takes. -/
def CTerrain.GetHeightReads (t : CTerrain) (x z : ℚ) (ReverseQuad : Bool) : List Nat :=
  let x := x / t.m_vecScale.x
  let z := z / t.m_vecScale.z
  if x < 0 ∨ z < 0 ∨ x ≥ (t.m_nHeightMapWidth : ℚ) ∨ z ≥ (t.m_nHeightMapHeight : ℚ) then
    []
  else
    let ix := castInt x
    let iz := castInt z
    let fPercentX := x - (ix : ℚ)
    let fPercentZ := z - (iz : ℚ)
    let W := t.m_nHeightMapWidth
    if ReverseQuad then
      [ulongIndex ix iz W, ulongIndex (ix + 1) (iz + 1) W,
        if fPercentX < fPercentZ then ulongIndex ix (iz + 1) W else ulongIndex (ix + 1) iz W]
    else
      [ulongIndex (ix + 1) iz W, ulongIndex ix (iz + 1) W,
        if fPercentX < 1 - fPercentZ then ulongIndex ix iz W
        else ulongIndex (ix + 1) (iz + 1) W]

/-- A terrain whose heightmap is a `W x H` array held in memory: the array has
`W * H` bytes and fits the 2 GB address space of the 32-bit process. -/
def CTerrain.HasHeightMap (t : CTerrain) (hm : List Nat) : Prop :=
  t.m_pHeightMap = some hm ∧
  hm.length = t.m_nHeightMapWidth * t.m_nHeightMapHeight ∧
  hm.length < 2 ^ 31

/-! ## `CTerrain::UpdatePlayer` -/

/-- The enumeration `CCamera::CAMERA_MODE` (declared in `CCamera.h`); the source
names `MODE_FPS` and `MODE_THIRDPERSON`, every other enumerator is `MODE_OTHER`. -/
inductive CAMERA_MODE where
  | MODE_FPS : CAMERA_MODE
  | MODE_THIRDPERSON : CAMERA_MODE
  | MODE_OTHER : Nat → CAMERA_MODE
deriving DecidableEq

/-- The bounding volume `VOLUME_INFO`. -/
structure VOLUME_INFO where
  Min : D3DXVECTOR3
  Max : D3DXVECTOR3
deriving DecidableEq

/-- What `CTerrain.cpp` reads of a `CCamera` through its getters. -/
structure CCamera where
  m_CameraMode : CAMERA_MODE
  m_vecPos : D3DXVECTOR3
  m_Volume : VOLUME_INFO
deriving DecidableEq

/-- What `CTerrain.cpp` reads and writes of a `CPlayer` through its getters and
setters. -/
structure CPlayer where
  m_vecPos : D3DXVECTOR3
  m_vecVelocity : D3DXVECTOR3
  m_vecGravity : D3DXVECTOR3
  m_fFriction : ℚ
  m_fMaxVelocityXZ : ℚ
  m_fMaxVelocityY : ℚ
  m_Volume : VOLUME_INFO
  m_pCamera : Option CCamera
deriving DecidableEq

/-- A call of one of the setters of `CPlayer`, with its argument. -/
inductive PlayerCall where
  | SetVelocity : D3DXVECTOR3 → PlayerCall
  | SetPosition : D3DXVECTOR3 → PlayerCall
  | SetFriction : ℚ → PlayerCall
  | SetGravity : D3DXVECTOR3 → PlayerCall
  | SetMaxVelocityXZ : ℚ → PlayerCall
  | SetMaxVelocityY : ℚ → PlayerCall
deriving DecidableEq

/-- Whether the call is `SetPosition` or `SetVelocity`. -/
def PlayerCall.movesPlayer : PlayerCall → Bool
  | .SetVelocity _ => true
  | .SetPosition _ => true
  | _ => false

/-- Modelled from the spec: the setters of `CPlayer` are defined in `CPlayer.h` /
`CPlayer.cpp`, which are not among the sources; each is taken to leave the
player with the value it is given (the player's position becomes the argument
of `SetPosition`, its velocity the argument of `SetVelocity`, and so on). -/
def CPlayer.perform (p : CPlayer) : PlayerCall → CPlayer
  | .SetVelocity v => { p with m_vecVelocity := v }
  | .SetPosition v => { p with m_vecPos := v }
  | .SetFriction f => { p with m_fFriction := f }
  | .SetGravity g => { p with m_vecGravity := g }
  | .SetMaxVelocityXZ v => { p with m_fMaxVelocityXZ := v }
  | .SetMaxVelocityY v => { p with m_fMaxVelocityY := v }

/-- The player after a sequence of setter calls. -/
def CPlayer.performAll (p : CPlayer) (calls : List PlayerCall) : CPlayer :=
  calls.foldl CPlayer.perform p

/-- `CTerrain::UpdatePlayer` (static): the setter calls it makes on the player,
in order. `none` when the run has no defined result (`GetHeight` read outside
the heightmap, or the player has no camera to ask for its mode). -/
def CTerrain.UpdatePlayer (pContext : Option CTerrain) (pPlayer : Option CPlayer)
    (_TimeScale : ℚ) : Option (List PlayerCall) :=
  match pContext, pPlayer with
  | some t, some p =>
    -- Validate Parameters passed; read the player
    let Volume := p.m_Volume
    let Position := p.m_vecPos
    let Velocity := p.m_vecVelocity
    -- Determine which row we are on
    let PosZ : Int := castInt (Position.z / t.m_vecScale.z)
    let ReverseQuad : Bool := decide (Int.tmod PosZ 2 ≠ 0)
    -- Retrieve the height of the terrain at this position
    (t.GetHeight Position.x Position.z ReverseQuad).bind fun g =>
    let fHeight := g - Volume.Min.y
    -- Determine if the position is lower than the height at this position
    let colliding : Bool := decide (Position.y < fHeight)
    let Velocity := if colliding then { Velocity with y := 0 } else Velocity
    let Position := if colliding then { Position with y := fHeight } else Position
    let collisionCalls :=
      if colliding then [PlayerCall.SetVelocity Velocity, PlayerCall.SetPosition Position]
      else []
    -- If we are under water and in FPS mode, adjust our values
    p.m_pCamera.bind fun camera =>
    let CameraMode := camera.m_CameraMode
    let modeCalls :=
      if CameraMode = CAMERA_MODE.MODE_FPS then
        if Position.y < WaterLevel * t.m_vecScale.y then
          [PlayerCall.SetFriction 250, PlayerCall.SetGravity ⟨0, -260, 0⟩,
            PlayerCall.SetMaxVelocityXZ 40, PlayerCall.SetMaxVelocityY 60]
        else
          [PlayerCall.SetFriction 250, PlayerCall.SetGravity ⟨0, -500, 0⟩,
            PlayerCall.SetMaxVelocityXZ 125, PlayerCall.SetMaxVelocityY 400]
      else []
    some (collisionCalls ++ modeCalls)
  | _, _ => some []

/-! ## `CTerrain::RenderWater` -/

/-- The D3DX plane `a x + b y + c z + d = 0`. -/
structure D3DXPLANE where
  a : ℚ
  b : ℚ
  c : ℚ
  d : ℚ
deriving DecidableEq

/-- The pre-lit vertex `CLitVertex`: position, diffuse colour, texture
coordinates. -/
structure CLitVertex where
  x : ℚ
  y : ℚ
  z : ℚ
  Diffuse : Nat
  tu : ℚ
  tv : ℚ
deriving DecidableEq

/-- The position of a lit vertex, as the cast `(D3DXVECTOR3*)&v` reads it. -/
def CLitVertex.pos (v : CLitVertex) : D3DXVECTOR3 := ⟨v.x, v.y, v.z⟩

/-- Component-wise difference of two vectors. -/
def D3DXVECTOR3.sub (u v : D3DXVECTOR3) : D3DXVECTOR3 := ⟨u.x - v.x, u.y - v.y, u.z - v.z⟩

/-- The D3DX library function `D3DXPlaneDotCoord`: `a x + b y + c z + d`. -/
def D3DXPlaneDotCoord (P : D3DXPLANE) (v : D3DXVECTOR3) : ℚ :=
  P.a * v.x + P.b * v.y + P.c * v.z + P.d

/-- The D3DX library function `D3DXPlaneIntersectLine`: the point where the line
through `v1` and `v2` meets the plane; `none` (the library returns `NULL` and
leaves the output untouched) when the line is parallel to the plane. -/
def D3DXPlaneIntersectLine (P : D3DXPLANE) (v1 v2 : D3DXVECTOR3) : Option D3DXVECTOR3 :=
  let direction := v2.sub v1
  let dot := P.a * direction.x + P.b * direction.y + P.c * direction.z
  if dot = 0 then none
  else
    let temp := (P.d + (P.a * v1.x + P.b * v1.y + P.c * v1.z)) / dot
    some ⟨v1.x - temp * direction.x, v1.y - temp * direction.y, v1.z - temp * direction.z⟩

/-- The literal `1e-5f` of the classification tests, as the decimal it writes. -/
def CLIP_EPSILON : ℚ := 1 / 100000

/-- The classification of a signed distance in `RenderWater`: `Location` starts
at 0, becomes -1 (behind) below `-1e-5` and 1 (in front) above `1e-5`. -/
def classifyLocation (result : ℚ) : Int :=
  let Location : Int := 0
  let Location : Int := if result < -CLIP_EPSILON then -1 else Location
  let Location : Int := if result > CLIP_EPSILON then 1 else Location
  Location

/-- The store `Points[ PointCount++ ] = v` into `CLitVertex Points[5]`: `none` when
the array is already full. -/
def pushPoint (Points : List CLitVertex) (v : CLitVertex) : Option (List CLitVertex) :=
  if Points.length < 5 then some (Points ++ [v]) else none

/-- The new point `Points[PointCount]` that `RenderWater` builds at an
intersection of the edge `v1 -> v2` with the plane: position of the
intersection, diffuse `0xBFFFFFFF`, texture coordinates interpolated along the
edge. `vecLength` stands for the D3DX library function `D3DXVec3Length` (a
square root, which has no exact rational value). -/
def intersectionPoint (vecLength : D3DXVECTOR3 → ℚ) (p1 p2 : CLitVertex)
    (vecIntersection : D3DXVECTOR3) : CLitVertex :=
  -- Calculate the texture coordinates.
  let LineLength := vecLength (p2.pos.sub p1.pos)
  let Distance := vecLength (vecIntersection.sub p1.pos)
  { x := vecIntersection.x
    y := vecIntersection.y
    z := vecIntersection.z
    Diffuse := 0xBFFFFFFF
    tu := p1.tu + ((p2.tu - p1.tu) * (Distance / LineLength))
    tv := p1.tv + ((p2.tv - p1.tv) * (Distance / LineLength)) }

/-- One pass of the clipping loop of `RenderWater`, for the edge that starts at
corner `v1`. -/
def clipWaterEdge (NearPlane : D3DXPLANE) (vecLength : D3DXVECTOR3 → ℚ)
    (vecWaterPoints : Fin 4 → CLitVertex) (Points : List CLitVertex) (v1 : Fin 4) :
    Option (List CLitVertex) :=
  let v2 : Fin 4 := v1 + 1
  -- Classify each point in the edge
  let result := D3DXPlaneDotCoord NearPlane (vecWaterPoints v1).pos
  let Location1 := classifyLocation result
  -- Keep it if it's on plane
  if Location1 = 0 then pushPoint Points (vecWaterPoints v1)
  else
    let result := D3DXPlaneDotCoord NearPlane (vecWaterPoints v2).pos
    let Location2 := classifyLocation result
    -- If its not in front, keep it.
    (if Location1 ≠ 1 then pushPoint Points (vecWaterPoints v1) else some Points).bind
      fun Points =>
    -- If the next vertex is not causing us to span the plane then continue
    if Location2 = 0 ∨ Location2 = Location1 then some Points
    else
      -- Calculate the intersection point
      (D3DXPlaneIntersectLine NearPlane (vecWaterPoints v1).pos (vecWaterPoints v2).pos).bind
        fun vecIntersection =>
      -- This is our new point
      pushPoint Points
        (intersectionPoint vecLength (vecWaterPoints v1) (vecWaterPoints v2) vecIntersection)

/-- The clipping loop `for ( int v1 = 0; v1 < 4; v1++ )` of `RenderWater`. -/
def clipWaterQuad (NearPlane : D3DXPLANE) (vecLength : D3DXVECTOR3 → ℚ)
    (vecWaterPoints : Fin 4 → CLitVertex) : Option (List CLitVertex) :=
  [(0 : Fin 4), 1, 2, 3].foldlM (clipWaterEdge NearPlane vecLength vecWaterPoints) []

/-- The four corners `vecWaterPoints[0..3]` of the water quad. -/
def CTerrain.vecWaterPoints (t : CTerrain) : Fin 4 → CLitVertex :=
  let WaterHeight := WaterLevel * t.m_vecScale.y
  ![{ x := 0, y := WaterHeight, z := 0, Diffuse := 0xBFFFFFFF, tu := 0, tv := 0 },
    { x := 0, y := WaterHeight, z := (t.m_nHeightMapHeight : ℚ) * t.m_vecScale.z,
      Diffuse := 0xBFFFFFFF, tu := 0, tv := 1 },
    { x := (t.m_nHeightMapWidth : ℚ) * t.m_vecScale.x, y := WaterHeight,
      z := (t.m_nHeightMapHeight : ℚ) * t.m_vecScale.z, Diffuse := 0xAFFFFFFF, tu := 1, tv := 1 },
    { x := (t.m_nHeightMapWidth : ℚ) * t.m_vecScale.x, y := WaterHeight, z := 0,
      Diffuse := 0xBFFFFFFF, tu := 1, tv := 0 }]

/-- The `ULONG` difference `a - b`, with wraparound. -/
def ulongSub (a b : Nat) : Nat :=
  (((a : Int) - (b : Int)) % (ULONG_RANGE : Int)).toNat

/-- The conversion of a `ULONG` value to the 32-bit signed `long`. -/
def toLong (u : Nat) : Int :=
  if u % ULONG_RANGE < 2 ^ 31 then ((u % ULONG_RANGE : Nat) : Int)
  else ((u % ULONG_RANGE : Nat) : Int) - (ULONG_RANGE : Int)

/-- The store `p[i] = v` into an array: `none` when `i` is outside the array. -/
def storeAt {α : Type} (buf : List α) (i : Nat) (v : α) : Option (List α) :=
  if i < buf.length then some (buf.set i v) else none

/-- A `for` loop over the values of `l` whose body can leave the function with
`return` (first component `false`) or have no defined result (`none`); the
loop ends with first component `true` when it runs through. -/
def forEachM {σ : Type} (body : σ → Nat → Option (Bool × σ)) : List Nat → σ → Option (Bool × σ)
  | [], s => some (true, s)
  | i :: rest, s =>
    match body s i with
    | none => none
    | some (false, s') => some (false, s')
    | some (true, s') => forEachM body rest s'

/-! ## `CTerrain::AddMesh` -/

/-- The outcome of the allocations `AddMesh` asks for: whether
`new CMesh*[...]` returns an array, and the object that the `i`-th
`new CMesh()` of the call returns (`none` for `NULL`). -/
structure MeshAllocator where
  arrayAllocated : Bool
  newMesh : Nat → Option CMesh

/-- The C library call `ZeroMemory( &buf[first], bytes )` on an array of 4-byte
pointers: `none` when the cleared range leaves the array. -/
def zeroMemory (buf : List MeshSlot) (first bytes : Nat) : Option (List MeshSlot) :=
  let count := bytes / 4
  if first + count ≤ buf.length then
    some (buf.take first ++ List.replicate count MeshSlot.null ++ buf.drop (first + count))
  else none

/-- The C library call `memcpy( dst, src, bytes )` between arrays of 4-byte
pointers: `none` when the range leaves either array. -/
def memcpySlots (dst src : List MeshSlot) (bytes : Nat) : Option (List MeshSlot) :=
  let count := bytes / 4
  if count ≤ src.length ∧ count ≤ dst.length then some (src.take count ++ dst.drop count)
  else none

/-- The body of the loop `for ( UINT i = 0; i < Count; i++ )` of `AddMesh`. -/
def CTerrain.addMeshStep (alloc : MeshAllocator) (t : CTerrain) (i : Nat) :
    Option (Bool × CTerrain) :=
  match t.m_pMesh with
  | none => none
  | some pMesh =>
    match alloc.newMesh i with
    | none =>
      -- the store of the NULL result, then `return -1`
      (storeAt pMesh t.m_nMeshCount MeshSlot.null).map fun pMesh =>
        (false, { t with m_pMesh := some pMesh })
    | some mesh =>
      -- Allocate new mesh, increase overall mesh count
      (storeAt pMesh t.m_nMeshCount (MeshSlot.mesh mesh)).map fun pMesh =>
        (true, { t with m_pMesh := some pMesh,
                        m_nMeshCount := (t.m_nMeshCount + 1) % ULONG_RANGE })

/-- `CTerrain::AddMesh`: the returned `long` and the terrain afterwards; `none`
when a store or copy leaves the array it addresses. -/
def CTerrain.AddMesh (t : CTerrain) (Count : Nat) (alloc : MeshAllocator) :
    Option (Int × CTerrain) :=
  -- Allocate new resized array
  if alloc.arrayAllocated = false then some (-1, t)
  else
    let pMeshBuffer : List MeshSlot :=
      List.replicate ((t.m_nMeshCount + Count) % ULONG_RANGE) MeshSlot.garbage
    -- Clear out slack pointers
    (zeroMemory pMeshBuffer t.m_nMeshCount ((Count * 4) % ULONG_RANGE)).bind fun pMeshBuffer =>
    -- Existing Data? Copy old data into new buffer
    (match t.m_pMesh with
      | some old => memcpySlots pMeshBuffer old ((t.m_nMeshCount * 4) % ULONG_RANGE)
      | none => some pMeshBuffer).bind fun pMeshBuffer =>
    -- Store pointer for new buffer
    let t := { t with m_pMesh := some pMeshBuffer }
    -- Allocate new mesh pointers
    (forEachM (CTerrain.addMeshStep alloc) (List.range Count) t).map fun (r : Bool × CTerrain) =>
      if r.1 then
        -- Return first mesh
        (toLong (ulongSub r.2.m_nMeshCount Count), r.2)
      else (-1, r.2)

/-! ## `CTerrain::BuildMeshes` -/

/-- What `BuildMeshes` takes from outside `CTerrain.cpp`: the constants
`VERTEX_FVF` and `sizeof(CVertex)` of `CObject.h`, and, for the mesh in slot `i`
of the mesh array, whether `AddVertex` and `AddIndex` obtain their memory and
the `HRESULT` of `BuildBuffers`. -/
structure MeshBuilder where
  VERTEX_FVF : Nat
  vertexSize : Nat
  addVertexOk : Nat → Bool
  addIndexOk : Nat → Bool
  buildBuffers : Nat → Int

/-- Modelled from the spec: `CMesh::SetVertexFormat` is defined in `CObject.cpp`,
which is not among the sources; it is taken to store the format code and the
stride. -/
def CMesh.SetVertexFormat (m : CMesh) (FVFCode Stride : Nat) : CMesh :=
  { m with m_nFVFCode := FVFCode, m_nStride := Stride }

/-- Modelled from the spec: `CMesh::AddVertex` is defined in `CObject.cpp`, which
is not among the sources; it is taken to extend the vertex array by `Count`
unwritten slots and return the index of the first of them, or to return -1
and change nothing when the allocation fails. -/
def CMesh.AddVertex (m : CMesh) (Count : Nat) (ok : Bool) : Int × CMesh :=
  if ok then
    (((m.m_pVertex.getD []).length : Int),
      { m with m_pVertex := some (m.m_pVertex.getD [] ++ List.replicate Count none) })
  else (-1, m)

/-- Modelled from the spec: `CMesh::AddIndex` is defined in `CObject.cpp`, which
is not among the sources; it is taken to extend the index array by `Count`
unwritten slots (the buffer allocated with `AddIndex(IndexCount)`) and return
the index of the first of them, or to return -1 and change nothing when the
allocation fails. -/
def CMesh.AddIndex (m : CMesh) (Count : Nat) (ok : Bool) : Int × CMesh :=
  if ok then
    (((m.m_pIndex.getD []).length : Int),
      { m with m_pIndex := some (m.m_pIndex.getD [] ++ List.replicate Count none) })
  else (-1, m)

/-- Modelled from the spec: `CMesh::BuildBuffers` is defined in `CObject.cpp`,
which is not among the sources; it is taken to return the given `HRESULT` and
to have built the buffers exactly when that is not a failure code. -/
def CMesh.BuildBuffers (m : CMesh) (hRet : Int) : Int × CMesh :=
  (hRet, { m with m_bBuffersBuilt := decide (0 ≤ hRet) })

/-- The local `IndexCount` of `BuildMeshes`: number required for quads plus the
extra degenerate indices (one per quad row except the last). -/
def IndexCount : Nat := ((BlockWidth * 2) * QuadsHigh) + (QuadsHigh - 1)

/-- The value `BuildMeshes` stores in `m_nPrimitiveCount`: two triangles per quad
plus three degenerate triangles per quad row except the last. -/
def PrimitiveCount : Nat := ((QuadsWide * QuadsHigh) * 2) + ((QuadsHigh - 1) * 3)

/-- The vertex that `BuildMeshes` computes for heightmap sample `(vx, vz)`;
`none` when the heightmap read is outside the array. -/
def CTerrain.vertexAt (t : CTerrain) (vx vz : Nat) : Option CVertex :=
  (t.heightMapAt (ulongIndex (vx : Int) (vz : Int) t.m_nHeightMapWidth)).map fun (h : ℚ) =>
    { x := (vx : ℚ) * t.m_vecScale.x
      y := h * t.m_vecScale.y
      z := (vz : ℚ) * t.m_vecScale.z
      tu := (vx : ℚ) / ((ulongSub t.m_nHeightMapWidth 1 : Nat) : ℚ)
      tv := (vz : ℚ) / ((ulongSub t.m_nHeightMapHeight 1 : Nat) : ℚ)
      tu2 := (vx : ℚ) / 6
      tv2 := (vz : ℚ) / 6 }

/-- The store `p[ Counter ] = v; Counter++` on the pair (array, `Counter`). -/
def storeNext {α : Type} (st : List (Option α) × Nat) (v : α) : Option (List (Option α) × Nat) :=
  (storeAt st.1 st.2 (some v)).map fun buf => (buf, st.2 + 1)

/-- The vertex loop of `BuildMeshes` for the block that starts at sample
`(StartX, StartZ)`: rows `vz`, then columns `vx`, writing `pVertex[Counter]`
with `Counter` starting at 0. -/
def CTerrain.fillVertices (t : CTerrain) (StartX StartZ : Nat)
    (pVertex : List (Option CVertex)) : Option (List (Option CVertex) × Nat) :=
  (List.range' StartZ BlockHeight).foldlM
    (fun st vz =>
      (List.range' StartX BlockWidth).foldlM
        (fun st vx => (t.vertexAt vx vz).bind fun v => storeNext st v) st)
    (pVertex, 0)

/-- The store `pMesh->m_pIndex[ Counter++ ] = (USHORT)v`. -/
def storeIndex (st : List (Option Nat) × Nat) (v : Nat) : Option (List (Option Nat) × Nat) :=
  storeNext st (v % 2 ^ 16)

/-- The tri-strip index loop of `BuildMeshes`, with `Counter` starting at 0. -/
def fillIndices (pIndex : List (Option Nat)) : Option (List (Option Nat) × Nat) :=
  (List.range (BlockHeight - 1)).foldlM
    (fun st vz =>
      -- Is this an odd or even row ?
      if vz % 2 = 0 then
        (List.range BlockWidth).foldlM
          (fun st vx =>
            -- Force insert winding order switch degenerate ?
            (if vx = 0 ∧ vz > 0 then storeIndex st (vx + vz * BlockWidth) else some st).bind
              fun st =>
            -- Insert next two indices
            (storeIndex st (vx + vz * BlockWidth)).bind fun st =>
            storeIndex st ((vx + vz * BlockWidth) + BlockWidth)) st
      else
        (List.range BlockWidth).reverse.foldlM
          (fun st vx =>
            -- Force insert winding order switch degenerate ?
            (if vx = BlockWidth - 1 then storeIndex st (vx + vz * BlockWidth) else some st).bind
              fun st =>
            -- Insert next two indices
            (storeIndex st (vx + vz * BlockWidth)).bind fun st =>
            storeIndex st ((vx + vz * BlockWidth) + BlockWidth)) st)
    (pIndex, 0)

/-- Replace the mesh that slot `i` of the mesh array points to. -/
def CTerrain.setMesh (t : CTerrain) (i : Nat) (m : CMesh) : CTerrain :=
  { t with m_pMesh := t.m_pMesh.map fun meshes => meshes.set i (MeshSlot.mesh m) }

/-- The body of the block loops of `BuildMeshes` for block column `x`, block row
`z`. -/
def CTerrain.buildBlock (t : CTerrain) (env : MeshBuilder) (BlocksWide z x : Nat) :
    Option (Bool × CTerrain) :=
  let slot := x + z * BlocksWide
  match t.m_pMesh.bind (fun meshes => meshes[slot]?) with
  | some (MeshSlot.mesh pMesh) =>
    -- Allocate all the vertices & indices required for this mesh
    let pMesh := pMesh.SetVertexFormat env.VERTEX_FVF env.vertexSize
    let added := pMesh.AddVertex (BlockWidth * BlockHeight) (env.addVertexOk slot)
    if added.1 < 0 then some (false, t.setMesh slot added.2)
    else
      let pMesh := added.2
      let added := pMesh.AddIndex IndexCount (env.addIndexOk slot)
      if added.1 < 0 then some (false, t.setMesh slot added.2)
      else
        let pMesh := added.2
        match pMesh.m_pVertex, pMesh.m_pIndex with
        | some pVertex, some pIndex =>
          -- Calculate Vertex Positions
          let StartX := x * (BlockWidth - 1)
          let StartZ := z * (BlockHeight - 1)
          (t.fillVertices StartX StartZ pVertex).bind fun (vertices : List (Option CVertex) × Nat) =>
          -- Calculate the indices for the terrain block tri-strip
          (fillIndices pIndex).bind fun (indices : List (Option Nat) × Nat) =>
          let pMesh : CMesh :=
            { pMesh with m_pVertex := some vertices.1, m_pIndex := some indices.1 }
          -- Instruct mesh to build buffers
          let built := pMesh.BuildBuffers (env.buildBuffers slot)
          if built.1 < 0 then some (false, t.setMesh slot built.2)
          else some (true, t.setMesh slot built.2)
        | _, _ => none
  | _ => none

/-- `CTerrain::BuildMeshes`: the returned `bool` and the terrain afterwards;
`none` when a read or store leaves its array or a mesh pointer is not valid. -/
def CTerrain.BuildMeshes (t : CTerrain) (env : MeshBuilder) : Option (Bool × CTerrain) :=
  let BlocksWide := ulongSub t.m_nHeightMapWidth 1 / QuadsWide
  let BlocksHigh := ulongSub t.m_nHeightMapHeight 1 / QuadsHigh
  let t := { t with m_nPrimitiveCount := PrimitiveCount }
  -- Loop through and generate the mesh data
  forEachM
    (fun t z => forEachM (fun t x => t.buildBlock env BlocksWide z x) (List.range BlocksWide) t)
    (List.range BlocksHigh) t

/-! ## `CTerrain::LoadHeightMap` -/

/-- The result of `D3DXCreateTextureFromFileEx`: the `HRESULT` and the texture
pointer it leaves in its output argument. -/
structure TextureResult where
  hRet : Int
  texture : Option Nat

/-- What `LoadHeightMap` meets outside `CTerrain.cpp`: whether `new UCHAR[...]`
returns an array and the bytes found in it, the bytes of the heightmap file
(`none` when it cannot be opened), the results of the three texture loads, and
the allocations of `AddMesh` and `BuildMeshes`. -/
structure LoadEnv where
  heightMapAllocated : Bool
  freshBytes : Nat → Nat
  file : Option (List Nat)
  baseTexture : TextureResult
  detailTexture : TextureResult
  waterTexture : TextureResult
  meshAlloc : MeshAllocator
  builder : MeshBuilder

/-- `CTerrain::LoadHeightMap`: the returned `bool` and the terrain afterwards;
`none` when the run has no defined result (the integer division
`512 / (Width - 1)` by zero, or a fault in `AddMesh` / `BuildMeshes`). -/
def CTerrain.LoadHeightMap (t : CTerrain) (env : LoadEnv) (Width Height : Nat) :
    Option (Bool × CTerrain) :=
  -- Cannot load if already allocated (must be explicitly released for reuse)
  if t.m_pMesh.isSome then some (false, t)
  -- Must have an already set D3D Device
  else if t.m_pD3DDevice.isNone then some (false, t)
  else
    -- First of all store the information passed
    let t := { t with m_nHeightMapWidth := Width, m_nHeightMapHeight := Height }
    if ulongSub t.m_nHeightMapWidth 1 = 0 ∨ ulongSub t.m_nHeightMapHeight 1 = 0 then none
    else
      let t := { t with m_vecScale :=
        ⟨4 * ((512 / ulongSub t.m_nHeightMapWidth 1 : Nat) : ℚ), 2,
          4 * ((512 / ulongSub t.m_nHeightMapHeight 1 : Nat) : ℚ)⟩ }
      -- Attempt to allocate space for this heightmap information
      if env.heightMapAllocated = false then some (false, { t with m_pHeightMap := none })
      else
        let size := (Width * Height) % ULONG_RANGE
        let fresh := (List.range size).map env.freshBytes
        -- Open up the heightmap file
        match env.file with
        | none => some (false, { t with m_pHeightMap := some fresh })
        | some bytes =>
          -- Read the heightmap data (grayscale)
          let t := { t with m_pHeightMap := some (bytes.take size ++ fresh.drop bytes.length) }
          -- Load in the textures used for rendering the terrain
          let t := { t with m_pBaseTexture := env.baseTexture.texture }
          if env.baseTexture.hRet < 0 then some (false, t)
          else
            let t := { t with m_pDetailTexture := env.detailTexture.texture }
            if env.detailTexture.hRet < 0 then some (false, t)
            else
              let t := { t with m_pWaterTexture := env.waterTexture.texture }
              if env.waterTexture.hRet < 0 then some (false, t)
              else
                -- Allocate enough meshes to store the separate blocks of this terrain
                (t.AddMesh
                    ((((ulongSub Width 1) / QuadsWide) * ((ulongSub Height 1) / QuadsHigh))
                      % ULONG_RANGE)
                    env.meshAlloc).bind fun (added : Int × CTerrain) =>
                if added.1 < 0 then some (false, added.2)
                else
                  -- Build the mesh data itself
                  added.2.BuildMeshes env.builder

/-- The stores `m_pIndex[ Counter++ ] = (USHORT)v` for the values of `l`, in order. -/
def storeIndices (st : List (Option Nat) × Nat) (l : List Nat) :
    Option (List (Option Nat) × Nat) :=
  l.foldlM storeIndex st

/-- The indices that the index loop stores for quad row `vz`. -/
def rowIndices (vz : Nat) : List Nat :=
  if vz % 2 = 0 then
    (List.range BlockWidth).flatMap fun vx =>
      (if vx = 0 ∧ vz > 0 then [vx + vz * BlockWidth] else []) ++
        [vx + vz * BlockWidth, (vx + vz * BlockWidth) + BlockWidth]
  else
    (List.range BlockWidth).reverse.flatMap fun vx =>
      (if vx = BlockWidth - 1 then [vx + vz * BlockWidth] else []) ++
        [vx + vz * BlockWidth, (vx + vz * BlockWidth) + BlockWidth]

/-- The tri-strip of a terrain block written out row by row: on an even quad
row the pairs `(vx + 17 vz, vx + 17 vz + 17)` for `vx = 0 .. 16`, on an odd row
for `vx = 16 .. 0`, each row but the first preceded by a repeat of its first
index. -/
def stripIndices : List Nat :=
  (List.range 16).flatMap fun vz =>
    let row := if vz % 2 = 0 then List.range 17 else (List.range 17).reverse
    (if vz > 0 then [(if vz % 2 = 0 then 0 else 16) + vz * 17] else []) ++
      row.flatMap fun vx => [vx + vz * 17, vx + vz * 17 + 17]

/-- The triangles of a triangle strip, in order: triangle `k` is made of the
indices at positions `k`, `k + 1`, `k + 2`. -/
def stripTriangles : List Nat → List (Nat × Nat × Nat)
  | a :: b :: c :: rest => (a, b, c) :: stripTriangles (b :: c :: rest)
  | _ => []

/-- A triangle is degenerate when it repeats a vertex index. -/
def isDegenerate (tri : Nat × Nat × Nat) : Bool :=
  tri.1 == tri.2.1 || tri.2.1 == tri.2.2 || tri.1 == tri.2.2

/-! ## Predicates used in the statements about `BuildMeshes` and `LoadHeightMap` -/

/-- The mesh in `slot` holds block `(x, z)`: at local index `dx + 17 dz` of its
vertex array is the vertex of heightmap sample `(16 x + dx, 16 z + dz)`. -/
def BlockBuilt (t : CTerrain) (slot : MeshSlot) (x z : Nat) : Prop :=
  ∃ (m : CMesh) (verts : List (Option CVertex)), slot = MeshSlot.mesh m ∧
    m.m_pVertex = some verts ∧
    ∀ dx dz, dx < BlockWidth → dz < BlockHeight →
      ∃ v, t.vertexAt (x * (BlockWidth - 1) + dx) (z * (BlockHeight - 1) + dz) = some v ∧
        verts[dx + dz * BlockWidth]? = some (some v)

/-- The slot points to a mesh that has neither a vertex nor an index array yet. -/
def SlotFresh (slot : MeshSlot) : Prop :=
  ∃ m : CMesh, slot = MeshSlot.mesh m ∧ m.m_pVertex = none ∧ m.m_pIndex = none

/-- State of the mesh array while `BuildMeshes` runs: `N` slots, the first `k`
built (slot `b` holding block `(b % BW, b / BW)`), the others still fresh. -/
def MeshesInv (t : CTerrain) (BW N : Nat) (meshes : List MeshSlot) (k : Nat) : Prop :=
  meshes.length = N ∧
  (∀ b, b < k → ∃ s, meshes[b]? = some s ∧ BlockBuilt t s (b % BW) (b / BW)) ∧
  (∀ b, k ≤ b → b < N → ∃ s, meshes[b]? = some s ∧ SlotFresh s)

/-- Every allocation, the opening of the file and the three texture loads
succeed, for a terrain of `N` blocks, and a mesh returned by `new CMesh()` has
no vertex or index array yet. -/
def LoadEnv.Succeeds (env : LoadEnv) (N : Nat) : Prop :=
  env.heightMapAllocated = true ∧ env.file ≠ none ∧
  0 ≤ env.baseTexture.hRet ∧ 0 ≤ env.detailTexture.hRet ∧ 0 ≤ env.waterTexture.hRet ∧
  env.meshAlloc.arrayAllocated = true ∧
  (∀ i, i < N → ∃ m, env.meshAlloc.newMesh i = some m ∧ m.m_pVertex = none ∧ m.m_pIndex = none) ∧
  (∀ b, b < N → env.builder.addVertexOk b = true ∧ env.builder.addIndexOk b = true ∧
    0 ≤ env.builder.buildBuffers b)

/-! ## Sample data -/

/-- A 17 x 17 terrain (one block) as `LoadHeightMap` leaves it for
`Width = Height = 17`: scale `(4 * (512 / 16), 2, 4 * (512 / 16)) = (128, 2, 128)`;
the height stored at offset `i` is `i % 256`. -/
def terrain17 : CTerrain where
  m_pD3DDevice := some 1
  m_bHardwareTnL := true
  m_bSinglePass := true
  m_fmtTexture := 0
  m_pBaseTexture := some 1
  m_pDetailTexture := some 2
  m_pWaterTexture := some 3
  m_pHeightMap := some ((List.range 289).map (fun i => i % 256))
  m_nHeightMapWidth := 17
  m_nHeightMapHeight := 17
  m_pMesh := none
  m_nMeshCount := 0
  m_vecScale := ⟨128, 2, 128⟩
  m_nPrimitiveCount := 0

/-- A player standing below the terrain surface at the grid point `(2, 3)` of
`terrain17`, with a third-person camera. -/
def playerBelow : CPlayer where
  m_vecPos := ⟨256, 0, 384⟩
  m_vecVelocity := ⟨1, -5, 2⟩
  m_vecGravity := ⟨0, -400, 0⟩
  m_fFriction := 250
  m_fMaxVelocityXZ := 125
  m_fMaxVelocityY := 400
  m_Volume := ⟨⟨-3, -10, -3⟩, ⟨3, 10, 3⟩⟩
  m_pCamera := some ⟨CAMERA_MODE.MODE_THIRDPERSON, ⟨256, 20, 360⟩, ⟨⟨-3, -3, -3⟩, ⟨3, 3, 3⟩⟩⟩

/-- A mesh as `new CMesh()` is taken to leave it: no vertex array, no index
array, no buffers. -/
def freshMesh : CMesh where
  m_nFVFCode := 0
  m_nStride := 0
  m_pVertex := none
  m_pIndex := none
  m_bBuffersBuilt := false

/-- An allocator for which every `new` succeeds. -/
def allocAll : MeshAllocator where
  arrayAllocated := true
  newMesh := fun _ => some freshMesh

/-- A terrain as the constructor and `SetD3DDevice` leave it: nothing loaded, a
device set. -/
def terrainNew : CTerrain where
  m_pD3DDevice := some 1
  m_bHardwareTnL := true
  m_bSinglePass := true
  m_fmtTexture := 0
  m_pBaseTexture := none
  m_pDetailTexture := none
  m_pWaterTexture := none
  m_pHeightMap := none
  m_nHeightMapWidth := 0
  m_nHeightMapHeight := 0
  m_pMesh := none
  m_nMeshCount := 0
  m_vecScale := ⟨1, 1, 1⟩
  m_nPrimitiveCount := 0

/-- An environment in which every allocation, the file and the texture loads
succeed; the heightmap file holds `n` bytes, byte `i` being `i % 256`. -/
def envAllOk (n : Nat) : LoadEnv where
  heightMapAllocated := true
  freshBytes := fun _ => 0
  file := some ((List.range n).map (fun i => i % 256))
  baseTexture := ⟨0, some 1⟩
  detailTexture := ⟨0, some 2⟩
  waterTexture := ⟨0, some 3⟩
  meshAlloc := allocAll
  builder := ⟨0, 28, fun _ => true, fun _ => true, fun _ => 0⟩

/-! ## `CTerrain::GetHeightMapNormal` -/

/-- The D3DX library function `D3DXVec3Cross`: the cross product. -/
def D3DXVec3Cross (v1 v2 : D3DXVECTOR3) : D3DXVECTOR3 :=
  ⟨v1.y * v2.z - v1.z * v2.y, v1.z * v2.x - v1.x * v2.z, v1.x * v2.y - v1.y * v2.x⟩

/-- The `ULONG` sum `a + b`, with wraparound. -/
def ulongAdd (a b : Nat) : Nat := (a + b) % ULONG_RANGE

/-- The conversion of a signed value to `ULONG`. -/
def toULong (i : Int) : Nat := (i % (ULONG_RANGE : Int)).toNat

/-- The local `HMAddX` of `GetHeightMapNormal`: 1, or `-1` stored in a `ULONG`. -/
def CTerrain.HMAddX (t : CTerrain) (x : Nat) : Nat :=
  if x < ulongSub t.m_nHeightMapWidth 1 then 1 else toULong (-1)

/-- The local `HMAddZ` of `GetHeightMapNormal`: the width, or
`-(signed)m_nHeightMapWidth` stored in a `ULONG`. -/
def CTerrain.HMAddZ (t : CTerrain) (z : Nat) : Nat :=
  if z < ulongSub t.m_nHeightMapHeight 1 then t.m_nHeightMapWidth
  else toULong (-(toLong t.m_nHeightMapWidth))

/-- `CTerrain::GetHeightMapNormal`: the normal at heightmap position `(x, z)`,
`none` when a heightmap read falls outside the array. `vecNormalize` stands for
the D3DX library function `D3DXVec3Normalize` (a division by a square root,
which has no exact rational value). -/
def CTerrain.GetHeightMapNormal (t : CTerrain) (vecNormalize : D3DXVECTOR3 → D3DXVECTOR3)
    (x z : Nat) : Option D3DXVECTOR3 :=
  -- Make sure we are not out of bounds
  if (x : ℚ) < 0 ∨ (z : ℚ) < 0 ∨ x ≥ t.m_nHeightMapWidth ∨ z ≥ t.m_nHeightMapHeight then
    some ⟨0, 1, 0⟩
  else
    -- Calculate the index in the heightmap array
    let HMIndex := ulongAdd x (z * t.m_nHeightMapWidth)
    -- Get the three height values
    (t.heightMapAt HMIndex).bind fun h1 =>
    (t.heightMapAt (ulongAdd HMIndex (t.HMAddX x))).bind fun h2 =>
    (t.heightMapAt (ulongAdd HMIndex (t.HMAddZ z))).bind fun h3 =>
    let y1 := h1 * t.m_vecScale.y
    let y2 := h2 * t.m_vecScale.y
    let y3 := h3 * t.m_vecScale.y
    -- Calculate Edges
    let Edge1 : D3DXVECTOR3 := ⟨0, y3 - y1, t.m_vecScale.z⟩
    let Edge2 : D3DXVECTOR3 := ⟨t.m_vecScale.x, y2 - y1, 0⟩
    -- Calculate Resulting Normal
    some (vecNormalize (D3DXVec3Cross Edge1 Edge2))

/-- The heightmap offsets that `CTerrain::GetHeightMapNormal` reads, in program
order. -/
def CTerrain.GetHeightMapNormalReads (t : CTerrain) (x z : Nat) : List Nat :=
  if (x : ℚ) < 0 ∨ (z : ℚ) < 0 ∨ x ≥ t.m_nHeightMapWidth ∨ z ≥ t.m_nHeightMapHeight then []
  else
    let HMIndex := ulongAdd x (z * t.m_nHeightMapWidth)
    [HMIndex, ulongAdd HMIndex (t.HMAddX x), ulongAdd HMIndex (t.HMAddZ z)]

/-- The terrain that a successful `LoadHeightMap` of a 49 x 49 heightmap leaves:
the documented size requirement holds (`48 = 3 * 16`). -/
def loaded49 : Option (Bool × CTerrain) :=
  terrainNew.LoadHeightMap (envAllOk (49 * 49)) 49 49

/-! ## The `IntMult` sample (`IntMult.cpp`) -/

/-- The conversion of an integer value to the 16-bit signed `short`. -/
def toShort (i : Int) : Int :=
  if i % 2 ^ 16 < 2 ^ 15 then i % 2 ^ 16 else i % 2 ^ 16 - 2 ^ 16

/-- The value of a 32-bit signed `int` expression, overflow taken as wraparound. -/
def toInt32 (i : Int) : Int :=
  if i % 2 ^ 32 < 2 ^ 31 then i % 2 ^ 32 else i % 2 ^ 32 - 2 ^ 32

/-- The value of a 32-bit `unsigned` expression. -/
def toUnsigned (i : Int) : Int := i % 2 ^ 32

/-- One item sent to `cout`: a string literal, a number, or `endl`. -/
inductive CoutItem where
  | text : String → CoutItem
  | number : Int → CoutItem
  | endl : CoutItem
deriving DecidableEq

/-- The variables of `main` after the four products, and what was sent to `cout`. -/
structure IntMultRun where
  a3 : Int
  b3 : Int
  c3 : Int
  d3 : Int
  shortLine : List CoutItem
  intLine : List CoutItem
  intOverflowLine : List CoutItem
  unsignedLine : List CoutItem

/-- The function `main` of `IntMult.cpp`, up to the final prompt. -/
def IntMult.main : IntMultRun :=
  -- short a1 = 123, a2 = 456; short a3 = a1 * a2;  (the product is an `int`)
  let a1 : Int := toShort 123
  let a2 : Int := toShort 456
  let a3 : Int := toShort (toInt32 (a1 * a2))
  -- int b1 = 123, b2 = 456; int b3 = b1 * b2;
  let b1 : Int := toInt32 123
  let b2 : Int := toInt32 456
  let b3 : Int := toInt32 (b1 * b2)
  -- int c1 = 123450, c2 = 67890; int c3 = c1 * c2;
  let c1 : Int := toInt32 123450
  let c2 : Int := toInt32 67890
  let c3 : Int := toInt32 (c1 * c2)
  -- unsigned d1 = 123450, d2 = 67890; unsigned d3 = d1 * d2;
  let d1 : Int := toUnsigned 123450
  let d2 : Int := toUnsigned 67890
  let d3 : Int := toUnsigned (d1 * d2)
  { a3 := a3, b3 := b3, c3 := c3, d3 := d3
    shortLine := [.number a1, .text " * ", .number a2, .text " = ", .number a3,
      .text " (incorrect!)", .endl]
    intLine := [.number b1, .text " * ", .number b2, .text " = ", .number b3, .endl]
    intOverflowLine := [.number c1, .text " * ", .number c2, .text " = ", .number c3,
      .text " (incorrect!)", .endl]
    unsignedLine := [.number d1, .text " * ", .number d2, .text " = ", .number d3, .endl] }

/-- A player in FPS camera mode swimming above the grid point `(2, 0)` of
`terrain17`, below the water level `54 * 2 = 108`. -/
def playerSwimming : CPlayer where
  m_vecPos := ⟨256, 20, 0⟩
  m_vecVelocity := ⟨1, -5, 2⟩
  m_vecGravity := ⟨0, -400, 0⟩
  m_fFriction := 100
  m_fMaxVelocityXZ := 100
  m_fMaxVelocityY := 100
  m_Volume := ⟨⟨-3, -10, -3⟩, ⟨3, 10, 3⟩⟩
  m_pCamera := some ⟨CAMERA_MODE.MODE_FPS, ⟨256, 20, 0⟩, ⟨⟨-3, -3, -3⟩, ⟨3, 3, 3⟩⟩⟩

/-! ## `CMyD3DInit::ValidateDisplayMode` (`CGameApp.cpp`) -/

/-- The Direct3D structure `D3DDISPLAYMODE`: three `UINT` members and the
`D3DFORMAT` code. -/
structure D3DDISPLAYMODE where
  Width : Nat
  Height : Nat
  RefreshRate : Nat
  Format : Nat
deriving DecidableEq

/-- The method `CMyD3DInit::ValidateDisplayMode`. -/
def CMyD3DInit.ValidateDisplayMode (Mode : D3DDISPLAYMODE) : Bool :=
  if Mode.Width < 640 ∨ Mode.Height < 480 ∨ Mode.RefreshRate < 60 then false
  else true

/-! ## `CGameApp` (`CGameApp.cpp`) -/

/-- The macro `FAILED`: a `HRESULT` is a failure exactly when it is negative. -/
def FAILED (hr : Int) : Bool := decide (hr < 0)

/-- The `&` of two `HRESULT`s (32-bit `long`): the bitwise and of their two's
complement bit patterns, read back as a `long`. -/
def longAnd (a b : Int) : Int := toLong (toULong a &&& toULong b)

/-- The macro `LOWORD`: the low 16 bits. -/
def LOWORD (l : Nat) : Nat := l % 65536

/-- The macro `HIWORD`: bits 16 to 31. -/
def HIWORD (l : Nat) : Nat := (l / 65536) % 65536

/-- The window message code `WM_CREATE`. -/
def WM_CREATE : Nat := 0x0001

/-- The window message code `WM_DESTROY`. -/
def WM_DESTROY : Nat := 0x0002

/-- The window message code `WM_SIZE`. -/
def WM_SIZE : Nat := 0x0005

/-- The window message code `WM_CLOSE`. -/
def WM_CLOSE : Nat := 0x0010

/-- The window message code `WM_KEYDOWN`. -/
def WM_KEYDOWN : Nat := 0x0100

/-- The window message code `WM_COMMAND`. -/
def WM_COMMAND : Nat := 0x0111

/-- The `WM_SIZE` request code `SIZE_MINIMIZED`. -/
def SIZE_MINIMIZED : Nat := 1

/-- The virtual key code `VK_ESCAPE`. -/
def VK_ESCAPE : Nat := 0x1B

/-- The virtual key code `VK_RETURN`. -/
def VK_RETURN : Nat := 0x0D

/-- The menu flag `MF_BYCOMMAND`. -/
def MF_BYCOMMAND : Nat := 0x0

/-- The menu flag `MF_CHECKED`. -/
def MF_CHECKED : Nat := 0x8

/-- The menu flag `MF_UNCHECKED`. -/
def MF_UNCHECKED : Nat := 0x0

/-- The texture filter capability bit `D3DPTFILTERCAPS_MINFLINEAR`. -/
def D3DPTFILTERCAPS_MINFLINEAR : Nat := 0x00000200

/-- The texture filter capability bit `D3DPTFILTERCAPS_MIPFLINEAR`. -/
def D3DPTFILTERCAPS_MIPFLINEAR : Nat := 0x00020000

/-- The texture filter capability bit `D3DPTFILTERCAPS_MAGFLINEAR`. -/
def D3DPTFILTERCAPS_MAGFLINEAR : Nat := 0x02000000

/-- The Win32 structure `RECT`. -/
structure RECT where
  left : Int
  top : Int
  right : Int
  bottom : Int
deriving DecidableEq

/-- The vertex class of the cube sample, built by
`CVertex( x, y, z, colour, tu, tv )`. -/
structure CGameApp.CVertex where
  x : ℚ
  y : ℚ
  z : ℚ
  Diffuse : Nat
  tu : ℚ
  tv : ℚ
deriving DecidableEq

/-- The menu command identifiers `ID_ANIM_ROTATION1`, `ID_ANIM_ROTATION2`,
`ID_FILE_CHANGEDEVICE` and `ID_EXIT`. They are defined in the resource header,
which is not among the sources, so their values are parameters here. -/
structure MenuIds where
  ID_ANIM_ROTATION1 : Nat
  ID_ANIM_ROTATION2 : Nat
  ID_FILE_CHANGEDEVICE : Nat
  ID_EXIT : Nat
deriving DecidableEq

/-- A `HRESULT` together with the pointer the call leaves in its out
parameter. -/
structure PointerResult where
  hRet : Int
  pointer : Option Nat
deriving DecidableEq

/-- What `CGameApp` meets outside `CGameApp.cpp`: the results of the Direct3D,
D3DX, Win32 and `CMyD3DInit` / `CD3DSettingsDlg` calls it makes. Every call of
one function gives the same result within one environment.

* `Windowed` is `m_D3DSettings.Windowed` as the two `FindBest...Mode` calls
  leave it; `DialogWindowed` is that flag in the settings the dialog returns;
* `CreateDisplayResult` is the result of `CMyD3DInit::CreateDisplay`;
* `D3DXCreateTextureFromFile i` is the result of the load into
  `m_pTextures[i]`; `GetSurfaceLevel i` and `GetDC i` are the results of those
  calls for texture `i`;
* `TextureFilterCaps` is the member of the `D3DCAPS9` that `GetDeviceCaps`
  fills;
* `ShiftKeyState` is `GetKeyState( VK_SHIFT )`, `DialogOk` is
  `ShowDialog(...) == IDOK`. -/
structure AppEnv where
  Direct3DCreate9 : Option Nat
  Enumerate : Int
  Windowed : Bool
  CreateDisplayResult : Int
  GetDirect3DDevice : Option Nat
  GetHWND : Option Nat
  LoadIcon : Option Nat
  LoadMenu : Option Nat
  GetClientRect : RECT
  CreateVertexBuffer : PointerResult
  Lock : PointerResult
  D3DXCreateTextureFromFile : Nat → TextureResult
  GetSurfaceLevel : Nat → Int
  GetDC : Nat → Int
  GetDeviceCaps : Int
  TextureFilterCaps : Nat
  DefWindowProc : Int
  ShiftKeyState : Nat
  DialogOk : Bool
  DialogWindowed : Bool
  ids : MenuIds

/-- The members of `CGameApp` that `CGameApp.cpp` reads or writes outside
`FrameAdvance`, `ProcessInput` and `AnimateObjects`. Handles and interface
pointers are `Option`s (`none` is `NULL`). `m_pObject` holds the vertex buffer
each of the two objects references. The matrices (`m_mtxView`,
`m_mtxProjection`, the world matrices of the objects) are only handed to D3DX
and device functions; those calls are recorded, the matrix entries are not.
`m_D3DSettings_Windowed` is `m_D3DSettings.Windowed`. -/
structure CGameApp where
  m_hWnd : Option Nat
  m_pD3D : Option Nat
  m_pD3DDevice : Option Nat
  m_hIcon : Option Nat
  m_hMenu : Option Nat
  m_bLostDevice : Bool
  m_pVertexBuffer : Option Nat
  m_pTextures : List (Option Nat)
  m_pObject : List (Option Nat)
  m_bRotation1 : Bool
  m_bRotation2 : Bool
  m_bActive : Bool
  m_nViewX : Int
  m_nViewY : Int
  m_nViewWidth : Int
  m_nViewHeight : Int
  m_bFilterEnabled : Bool
  m_bMipEnabled : Bool
  m_D3DSettings_Windowed : Bool
deriving DecidableEq

/-- The methods of `CGameApp` whose calls are recorded. -/
inductive AppMethod where
  | CreateDisplay
  | BuildObjects
  | SetupGameState
  | SetupRenderStates
  | ShutDown
  | ReleaseObjects
  | ChangeDevice
deriving DecidableEq

/-- What a run of a `CGameApp` method does besides writing members: entering a
method of `CGameApp`, a call of a library function (by name), a message box
with its text, a `Release()` of an interface pointer, a `CheckMenuItem` with the
item and the flags, the write of one vertex through `pVertex`, the `DrawText`
on texture `i`, and the `DefWindowProc` a message is handed to. -/
inductive AppCall where
  | method : AppMethod → AppCall
  | api : String → AppCall
  | MessageBox : String → AppCall
  | Release : Nat → AppCall
  | CheckMenuItem : Nat → Nat → AppCall
  | WriteVertex : CGameApp.CVertex → AppCall
  | DrawText : Nat → AppCall
  | DefWindowProc : Nat → Nat → Nat → AppCall
deriving DecidableEq

/-- The `Release()` made under `if ( p ) p->Release();`. -/
def releaseIfSet : Option Nat → List AppCall
  | some p => [AppCall.Release p]
  | none => []

/-- The method `CGameApp::ReleaseObjects`. `CObject::SetVertexBuffer` is defined
outside the sources and is taken to store its argument. `m_pTextures` is an
array of six pointers; entry `i` is read as `m_pTextures.getD i none`. -/
def CGameApp.ReleaseObjects (app : CGameApp) : CGameApp × List AppCall :=
  ({ app with
      m_pObject := [none, none]
      m_pVertexBuffer := none
      m_pTextures := List.replicate 6 none },
    [AppCall.method AppMethod.ReleaseObjects]
      ++ (if app.m_pD3DDevice.isSome then
            [AppCall.api "SetStreamSource", AppCall.api "SetTexture"] else [])
      ++ releaseIfSet app.m_pVertexBuffer
      ++ ((List.range 6).map fun i => releaseIfSet (app.m_pTextures.getD i none)).flatten)

/-- The method `CGameApp::SetupGameState`. -/
def CGameApp.SetupGameState (app : CGameApp) : CGameApp × List AppCall :=
  ({ app with m_bRotation1 := true, m_bRotation2 := true, m_bActive := true },
    [AppCall.method AppMethod.SetupGameState, AppCall.api "D3DXMatrixIdentity"])

/-- The method `CGameApp::SetupRenderStates`; `none` when it calls through a
`NULL` `m_pD3DDevice` or `m_pD3D`. -/
def CGameApp.SetupRenderStates (env : AppEnv) (app : CGameApp) :
    Option (CGameApp × List AppCall) :=
  let rc := env.GetClientRect
  let a1 : CGameApp :=
    { app with m_nViewWidth := rc.right - rc.left, m_nViewHeight := rc.bottom - rc.top }
  let l1 : List AppCall :=
    [AppCall.method AppMethod.SetupRenderStates, AppCall.api "GetClientRect",
      AppCall.api "D3DXMatrixPerspectiveFovLH"]
  match a1.m_pD3DDevice with
  | none => none
  | some _ =>
    let l2 : List AppCall := l1 ++
      [AppCall.api "SetRenderState D3DRS_ZENABLE", AppCall.api "SetRenderState D3DRS_DITHERENABLE",
        AppCall.api "SetRenderState D3DRS_SHADEMODE", AppCall.api "SetRenderState D3DRS_CULLMODE",
        AppCall.api "SetRenderState D3DRS_LIGHTING",
        AppCall.api "SetTextureStageState D3DTSS_COLORARG1",
        AppCall.api "SetTextureStageState D3DTSS_COLORARG2",
        AppCall.api "SetTextureStageState D3DTSS_COLOROP",
        AppCall.api "SetFVF", AppCall.api "SetTransform D3DTS_VIEW",
        AppCall.api "SetTransform D3DTS_PROJECTION"]
    match a1.m_pD3D with
    | none => none
    | some _ =>
      let l3 : List AppCall := l2 ++ [AppCall.api "GetDeviceCaps"]
      if FAILED env.GetDeviceCaps then some (a1, l3)
      else
        let a2 : CGameApp := { a1 with m_bFilterEnabled := false }
        let a3 : CGameApp :=
          if env.TextureFilterCaps &&& D3DPTFILTERCAPS_MAGFLINEAR ≠ 0 ∧
              env.TextureFilterCaps &&& D3DPTFILTERCAPS_MINFLINEAR ≠ 0 then
            { a2 with m_bFilterEnabled := true }
          else a2
        let a4 : CGameApp := { a3 with m_bMipEnabled := false }
        let a5 : CGameApp :=
          if env.TextureFilterCaps &&& D3DPTFILTERCAPS_MIPFLINEAR ≠ 0 then
            { a4 with m_bMipEnabled := true }
          else a4
        some (a5, l3)

/-- The method `CGameApp::ShutDown`. -/
def CGameApp.ShutDown (app : CGameApp) : Bool × CGameApp × List AppCall :=
  let released := app.ReleaseObjects
  let a1 : CGameApp := released.1
  let l1 : List AppCall := [AppCall.method AppMethod.ShutDown] ++ released.2
    ++ releaseIfSet a1.m_pD3DDevice ++ releaseIfSet a1.m_pD3D
  let a2 : CGameApp := { a1 with m_pD3D := none, m_pD3DDevice := none }
  let l2 : List AppCall := l1 ++ (if a2.m_hMenu.isSome then [AppCall.api "DestroyMenu"] else [])
  let a3 : CGameApp := { a2 with m_hMenu := none }
  let l3 : List AppCall := l2 ++ [AppCall.api "SetMenu"]
    ++ (if a3.m_hWnd.isSome then [AppCall.api "DestroyWindow"] else [])
  (true, { a3 with m_hWnd := none }, l3)

/-- The method `CGameApp::CreateDisplay`. -/
def CGameApp.CreateDisplay (env : AppEnv) (app : CGameApp) : Bool × CGameApp × List AppCall :=
  let a1 : CGameApp := { app with m_pD3D := env.Direct3DCreate9 }
  let l1 : List AppCall := [AppCall.method AppMethod.CreateDisplay, AppCall.api "Direct3DCreate9"]
  if a1.m_pD3D.isNone then
    (false, a1, l1 ++ [AppCall.MessageBox "No compatible Direct3D object could be created."])
  else
    let l2 : List AppCall := l1 ++ [AppCall.api "Enumerate"]
    if FAILED env.Enumerate then
      (false, a1, l2 ++
        [AppCall.MessageBox "Device enumeration failed. The application will now exit."])
    else
      let a2 : CGameApp := { a1 with m_D3DSettings_Windowed := env.Windowed }
      let l3 : List AppCall := l2 ++
        [AppCall.api "FindBestFullscreenMode", AppCall.api "FindBestWindowedMode",
          AppCall.api "CMyD3DInit::CreateDisplay"]
      if FAILED env.CreateDisplayResult then
        (false, a2, l3 ++
          [AppCall.MessageBox "Device creation failed. The application will now exit."])
      else
        let a3 : CGameApp :=
          { a2 with
              m_pD3DDevice := env.GetDirect3DDevice
              m_hWnd := env.GetHWND
              m_hIcon := env.LoadIcon
              m_hMenu := env.LoadMenu }
        let l4 : List AppCall := l3 ++
          [AppCall.api "LoadIcon", AppCall.api "LoadMenu", AppCall.api "SetClassLong"]
          ++ (if a3.m_D3DSettings_Windowed then [AppCall.api "SetMenu"] else [])
        let rc := env.GetClientRect
        let a4 : CGameApp :=
          { a3 with
              m_nViewX := rc.left
              m_nViewY := rc.top
              m_nViewWidth := rc.right - rc.left
              m_nViewHeight := rc.bottom - rc.top }
        (true, a4, l4 ++ [AppCall.api "GetClientRect", AppCall.api "ShowWindow"])

/-- The 24 vertices `BuildObjects` writes through `pVertex`, in order: front,
top, back, bottom, left and right face. -/
def cubeVertices : List CGameApp.CVertex :=
  [ ⟨-2, -2, -2, 0xFFFFFFFF, 0, 1⟩, ⟨-2, 2, -2, 0xFFFFFFFF, 0, 0⟩,
    ⟨2, -2, -2, 0xFFFFFFFF, 1, 1⟩, ⟨2, 2, -2, 0xFFFFFFFF, 1, 0⟩,
    ⟨-2, 2, -2, 0xFFFFFFFF, 0, 1⟩, ⟨-2, 2, 2, 0xFFFFFFFF, 0, 0⟩,
    ⟨2, 2, -2, 0xFFFFFFFF, 1, 1⟩, ⟨2, 2, 2, 0xFFFFFFFF, 1, 0⟩,
    ⟨-2, 2, 2, 0xFFFFFFFF, 0, 1⟩, ⟨-2, -2, 2, 0xFFFFFFFF, 0, 0⟩,
    ⟨2, 2, 2, 0xFFFFFFFF, 1, 1⟩, ⟨2, -2, 2, 0xFFFFFFFF, 1, 0⟩,
    ⟨-2, -2, 2, 0xFFFFFFFF, 0, 4⟩, ⟨-2, -2, -2, 0xFFFFFFFF, 0, 0⟩,
    ⟨2, -2, 2, 0xFFFFFFFF, 4, 4⟩, ⟨2, -2, -2, 0xFFFFFFFF, 4, 0⟩,
    ⟨-2, -2, 2, 0xFF00FF00, 0, 1⟩, ⟨-2, 2, 2, 0xFFFF0000, 0, 0⟩,
    ⟨-2, -2, -2, 0xFF00FF00, 1, 1⟩, ⟨-2, 2, -2, 0xFFFFFFFF, 1, 0⟩,
    ⟨2, -2, -2, 0xFFFFFFFF, 2 / 5, 3 / 5⟩, ⟨2, 2, -2, 0xFFFFFFFF, 2 / 5, 2 / 5⟩,
    ⟨2, -2, 2, 0xFFFFFFFF, 3 / 5, 3 / 5⟩, ⟨2, 2, 2, 0xFFFFFFFF, 3 / 5, 2 / 5⟩ ]

/-- One pass of the loop of `BuildObjects` that draws on the textures: what is
done for texture `i`. A texture that failed to load (`NULL`) is skipped, as is
one whose `GetSurfaceLevel` fails; when `GetDC` fails the surface is released
and the texture skipped. -/
def CGameApp.drawOnTexture (env : AppEnv) (app : CGameApp) (i : Nat) : List AppCall :=
  match app.m_pTextures.getD i none with
  | none => []
  | some _ =>
    if FAILED (env.GetSurfaceLevel i) then [AppCall.api "GetSurfaceLevel"]
    else if FAILED (env.GetDC i) then
      [AppCall.api "GetSurfaceLevel", AppCall.api "GetDesc", AppCall.api "GetDC",
        AppCall.api "IDirect3DSurface9::Release"]
    else
      [AppCall.api "GetSurfaceLevel", AppCall.api "GetDesc", AppCall.api "GetDC",
        AppCall.api "CreateFontIndirect", AppCall.api "SelectObject", AppCall.api "SetBkMode",
        AppCall.api "SetTextColor", AppCall.DrawText i, AppCall.api "SelectObject",
        AppCall.api "DeleteObject", AppCall.api "ReleaseDC",
        AppCall.api "IDirect3DSurface9::Release", AppCall.api "D3DXFilterTexture"]

/-- The method `CGameApp::BuildObjects`; `none` when it calls through a `NULL`
`m_pD3DDevice` or `m_pVertexBuffer`, or writes through a `NULL` `pVertex`. The
`HRESULT`s of the six texture loads are combined with the bitwise `&=`
(`longAnd`), as in the source. -/
def CGameApp.BuildObjects (env : AppEnv) (app : CGameApp) :
    Option (Bool × CGameApp × List AppCall) :=
  let released := app.ReleaseObjects
  let a1 : CGameApp := released.1
  let l1 : List AppCall :=
    [AppCall.method AppMethod.BuildObjects, AppCall.api "srand"] ++ released.2
  match a1.m_pD3DDevice with
  | none => none
  | some _ =>
    let hRet : Int := env.CreateVertexBuffer.hRet
    let a2 : CGameApp := { a1 with m_pVertexBuffer := env.CreateVertexBuffer.pointer }
    let l2 : List AppCall := l1 ++ [AppCall.api "CreateVertexBuffer"]
    if FAILED hRet then some (false, a2, l2)
    else
      match a2.m_pVertexBuffer with
      | none => none
      | some _ =>
        let hRet : Int := env.Lock.hRet
        let pVertex : Option Nat := env.Lock.pointer
        let l3 : List AppCall := l2 ++ [AppCall.api "Lock"]
        if FAILED hRet then some (false, a2, l3)
        else
          match pVertex with
          | none => none
          | some _ =>
            let l4 : List AppCall := l3 ++ cubeVertices.map AppCall.WriteVertex
              ++ [AppCall.api "Unlock"]
            let a3 : CGameApp := { a2 with m_pObject := [a2.m_pVertexBuffer, a2.m_pVertexBuffer] }
            let l5 : List AppCall := l4 ++
              [AppCall.api "D3DXMatrixTranslation", AppCall.api "D3DXMatrixTranslation"]
            let hRet : Int := (env.D3DXCreateTextureFromFile 0).hRet
            let hRet : Int := longAnd hRet (env.D3DXCreateTextureFromFile 1).hRet
            let hRet : Int := longAnd hRet (env.D3DXCreateTextureFromFile 2).hRet
            let hRet : Int := longAnd hRet (env.D3DXCreateTextureFromFile 3).hRet
            let hRet : Int := longAnd hRet (env.D3DXCreateTextureFromFile 4).hRet
            let hRet : Int := longAnd hRet (env.D3DXCreateTextureFromFile 5).hRet
            let a4 : CGameApp :=
              { a3 with
                  m_pTextures :=
                    [(env.D3DXCreateTextureFromFile 0).texture,
                      (env.D3DXCreateTextureFromFile 1).texture,
                      (env.D3DXCreateTextureFromFile 2).texture,
                      (env.D3DXCreateTextureFromFile 3).texture,
                      (env.D3DXCreateTextureFromFile 4).texture,
                      (env.D3DXCreateTextureFromFile 5).texture] }
            let l6 : List AppCall := l5 ++
              (List.replicate 6 (AppCall.api "D3DXCreateTextureFromFile"))
            if FAILED hRet then some (false, a4, l6)
            else
              some (true, a4,
                l6 ++ ((List.range 6).map fun i => a4.drawOnTexture env i).flatten)

/-- The method `CGameApp::InitInstance`. -/
def CGameApp.InitInstance (env : AppEnv) (app : CGameApp) :
    Option (Bool × CGameApp × List AppCall) :=
  let created := app.CreateDisplay env
  if !created.1 then
    let down := created.2.1.ShutDown
    some (false, down.2.1, created.2.2 ++ down.2.2)
  else
    match created.2.1.BuildObjects env with
    | none => none
    | some built =>
      if !built.1 then
        let down := built.2.1.ShutDown
        some (false, down.2.1, created.2.2 ++ built.2.2 ++ down.2.2)
      else
        let state := built.2.1.SetupGameState
        match state.1.SetupRenderStates env with
        | none => none
        | some render =>
          some (true, render.1, created.2.2 ++ built.2.2 ++ state.2 ++ render.2)

/-- The method `CGameApp::ChangeDevice`; `none` when `BuildObjects` or
`SetupRenderStates` calls through a `NULL` pointer. -/
def CGameApp.ChangeDevice (env : AppEnv) (app : CGameApp) :
    Option (CGameApp × List AppCall) :=
  let released := app.ReleaseObjects
  let a1 : CGameApp := released.1
  let l1 : List AppCall := [AppCall.method AppMethod.ChangeDevice] ++ released.2
    ++ [AppCall.api "Enumerate"]
  if FAILED env.Enumerate then
    some (a1, l1 ++
      [AppCall.MessageBox "Device enumeration failed. The application will now exit.",
        AppCall.api "PostQuitMessage"])
  else
    let l2 : List AppCall := l1 ++ [AppCall.api "ShowDialog"]
    if !env.DialogOk then some (a1, l2)
    else
      let a2 : CGameApp := { a1 with m_D3DSettings_Windowed := env.DialogWindowed }
      let l3 : List AppCall := l2 ++ releaseIfSet a2.m_pD3DDevice
      let a3 : CGameApp := { a2 with m_pD3DDevice := none }
      let l4 : List AppCall := l3 ++ [AppCall.api "CMyD3DInit::CreateDisplay"]
      if FAILED env.CreateDisplayResult then
        some (a3, l4 ++
          [AppCall.MessageBox "Device creation failed. The application will now exit.",
            AppCall.api "PostQuitMessage"])
      else
        let a4 : CGameApp := { a3 with m_pD3DDevice := env.GetDirect3DDevice }
        let l5 : List AppCall := l4 ++
          (if a4.m_D3DSettings_Windowed then [AppCall.api "SetMenu"] else [])
        match a4.BuildObjects env with
        | none => none
        | some built =>
          match built.2.1.SetupRenderStates env with
          | none => none
          | some render => some (render.1, l5 ++ built.2.2 ++ render.2)

/-- The flags argument of the `CheckMenuItem` calls,
`MF_BYCOMMAND | (flag) ? MF_CHECKED : MF_UNCHECKED`, in which `|` binds tighter
than `?:`. -/
def checkFlags (flag : Bool) : Nat :=
  if (MF_BYCOMMAND ||| (if flag then 1 else 0)) ≠ 0 then MF_CHECKED else MF_UNCHECKED

/-- The method `CGameApp::DisplayWndProc`: the `LRESULT`, the application
afterwards and what was called. The inner `switch` of `WM_COMMAND` is not
followed by a `break`, so its cases that `break` go on into `default:` and end
in `DefWindowProc`. `SendMessage` and `DefWindowProc` are recorded as calls;
`none` when `SetupRenderStates` or `BuildObjects` calls through a `NULL`
pointer. -/
def CGameApp.DisplayWndProc (env : AppEnv) (app : CGameApp) (Message wParam lParam : Nat) :
    Option (Int × CGameApp × List AppCall) :=
  if Message = WM_CREATE then some (0, app, [])
  else if Message = WM_CLOSE then some (0, app, [AppCall.api "PostQuitMessage"])
  else if Message = WM_DESTROY then some (0, app, [AppCall.api "PostQuitMessage"])
  else if Message = WM_SIZE then
    if wParam = SIZE_MINIMIZED then some (0, { app with m_bActive := false }, [])
    else
      let a1 : CGameApp :=
        { app with
            m_bActive := true
            m_nViewWidth := (LOWORD lParam : Nat)
            m_nViewHeight := (HIWORD lParam : Nat) }
      if a1.m_pD3DDevice.isSome then
        match a1.SetupRenderStates env with
        | none => none
        | some render => some (0, render.1, [AppCall.api "ResetDisplay"] ++ render.2)
      else some (0, a1, [])
  else if Message = WM_KEYDOWN then
    if wParam = VK_ESCAPE then some (0, app, [AppCall.api "PostQuitMessage"])
    else if wParam = VK_RETURN then
      if env.ShiftKeyState &&& 0xFF00 ≠ 0 then
        let a1 : CGameApp := { app with m_D3DSettings_Windowed := !app.m_D3DSettings_Windowed }
        match a1.SetupRenderStates env with
        | none => none
        | some render =>
          some (0, render.1, [AppCall.api "GetKeyState", AppCall.api "ResetDisplay"] ++ render.2
            ++ (if render.1.m_D3DSettings_Windowed then [AppCall.api "SetMenu"] else []))
      else some (0, app, [AppCall.api "GetKeyState"])
    else some (0, app, [])
  else if Message = WM_COMMAND then
    if LOWORD wParam = env.ids.ID_ANIM_ROTATION1 then
      let a1 : CGameApp := { app with m_bRotation1 := !app.m_bRotation1 }
      some (env.DefWindowProc, a1,
        [AppCall.api "GetMenu",
          AppCall.CheckMenuItem env.ids.ID_ANIM_ROTATION1 (checkFlags a1.m_bRotation1),
          AppCall.DefWindowProc Message wParam lParam])
    else if LOWORD wParam = env.ids.ID_ANIM_ROTATION2 then
      let a1 : CGameApp := { app with m_bRotation2 := !app.m_bRotation2 }
      some (env.DefWindowProc, a1,
        [AppCall.api "GetMenu",
          AppCall.CheckMenuItem env.ids.ID_ANIM_ROTATION2 (checkFlags a1.m_bRotation2),
          AppCall.DefWindowProc Message wParam lParam])
    else if LOWORD wParam = env.ids.ID_FILE_CHANGEDEVICE then
      match app.ChangeDevice env with
      | none => none
      | some changed =>
        some (env.DefWindowProc, changed.1,
          changed.2 ++ [AppCall.DefWindowProc Message wParam lParam])
    else if LOWORD wParam = env.ids.ID_EXIT then
      some (0, app, [AppCall.api "SendMessage WM_CLOSE"])
    else some (env.DefWindowProc, app, [AppCall.DefWindowProc Message wParam lParam])
  else some (env.DefWindowProc, app, [AppCall.DefWindowProc Message wParam lParam])

/-- The methods of `CGameApp` entered during a run, in order. -/
def methodsOf (log : List AppCall) : List AppMethod :=
  log.filterMap fun c =>
    match c with
    | AppCall.method m => some m
    | _ => none

/-- The pointers the environment hands out are valid: a device creation, a
vertex buffer creation or a lock that does not fail gives a non-`NULL`
pointer. -/
def AppEnv.PointersValid (env : AppEnv) : Prop :=
  (FAILED env.CreateDisplayResult = false → env.GetDirect3DDevice.isSome = true) ∧
  (FAILED env.CreateVertexBuffer.hRet = false → env.CreateVertexBuffer.pointer.isSome = true) ∧
  (FAILED env.Lock.hRet = false → env.Lock.pointer.isSome = true)

/-- A `CGameApp` as its constructor leaves it: handles, interface pointers and
textures `NULL`, `m_bLostDevice` false. The members the constructor does not
write are given the values below. -/
def appNew : CGameApp where
  m_hWnd := none
  m_pD3D := none
  m_pD3DDevice := none
  m_hIcon := none
  m_hMenu := none
  m_bLostDevice := false
  m_pVertexBuffer := none
  m_pTextures := List.replicate 6 none
  m_pObject := [none, none]
  m_bRotation1 := false
  m_bRotation2 := true
  m_bActive := false
  m_nViewX := 0
  m_nViewY := 0
  m_nViewWidth := 0
  m_nViewHeight := 0
  m_bFilterEnabled := false
  m_bMipEnabled := false
  m_D3DSettings_Windowed := false

/-- An environment in which every call succeeds (`S_OK` is 0) and returns a
distinct non-`NULL` pointer or handle. -/
def envOk : AppEnv where
  Direct3DCreate9 := some 1
  Enumerate := 0
  Windowed := true
  CreateDisplayResult := 0
  GetDirect3DDevice := some 2
  GetHWND := some 3
  LoadIcon := some 4
  LoadMenu := some 5
  GetClientRect := ⟨0, 0, 400, 400⟩
  CreateVertexBuffer := ⟨0, some 6⟩
  Lock := ⟨0, some 7⟩
  D3DXCreateTextureFromFile := fun i => ⟨0, some (10 + i)⟩
  GetSurfaceLevel := fun _ => 0
  GetDC := fun _ => 0
  GetDeviceCaps := 0
  TextureFilterCaps := 0x03030300
  DefWindowProc := 0
  ShiftKeyState := 0
  DialogOk := true
  DialogWindowed := true
  ids := ⟨40001, 40002, 40003, 40004⟩

/-- The `HRESULT` `E_FAIL`, `0x80004005` as a `long`. -/
def E_FAIL : Int := -2147467259

/-- As `envOk`, but the load of `texture_01.jpg` fails with `E_FAIL` and leaves
`m_pTextures[0]` `NULL`. -/
def envOneTextureMissing : AppEnv :=
  { envOk with
      D3DXCreateTextureFromFile := fun i => if i = 0 then ⟨E_FAIL, none⟩ else ⟨0, some (10 + i)⟩ }

/-- As `envOk`, but each of the six texture loads fails with `E_FAIL`. -/
def envNoTextures : AppEnv :=
  { envOk with D3DXCreateTextureFromFile := fun _ => ⟨E_FAIL, none⟩ }

/-- As `envOk`, but `Direct3DCreate9` returns `NULL`. -/
def envNoD3D : AppEnv :=
  { envOk with Direct3DCreate9 := none }

/-- The application `appNew` once it has a Direct3D object and a device. -/
def appWithDevice : CGameApp :=
  { appNew with m_pD3D := some 1, m_pD3DDevice := some 2 }

/-! ## Winding of the terrain block strip -/

/-- The (column, row) of local vertex `i` of a block: the vertex loop of
`BuildMeshes` fills `pVertex[Counter]` row by row, `BlockWidth` vertices per
row, so vertex `i` is sample `(i % BlockWidth, i / BlockWidth)` of the block. -/
def gridPoint (i : Nat) : Int × Int := ((i % BlockWidth : Nat), (i / BlockWidth : Nat))

/-- The 2D cross product of the edges `b - a` and `c - a`: twice the signed
area of the triangle `a b c` in the (column, row) plane. -/
def edgeCross (a b c : Int × Int) : Int :=
  (b.1 - a.1) * (c.2 - a.2) - (b.2 - a.2) * (c.1 - a.1)

/-- The vertex order in which triangle `k` of a triangle strip is wound: the
indices at positions `k`, `k + 1`, `k + 2`, the first two swapped when `k` is
odd. -/
def woundTriangle (k : Nat) (tri : Nat × Nat × Nat) : Nat × Nat × Nat :=
  if k % 2 = 1 then (tri.2.1, tri.1, tri.2.2) else tri

/-- The vertex order Direct3D documents for `D3DPT_TRIANGLESTRIP`: the last two
indices swapped when `k` is odd. -/
def woundTriangleD3D (k : Nat) (tri : Nat × Nat × Nat) : Nat × Nat × Nat :=
  if k % 2 = 1 then (tri.1, tri.2.2, tri.2.1) else tri

/-- The orientation of a triangle of block vertices in the grid plane. -/
def orientation (tri : Nat × Nat × Nat) : Int :=
  edgeCross (gridPoint tri.1) (gridPoint tri.2.1) (gridPoint tri.2.2)

/-! ## `CTerrain::UpdateCamera` -/

/-- The conversion `(ULONG)f` of a float: truncation toward zero, taken modulo
`2^32` (C++ defines the result only for `0 <= f < 2^32`, where the two agree). -/
def castULong (f : ℚ) : Nat := toULong (castInt f)

/-- A call that `UpdateCamera` makes on the camera, with its argument. -/
inductive CameraCall where
  | SetPosition : D3DXVECTOR3 → CameraCall
  | SetLookAt : D3DXVECTOR3 → CameraCall
deriving DecidableEq

/-- Whether the call is `SetPosition`. -/
def CameraCall.setsPosition : CameraCall → Bool
  | .SetPosition _ => true
  | .SetLookAt _ => false

/-- Modelled from the spec: `CCamera::SetPosition` and `CCam3rdPerson::SetLookAt`
are defined in `CCamera.h` / `CCamera.cpp`, which are not among the sources;
`SetPosition` is taken to make its argument the camera position, and `SetLookAt`
to turn the camera without moving it. -/
def CCamera.perform (c : CCamera) : CameraCall → CCamera
  | .SetPosition v => { c with m_vecPos := v }
  | .SetLookAt _ => c

/-- The camera after a sequence of calls. -/
def CCamera.performAll (c : CCamera) (calls : List CameraCall) : CCamera :=
  calls.foldl CCamera.perform c

/-- `CTerrain::UpdateCamera` (static): the calls it makes on the camera, in
order. `pPlayer` is what `pCamera->GetPlayer()` returns. `none` when the run has
no defined result (`GetHeight` read outside the heightmap). -/
def CTerrain.UpdateCamera (pContext : Option CTerrain) (pCamera : Option CCamera)
    (pPlayer : Option CPlayer) (_TimeScale : ℚ) : Option (List CameraCall) :=
  match pContext, pCamera with
  | some pTerrain, some c =>
    -- Validate Requirements
    if c.m_CameraMode ≠ CAMERA_MODE.MODE_THIRDPERSON then some []
    else
      let Volume := c.m_Volume
      let Position := c.m_vecPos
      -- Determine which row we are on
      let PosZ : Nat := castULong (Position.z / pTerrain.m_vecScale.z)
      let ReverseQuad : Bool := if PosZ % 2 ≠ 0 then true else false
      (pTerrain.GetHeight Position.x Position.z ReverseQuad).bind fun g =>
      let fHeight := g - Volume.Min.y
      -- Determine if the position is lower than the height at this position
      let colliding : Bool := decide (Position.y < fHeight)
      let Position := if colliding then { Position with y := fHeight } else Position
      let collisionCalls := if colliding then [CameraCall.SetPosition Position] else []
      -- Retrieve the player at which the camera is looking
      match pPlayer with
      | none => some collisionCalls
      | some player => some (collisionCalls ++ [CameraCall.SetLookAt player.m_vecPos])
  | _, _ => some []

/-- A third-person camera below the terrain surface at the grid point `(2, 3)`
of `terrain17`. -/
def cameraBelow : CCamera :=
  ⟨CAMERA_MODE.MODE_THIRDPERSON, ⟨256, 20, 384⟩, ⟨⟨-3, -3, -3⟩, ⟨3, 3, 3⟩⟩⟩

/-! ## `CGameApp::FrameAdvance` -/

/-- The `HRESULT` `D3DERR_DEVICENOTRESET`, `0x88760869` as a `long`. -/
def D3DERR_DEVICENOTRESET : Int := -2005530519

/-- What one call of `FrameAdvance` meets outside `CGameApp.cpp`: the four
`GetKeyState` results of `ProcessInput` and the `HRESULT`s of
`TestCooperativeLevel` and `Present`. -/
structure FrameEnv where
  KeyDown : Nat
  KeyUp : Nat
  KeyLeft : Nat
  KeyRight : Nat
  TestCooperativeLevel : Int
  Present : Int
deriving DecidableEq

/-- The method `CGameApp::ProcessInput`: the calls it makes. A pressed key moves
the view matrix by `25.0f * m_Timer.GetTimeElapsed()`; the matrix entries are
not recorded. -/
def CGameApp.ProcessInput (frame : FrameEnv) (app : CGameApp) : List AppCall :=
  [AppCall.api "GetKeyState"]
    ++ (if frame.KeyDown &&& 0xFF00 ≠ 0 then [AppCall.api "CTimer::GetTimeElapsed"] else [])
    ++ [AppCall.api "GetKeyState"]
    ++ (if frame.KeyUp &&& 0xFF00 ≠ 0 then [AppCall.api "CTimer::GetTimeElapsed"] else [])
    ++ [AppCall.api "GetKeyState"]
    ++ (if frame.KeyLeft &&& 0xFF00 ≠ 0 then [AppCall.api "CTimer::GetTimeElapsed"] else [])
    ++ [AppCall.api "GetKeyState"]
    ++ (if frame.KeyRight &&& 0xFF00 ≠ 0 then [AppCall.api "CTimer::GetTimeElapsed"] else [])
    ++ (if app.m_pD3DDevice.isSome then [AppCall.api "SetTransform D3DTS_VIEW"] else [])

/-- The method `CGameApp::AnimateObjects`: the calls it makes; an object is
rotated only when its rotation flag is set. -/
def CGameApp.AnimateObjects (app : CGameApp) : List AppCall :=
  (if app.m_bRotation1 then
      [AppCall.api "CTimer::GetTimeElapsed", AppCall.api "CTimer::GetTimeElapsed",
        AppCall.api "CTimer::GetTimeElapsed", AppCall.api "D3DXMatrixRotationYawPitchRoll",
        AppCall.api "D3DXMatrixMultiply"]
    else [])
    ++ (if app.m_bRotation2 then
      [AppCall.api "CTimer::GetTimeElapsed", AppCall.api "CTimer::GetTimeElapsed",
        AppCall.api "CTimer::GetTimeElapsed", AppCall.api "D3DXMatrixRotationYawPitchRoll",
        AppCall.api "D3DXMatrixMultiply"]
    else [])

/-- The statements of `CGameApp::FrameAdvance` that follow the lost-device
block, from `ProcessInput()` to the `Present`; `none` when the device is
`NULL`. -/
def CGameApp.drawFrame (frame : FrameEnv) (app : CGameApp) : Option (CGameApp × List AppCall) :=
  -- Poll & Process input devices, animate the two objects
  let l1 : List AppCall := app.ProcessInput frame ++ app.AnimateObjects
  match app.m_pD3DDevice with
  | none => none
  | some _ =>
    let l2 : List AppCall := l1 ++ [AppCall.api "Clear", AppCall.api "BeginScene"]
      ++ (if app.m_bFilterEnabled then
            [AppCall.api "SetSamplerState D3DSAMP_MAGFILTER",
              AppCall.api "SetSamplerState D3DSAMP_MINFILTER"]
          else [])
      ++ (if app.m_bMipEnabled then [AppCall.api "SetSamplerState D3DSAMP_MIPFILTER"] else [])
    -- Loop through each object, one face per texture
    let l3 : List AppCall := l2 ++
      ((List.range 2).map fun _ =>
        [AppCall.api "SetTransform D3DTS_WORLD", AppCall.api "SetStreamSource"]
          ++ ((List.range 6).map fun _ =>
              [AppCall.api "SetTexture", AppCall.api "DrawPrimitive"]).flatten
          ++ [AppCall.api "SetSamplerState D3DSAMP_MAGFILTER",
              AppCall.api "SetSamplerState D3DSAMP_MINFILTER",
              AppCall.api "SetSamplerState D3DSAMP_MIPFILTER"]).flatten
    -- End Scene Rendering, present the buffer
    let l4 : List AppCall := l3 ++ [AppCall.api "EndScene", AppCall.api "Present"]
    if FAILED frame.Present then some ({ app with m_bLostDevice := true }, l4)
    else some (app, l4)

/-- The method `CGameApp::FrameAdvance`: the application afterwards and the
calls made; `none` when it calls through a `NULL` `m_pD3DDevice` or `m_pD3D`. -/
def CGameApp.FrameAdvance (env : AppEnv) (frame : FrameEnv) (app : CGameApp) :
    Option (CGameApp × List AppCall) :=
  -- Advance the timer
  let l0 : List AppCall := [AppCall.api "CTimer::Tick"]
  -- Skip if app is inactive
  if !app.m_bActive then some (app, l0)
  else if app.m_bLostDevice then
    -- Can we reset the device yet ?
    match app.m_pD3DDevice with
    | none => none
    | some _ =>
      let hRet : Int := frame.TestCooperativeLevel
      let l1 : List AppCall := l0 ++ [AppCall.api "TestCooperativeLevel"]
      if hRet = D3DERR_DEVICENOTRESET then
        -- Restore the device
        match app.SetupRenderStates env with
        | none => none
        | some render =>
          let a1 : CGameApp := { render.1 with m_bLostDevice := false }
          match a1.drawFrame frame with
          | none => none
          | some drawn => some (drawn.1, l1 ++ [AppCall.api "ResetDisplay"] ++ render.2 ++ drawn.2)
      else some (app, l1)
  else
    match app.drawFrame frame with
    | none => none
    | some drawn => some (drawn.1, l0 ++ drawn.2)

/-- Consecutive calls of `FrameAdvance`, as the idle loop of `BeginGame` makes
them, one per entry of `frames`: the application and the calls after each. -/
def CGameApp.runFrames (env : AppEnv) :
    List FrameEnv → CGameApp → Option (List (CGameApp × List AppCall))
  | [], _ => some []
  | frame :: frames, app =>
    match app.FrameAdvance env frame with
    | none => none
    | some r =>
      match CGameApp.runFrames env frames r.1 with
      | none => none
      | some rest => some (r :: rest)

/-- Whether the call is one of `Clear`, `BeginScene`, `DrawPrimitive`,
`EndScene`, `Present`. -/
def AppCall.isRenderCall : AppCall → Bool
  | AppCall.api name =>
    decide (name ∈ ["Clear", "BeginScene", "DrawPrimitive", "EndScene", "Present"])
  | _ => false

/-- The rendering calls of a run, in order. -/
def renderCalls (log : List AppCall) : List AppCall := log.filter AppCall.isRenderCall

/-- The rendering calls of one rendered frame: `Clear`, `BeginScene`, the twelve
`DrawPrimitive` (two objects, six faces), `EndScene`, `Present`. -/
def frameCalls : List AppCall :=
  [AppCall.api "Clear", AppCall.api "BeginScene"]
    ++ List.replicate 12 (AppCall.api "DrawPrimitive")
    ++ [AppCall.api "EndScene", AppCall.api "Present"]

/-- The two-state machine of the lost-device handling as the specification
words it, to be compared with `FrameAdvance`: from the flags `active` and `lost`
and the results of the frame, whether the frame renders and the flag
afterwards. An inactive application renders nothing and keeps the flag; a lost
device renders only when `TestCooperativeLevel` gives `D3DERR_DEVICENOTRESET`;
a frame that renders leaves the flag set exactly when `Present` fails. -/
def lostDeviceMachine (active lost : Bool) (frame : FrameEnv) : Bool × Bool :=
  if !active then (false, lost)
  else if lost && decide (frame.TestCooperativeLevel ≠ D3DERR_DEVICENOTRESET) then (false, true)
  else (true, FAILED frame.Present)

/-- The machine run over a sequence of frames: for each frame whether it renders
and the flag after it. -/
def lostDeviceRun (active : Bool) : Bool → List FrameEnv → List (Bool × Bool)
  | _, [] => []
  | lost, frame :: frames =>
    lostDeviceMachine active lost frame ::
      lostDeviceRun active (lostDeviceMachine active lost frame).2 frames

/-- The application `appWithDevice`, active. -/
def appActive : CGameApp :=
  { appWithDevice with m_bActive := true }

/-- A frame in which no key is down, the device is in working order and
`Present` succeeds. -/
def frameOk : FrameEnv := ⟨0, 0, 0, 0, 0, 0⟩

/-- A frame in which `Present` fails with `D3DERR_DEVICELOST` (`0x88760868`). -/
def framePresentFails : FrameEnv := ⟨0, 0, 0, 0, 0, -2005530520⟩

/-- A frame in which the device is still lost: `TestCooperativeLevel` gives
`D3DERR_DEVICELOST`. -/
def frameStillLost : FrameEnv := ⟨0, 0, 0, 0, -2005530520, 0⟩

/-- A frame in which the device can be reset: `TestCooperativeLevel` gives
`D3DERR_DEVICENOTRESET`, and `Present` then succeeds. -/
def frameNotReset : FrameEnv := ⟨0, 0, 0, 0, D3DERR_DEVICENOTRESET, 0⟩

/-! ## Predicates and sample data used in the statement about `RenderWater` -/

theorem castInt_natCast (n : Nat) : castInt (n : ℚ) = (n : Int) := by
  unfold castInt
  have h : ¬ ((n : ℚ) < 0) := not_lt.mpr (Nat.cast_nonneg n)
  rw [if_neg h]
  exact Int.floor_natCast n

theorem ulongIndex_natCast (a b W : Nat) (h : a + b * W < 2 ^ 32) :
    ulongIndex (a : Int) (b : Int) W = a + b * W := by
  unfold ulongIndex ULONG_RANGE
  have e : ((a : Int) + (b : Int) * (W : Int)) = ((a + b * W : Nat) : Int) := by push_cast; ring
  rw [e]
  have h2 : (((a + b * W : Nat) : Int) % ((2 ^ 32 : Nat) : Int)) = ((a + b * W : Nat) : Int) := by
    rw [← Int.natCast_mod, Nat.mod_eq_of_lt h]
  rw [h2]
  exact Int.toNat_natCast _

theorem heightMapAt_of_eq (t : CTerrain) (hm : List Nat) (h : t.m_pHeightMap = some hm) (i : Nat) :
    t.heightMapAt i = (hm.get? i).map (fun (b : Nat) => (b : ℚ)) := by
  unfold CTerrain.heightMapAt
  rw [h]

theorem castInt_add_one_natCast (n : Nat) : castInt (n : ℚ) + 1 = ((n + 1 : Nat) : Int) := by
  rw [castInt_natCast]; push_cast; rfl

/-- At a grid point strictly inside the last row and column, `GetHeight` is the
stored height times the Y scale. -/
theorem GetHeight_at_grid (t : CTerrain) (hm : List Nat) (ix iz : Nat) (ReverseQuad : Bool)
    (hmap : t.HasHeightMap hm)
    (hsx : t.m_vecScale.x ≠ 0) (hsz : t.m_vecScale.z ≠ 0)
    (hix : ix < t.m_nHeightMapWidth - 1) (hiz : iz < t.m_nHeightMapHeight - 1) :
    ∃ b : Nat, hm.get? (ix + iz * t.m_nHeightMapWidth) = some b ∧
      t.GetHeight ((ix : ℚ) * t.m_vecScale.x) ((iz : ℚ) * t.m_vecScale.z) ReverseQuad
        = some ((b : ℚ) * t.m_vecScale.y) := by
  obtain ⟨hp, hlen, hsmall⟩ := hmap
  set W := t.m_nHeightMapWidth with hW
  set H := t.m_nHeightMapHeight with hH
  have hixW : ix + 1 < W := by omega
  have hizH : iz + 1 < H := by omega
  -- every offset of the quad lies inside the array
  have hrow : (iz + 1) * W + W ≤ W * H := by
    have : (iz + 2) * W ≤ H * W := Nat.mul_le_mul_right W (by omega)
    nlinarith
  have b00 : ix + iz * W < hm.length := by rw [hlen]; nlinarith
  have b10 : (ix + 1) + iz * W < hm.length := by rw [hlen]; nlinarith
  have b01 : ix + (iz + 1) * W < hm.length := by rw [hlen]; nlinarith
  have b11 : (ix + 1) + (iz + 1) * W < hm.length := by rw [hlen]; nlinarith
  have i00 : ulongIndex (ix : Int) (iz : Int) W = ix + iz * W :=
    ulongIndex_natCast _ _ _ (by omega)
  have i10 : ulongIndex ((ix : Int) + 1) (iz : Int) W = (ix + 1) + iz * W := by
    have := ulongIndex_natCast (ix + 1) iz W (by omega)
    simpa using this
  have i01 : ulongIndex (ix : Int) ((iz : Int) + 1) W = ix + (iz + 1) * W := by
    have := ulongIndex_natCast ix (iz + 1) W (by omega)
    simpa using this
  have i11 : ulongIndex ((ix : Int) + 1) ((iz : Int) + 1) W = (ix + 1) + (iz + 1) * W := by
    have := ulongIndex_natCast (ix + 1) (iz + 1) W (by omega)
    simpa using this
  have ex : (ix : ℚ) * t.m_vecScale.x / t.m_vecScale.x = ix := mul_div_cancel_right₀ _ hsx
  have ez : (iz : ℚ) * t.m_vecScale.z / t.m_vecScale.z = iz := mul_div_cancel_right₀ _ hsz
  have hchk : ¬ ((ix : ℚ) < 0 ∨ (iz : ℚ) < 0 ∨ (ix : ℚ) ≥ (W : ℚ) ∨ (iz : ℚ) ≥ (H : ℚ)) := by
    have h1 : (ix : ℚ) < W := by exact_mod_cast (by omega : ix < W)
    have h2 : (iz : ℚ) < H := by exact_mod_cast (by omega : iz < H)
    have h3 : (0 : ℚ) ≤ ix := Nat.cast_nonneg _
    have h4 : (0 : ℚ) ≤ iz := Nat.cast_nonneg _
    rintro (h | h | h | h) <;> linarith
  refine ⟨hm.get ⟨ix + iz * W, b00⟩, List.get?_eq_get b00, ?_⟩
  unfold CTerrain.GetHeight
  simp only [ex, ez, ← hW, ← hH, if_neg hchk, castInt_natCast, i00, i10, i01, i11,
    heightMapAt_of_eq t hm hp, List.get?_eq_get b00, List.get?_eq_get b10,
    List.get?_eq_get b01, List.get?_eq_get b11, Option.map_some', Option.some_bind,
    Int.cast_natCast, sub_self]
  cases ReverseQuad <;> simp

/-- C1: at a grid point `(ix, iz)` with `ix < W - 1` and `iz < H - 1`, and a scale
whose x and z components are not zero, `GetHeight (ix * scale.x) (iz * scale.z)`
is the stored height `heightmap[ix + iz * W] * scale.y`, whatever `ReverseQuad`. -/
theorem GetHeight_grid_point (t : CTerrain) (hm : List Nat) (ix iz : Nat) (ReverseQuad : Bool)
    (hmap : t.HasHeightMap hm)
    (hsx : t.m_vecScale.x ≠ 0) (hsz : t.m_vecScale.z ≠ 0)
    (hix : ix < t.m_nHeightMapWidth - 1) (hiz : iz < t.m_nHeightMapHeight - 1) :
    ∃ b : Nat, hm.get? (ix + iz * t.m_nHeightMapWidth) = some b ∧
      t.GetHeight ((ix : ℚ) * t.m_vecScale.x) ((iz : ℚ) * t.m_vecScale.z) ReverseQuad
        = some ((b : ℚ) * t.m_vecScale.y) :=
  GetHeight_at_grid t hm ix iz ReverseQuad hmap hsx hsz hix hiz

theorem terrain17_hasHeightMap :
    terrain17.HasHeightMap ((List.range 289).map (fun i => i % 256)) := by
  refine ⟨rfl, ?_, ?_⟩ <;> simp [terrain17]

theorem GetHeight_grid_point_witness :
    ∃ b : Nat, ((List.range 289).map (fun i => i % 256)).get? (3 + 5 * 17) = some b ∧
      terrain17.GetHeight ((3 : Nat) * 128) ((5 : Nat) * 128) true = some ((b : ℚ) * 2) :=
  GetHeight_grid_point terrain17 _ 3 5 true terrain17_hasHeightMap
    (by simp [terrain17]) (by simp [terrain17]) (by simp [terrain17]) (by simp [terrain17])

/-- C2 (evaluation at the failing input): on the 17 x 17 terrain the point
`x = 0, z = 2048` passes the bounds check (`z / scale.z = 16 < 17`), and
`GetHeight` then reads offset `0 + (16 + 1) * 17 = 289`, which is not below
`17 * 17 = 289`: the read is outside the heightmap. -/
theorem GetHeight_reads_past_heightmap :
    ¬ ((0 : ℚ) / terrain17.m_vecScale.x < 0 ∨ (2048 : ℚ) / terrain17.m_vecScale.z < 0 ∨
        (0 : ℚ) / terrain17.m_vecScale.x ≥ (terrain17.m_nHeightMapWidth : ℚ) ∨
        (2048 : ℚ) / terrain17.m_vecScale.z ≥ (terrain17.m_nHeightMapHeight : ℚ)) ∧
      terrain17.GetHeightReads 0 2048 false = [273, 289, 272] ∧
      ¬ (289 < terrain17.m_nHeightMapWidth * terrain17.m_nHeightMapHeight) ∧
      terrain17.GetHeight 0 2048 false = none := by
  have c : castInt (16 : ℚ) = 16 := castInt_natCast 16
  have c0 : castInt (0 : ℚ) = 0 := by simpa using castInt_natCast 0
  have i1 : ulongIndex (0 + 1) 16 17 = 273 := by decide
  have i2 : ulongIndex 0 (16 + 1) 17 = 289 := by decide
  have i3 : ulongIndex 0 16 17 = 272 := by decide
  have r1 : terrain17.heightMapAt 273 = some 17 := by
    rw [heightMapAt_of_eq terrain17 _ rfl]
    simp
  have r2 : terrain17.heightMapAt 289 = none := by
    rw [heightMapAt_of_eq terrain17 _ rfl, List.get?_eq_none.mpr (by simp)]
    rfl
  have ex : (0 : ℚ) / terrain17.m_vecScale.x = 0 := by norm_num [terrain17]
  have ez : (2048 : ℚ) / terrain17.m_vecScale.z = 16 := by norm_num [terrain17]
  have hW : terrain17.m_nHeightMapWidth = 17 := rfl
  have hH : terrain17.m_nHeightMapHeight = 17 := rfl
  have hchk : ¬ ((0 : ℚ) < 0 ∨ (16 : ℚ) < 0 ∨ (0 : ℚ) ≥ ((17 : Nat) : ℚ) ∨
      (16 : ℚ) ≥ ((17 : Nat) : ℚ)) := by norm_num
  refine ⟨?_, ?_, ?_, ?_⟩
  · rw [ex, ez, hW, hH]; exact hchk
  · unfold CTerrain.GetHeightReads
    simp only [ex, ez, hW, hH, if_neg hchk, c, c0, i1, i2, i3]
    norm_num
  · rw [hW, hH]; decide
  · unfold CTerrain.GetHeight
    simp only [ex, ez, hW, hH, if_neg hchk, c, c0, i1, i2, i3, r1, r2]
    simp

/-- C10: when the scaled location is out of bounds (`x / scale.x < 0`, or
`z / scale.z < 0`, or `x / scale.x >= W`, or `z / scale.z >= H`), `GetHeight`
returns 0 and reads nothing from the heightmap, whatever `ReverseQuad`. -/
theorem GetHeight_out_of_bounds (t : CTerrain) (x z : ℚ) (ReverseQuad : Bool)
    (_hsx : 0 < t.m_vecScale.x) (_hsz : 0 < t.m_vecScale.z)
    (hoob : x / t.m_vecScale.x < 0 ∨ z / t.m_vecScale.z < 0 ∨
      x / t.m_vecScale.x ≥ (t.m_nHeightMapWidth : ℚ) ∨
      z / t.m_vecScale.z ≥ (t.m_nHeightMapHeight : ℚ)) :
    t.GetHeight x z ReverseQuad = some 0 ∧ t.GetHeightReads x z ReverseQuad = [] := by
  unfold CTerrain.GetHeight CTerrain.GetHeightReads
  simp only [if_pos hoob, and_self]

theorem GetHeight_out_of_bounds_witness :
    terrain17.GetHeight 2176 0 true = some 0 ∧ terrain17.GetHeightReads 2176 0 true = [] :=
  GetHeight_out_of_bounds terrain17 2176 0 true (by norm_num [terrain17])
    (by norm_num [terrain17]) (by norm_num [terrain17])

theorem heightMapAt_eq_none_iff (t : CTerrain) (hm : List Nat) (h : t.m_pHeightMap = some hm)
    (i : Nat) : t.heightMapAt i = none ↔ hm.length ≤ i := by
  rw [heightMapAt_of_eq t hm h, Option.map_eq_none', List.get?_eq_none]

/-- The two readings of `GetHeight` agree: it has no result exactly when one of
the offsets it reads lies outside the heightmap array. -/
theorem GetHeight_eq_none_iff (t : CTerrain) (hm : List Nat) (h : t.m_pHeightMap = some hm)
    (x z : ℚ) (ReverseQuad : Bool) :
    t.GetHeight x z ReverseQuad = none ↔
      ∃ i ∈ t.GetHeightReads x z ReverseQuad, hm.length ≤ i := by
  unfold CTerrain.GetHeight CTerrain.GetHeightReads
  simp only []
  split_ifs with hchk hrq h1 h2
  · simp
  all_goals
    simp only [List.mem_cons, List.mem_singleton, List.not_mem_nil, or_false,
      exists_eq_or_imp, exists_eq_left, ← heightMapAt_eq_none_iff t hm h]
    generalize t.heightMapAt _ = a
    generalize t.heightMapAt _ = b
    generalize t.heightMapAt _ = c
    cases a <;> cases b <;> cases c <;> simp

theorem tmod_two_ne_zero_iff_odd (n : Int) : Int.tmod n 2 ≠ 0 ↔ Odd n := by
  rw [← Int.not_even_iff_odd, even_iff_two_dvd]
  constructor
  · intro h hd
    exact h (Int.tmod_eq_zero_of_dvd hd)
  · intro h h0
    exact h (Int.dvd_of_tmod_eq_zero h0)

/-- C3: with `h = GetHeight(pos.x, pos.z, rq) - Volume.Min.y`, where `rq` holds
exactly when the truncated row index `(int)(pos.z / scale.z)` is odd,
`UpdatePlayer` runs to completion and: if `pos.y < h` it calls `SetVelocity`
with `(vel.x, 0, vel.z)` and `SetPosition` with `(pos.x, h, pos.z)`, which
become the player's velocity and position; if `pos.y >= h` it calls neither and
position and velocity stay; either way the player's resulting y is `>= h`. -/
theorem UpdatePlayer_height_collision (t : CTerrain) (p : CPlayer) (camera : CCamera)
    (TimeScale g : ℚ)
    (hcam : p.m_pCamera = some camera)
    (hg : t.GetHeight p.m_vecPos.x p.m_vecPos.z
        (decide (Odd (castInt (p.m_vecPos.z / t.m_vecScale.z)))) = some g) :
    ∃ calls : List PlayerCall,
      CTerrain.UpdatePlayer (some t) (some p) TimeScale = some calls ∧
      (p.m_vecPos.y < g - p.m_Volume.Min.y →
        calls.filter PlayerCall.movesPlayer =
          [PlayerCall.SetVelocity ⟨p.m_vecVelocity.x, 0, p.m_vecVelocity.z⟩,
            PlayerCall.SetPosition ⟨p.m_vecPos.x, g - p.m_Volume.Min.y, p.m_vecPos.z⟩] ∧
        (p.performAll calls).m_vecPos = ⟨p.m_vecPos.x, g - p.m_Volume.Min.y, p.m_vecPos.z⟩ ∧
        (p.performAll calls).m_vecVelocity = ⟨p.m_vecVelocity.x, 0, p.m_vecVelocity.z⟩) ∧
      (g - p.m_Volume.Min.y ≤ p.m_vecPos.y →
        calls.filter PlayerCall.movesPlayer = [] ∧
        (p.performAll calls).m_vecPos = p.m_vecPos ∧
        (p.performAll calls).m_vecVelocity = p.m_vecVelocity) ∧
      g - p.m_Volume.Min.y ≤ (p.performAll calls).m_vecPos.y := by
  have hrq : decide (Int.tmod (castInt (p.m_vecPos.z / t.m_vecScale.z)) 2 ≠ 0)
      = decide (Odd (castInt (p.m_vecPos.z / t.m_vecScale.z))) :=
    decide_eq_decide.mpr (tmod_two_ne_zero_iff_odd _)
  unfold CTerrain.UpdatePlayer
  simp only [hrq, hg, hcam, Option.some_bind]
  refine ⟨_, rfl, ?_⟩
  by_cases hc : p.m_vecPos.y < g - p.m_Volume.Min.y
  · have hc2 : ¬ (g - p.m_Volume.Min.y ≤ p.m_vecPos.y) := not_le.mpr hc
    simp only [hc, hc2, decide_True, if_true, true_implies, false_implies, true_and]
    split_ifs <;>
      simp [CPlayer.performAll, CPlayer.perform, PlayerCall.movesPlayer, List.filter]
  · have hc2 : g - p.m_Volume.Min.y ≤ p.m_vecPos.y := not_lt.mp hc
    simp only [hc, hc2, decide_False, if_false, true_implies, false_implies, true_and,
      Bool.false_eq_true, List.nil_append]
    split_ifs <;>
      simp [CPlayer.performAll, CPlayer.perform, PlayerCall.movesPlayer, List.filter, hc2]

theorem terrain17_GetHeight_at_2_3 (ReverseQuad : Bool) :
    terrain17.GetHeight 256 384 ReverseQuad = some 106 := by
  obtain ⟨b, hb, hget⟩ := GetHeight_at_grid terrain17 _ 2 3 ReverseQuad terrain17_hasHeightMap
    (by simp [terrain17]) (by simp [terrain17]) (by simp [terrain17]) (by simp [terrain17])
  have hb2 : b = 53 := by
    have h53 : ((List.range 289).map (fun i => i % 256)).get? (2 + 3 * 17) = some 53 := by
      simp
    have hW : terrain17.m_nHeightMapWidth = 17 := rfl
    rw [hW, h53] at hb
    exact (Option.some.inj hb).symm
  subst hb2
  have e1 : ((2 : Nat) : ℚ) * terrain17.m_vecScale.x = 256 := by norm_num [terrain17]
  have e2 : ((3 : Nat) : ℚ) * terrain17.m_vecScale.z = 384 := by norm_num [terrain17]
  have e3 : ((53 : Nat) : ℚ) * terrain17.m_vecScale.y = 106 := by norm_num [terrain17]
  rw [e1, e2, e3] at hget
  exact hget

theorem UpdatePlayer_height_collision_witness :
    ∃ calls : List PlayerCall,
      CTerrain.UpdatePlayer (some terrain17) (some playerBelow) 1 = some calls ∧
      calls.filter PlayerCall.movesPlayer =
        [PlayerCall.SetVelocity ⟨1, 0, 2⟩, PlayerCall.SetPosition ⟨256, 116, 384⟩] ∧
      (116 : ℚ) ≤ (playerBelow.performAll calls).m_vecPos.y := by
  obtain ⟨calls, hrun, hlow, -, hy⟩ :=
    UpdatePlayer_height_collision terrain17 playerBelow
      ⟨CAMERA_MODE.MODE_THIRDPERSON, ⟨256, 20, 360⟩, ⟨⟨-3, -3, -3⟩, ⟨3, 3, 3⟩⟩⟩ 1 106 rfl
      (terrain17_GetHeight_at_2_3 _)
  have hlt : playerBelow.m_vecPos.y < 106 - playerBelow.m_Volume.Min.y := by
    norm_num [playerBelow]
  have hh : (106 : ℚ) - playerBelow.m_Volume.Min.y = 116 := by norm_num [playerBelow]
  refine ⟨calls, hrun, ?_, ?_⟩
  · have := (hlow hlt).1
    rw [hh] at this
    exact this
  · rw [hh] at hy
    exact hy

theorem CLIP_EPSILON_pos : 0 < CLIP_EPSILON := by
  unfold CLIP_EPSILON; norm_num

theorem classifyLocation_front {r : ℚ} (h : CLIP_EPSILON < r) : classifyLocation r = 1 := by
  unfold classifyLocation
  simp [h]

theorem classifyLocation_behind {r : ℚ} (h : r < -CLIP_EPSILON) : classifyLocation r = -1 := by
  have h2 : ¬ (CLIP_EPSILON < r) := by
    have := CLIP_EPSILON_pos
    linarith
  unfold classifyLocation
  simp [h, h2]

theorem classifyLocation_on {r : ℚ} (h1 : -CLIP_EPSILON ≤ r) (h2 : r ≤ CLIP_EPSILON) :
    classifyLocation r = 0 := by
  unfold classifyLocation
  simp [not_lt.mpr h1, not_lt.mpr h2]

/-- The intersection point that `D3DXPlaneIntersectLine` returns for two points
at different signed distances exists and lies on the plane. -/
theorem D3DXPlaneIntersectLine_on_plane (P : D3DXPLANE) (v1 v2 : D3DXVECTOR3)
    (h : D3DXPlaneDotCoord P v1 ≠ D3DXPlaneDotCoord P v2) :
    ∃ I, D3DXPlaneIntersectLine P v1 v2 = some I ∧ D3DXPlaneDotCoord P I = 0 := by
  unfold D3DXPlaneDotCoord at h
  have hdot : P.a * (v2.x - v1.x) + P.b * (v2.y - v1.y) + P.c * (v2.z - v1.z) ≠ 0 := by
    intro h0
    apply h
    linarith
  unfold D3DXPlaneIntersectLine
  simp only [D3DXVECTOR3.sub, if_neg hdot]
  refine ⟨_, rfl, ?_⟩
  unfold D3DXPlaneDotCoord
  field_simp
  ring

theorem pushPoint_eq (Points : List CLitVertex) (v : CLitVertex) :
    pushPoint Points v = if Points.length + 1 ≤ 5 then some (Points ++ [v]) else none := by
  unfold pushPoint
  by_cases h : Points.length < 5
  · rw [if_pos h, if_pos (by omega)]
  · rw [if_neg h, if_neg (by omega)]

theorem location_cases (d : ℚ) :
    (d < -CLIP_EPSILON ∧ d ≤ CLIP_EPSILON ∧ ¬ CLIP_EPSILON < d ∧ classifyLocation d = -1) ∨
    (¬ d < -CLIP_EPSILON ∧ d ≤ CLIP_EPSILON ∧ ¬ CLIP_EPSILON < d ∧ classifyLocation d = 0) ∨
    (¬ d < -CLIP_EPSILON ∧ ¬ d ≤ CLIP_EPSILON ∧ CLIP_EPSILON < d ∧ classifyLocation d = 1) := by
  have hε := CLIP_EPSILON_pos
  by_cases h1 : d < -CLIP_EPSILON
  · exact Or.inl ⟨h1, by linarith, by linarith, classifyLocation_behind h1⟩
  · by_cases h2 : d ≤ CLIP_EPSILON
    · exact Or.inr (Or.inl ⟨h1, h2, not_lt.mpr h2, classifyLocation_on (not_lt.mp h1) h2⟩)
    · exact Or.inr (Or.inr ⟨h1, h2, not_le.mp h2, classifyLocation_front (not_le.mp h2)⟩)

/-- What one pass of the clipping loop appends: the corner when it is not in
front, then at most one point, which lies on the plane. -/
theorem clipWaterEdge_spec (P : D3DXPLANE) (len : D3DXVECTOR3 → ℚ) (wp : Fin 4 → CLitVertex)
    (v1 : Fin 4) :
    ∃ inter : List CLitVertex,
      (∀ q ∈ inter, D3DXPlaneDotCoord P q.pos = 0) ∧
      inter.length =
        (if (D3DXPlaneDotCoord P (wp v1).pos < -CLIP_EPSILON ∧
              CLIP_EPSILON < D3DXPlaneDotCoord P (wp (v1 + 1)).pos) ∨
            (CLIP_EPSILON < D3DXPlaneDotCoord P (wp v1).pos ∧
              D3DXPlaneDotCoord P (wp (v1 + 1)).pos < -CLIP_EPSILON) then 1 else 0) ∧
      ∀ Points : List CLitVertex, Points.length ≤ 5 →
        clipWaterEdge P len wp Points v1 =
          (if Points.length +
              ((if D3DXPlaneDotCoord P (wp v1).pos ≤ CLIP_EPSILON then [wp v1] else []) ++
                inter).length ≤ 5
            then some (Points ++
              ((if D3DXPlaneDotCoord P (wp v1).pos ≤ CLIP_EPSILON then [wp v1] else []) ++
                inter))
            else none) := by
  have hε := CLIP_EPSILON_pos
  set d1 := D3DXPlaneDotCoord P (wp v1).pos with hd1
  set d2 := D3DXPlaneDotCoord P (wp (v1 + 1)).pos with hd2
  have spanning : d1 ≠ d2 →
      ∃ I, D3DXPlaneIntersectLine P (wp v1).pos (wp (v1 + 1)).pos = some I ∧
        D3DXPlaneDotCoord P I = 0 := fun hne =>
    D3DXPlaneIntersectLine_on_plane P (wp v1).pos (wp (v1 + 1)).pos hne
  unfold clipWaterEdge
  simp only [← hd1, ← hd2, pushPoint_eq]
  rcases location_cases d1 with ⟨a1, b1, c1, e1⟩ | ⟨a1, b1, c1, e1⟩ | ⟨a1, b1, c1, e1⟩ <;>
    rcases location_cases d2 with ⟨a2, b2, c2, e2⟩ | ⟨a2, b2, c2, e2⟩ | ⟨a2, b2, c2, e2⟩
  -- behind, behind
  · refine ⟨[], by simp, by simp [a1, a2, c1, c2], fun Points hlen => ?_⟩
    by_cases hl : Points.length + 1 ≤ 5 <;> simp [e1, e2, b1, hl]
  -- behind, on
  · refine ⟨[], by simp, by simp [a1, a2, c1, c2], fun Points hlen => ?_⟩
    by_cases hl : Points.length + 1 ≤ 5 <;> simp [e1, e2, b1, hl]
  -- behind, in front: the edge spans the plane
  · obtain ⟨I, hI, hIon⟩ := spanning (by intro h; linarith)
    refine ⟨[intersectionPoint len (wp v1) (wp (v1 + 1)) I], ?_, by simp [a1, a2, c1, c2],
      fun Points hlen => ?_⟩
    · intro q hq
      rw [List.mem_singleton] at hq
      subst hq
      exact hIon
    · by_cases hl : Points.length + 1 ≤ 5
      · by_cases hl2 : Points.length + 2 ≤ 5
        · simp [e1, e2, b1, hI, hl, hl2]
          omega
        · simp [e1, e2, b1, hI, hl, hl2]
          omega
      · simp [e1, e2, b1, hI, hl]
        rw [if_neg (by omega)]
  -- on, any
  · refine ⟨[], by simp, by simp [a1, a2, c1, c2], fun Points hlen => ?_⟩
    simp [e1, b1]
  · refine ⟨[], by simp, by simp [a1, a2, c1, c2], fun Points hlen => ?_⟩
    simp [e1, b1]
  · refine ⟨[], by simp, by simp [a1, a2, c1, c2], fun Points hlen => ?_⟩
    simp [e1, b1]
  -- in front, behind: the edge spans the plane
  · obtain ⟨I, hI, hIon⟩ := spanning (by intro h; linarith)
    refine ⟨[intersectionPoint len (wp v1) (wp (v1 + 1)) I], ?_, by simp [a1, a2, c1, c2],
      fun Points hlen => ?_⟩
    · intro q hq
      rw [List.mem_singleton] at hq
      subst hq
      exact hIon
    · simp [e1, e2, b1, hI]
  -- in front, on
  · refine ⟨[], by simp, by simp [a1, a2, c1, c2], fun Points hlen => ?_⟩
    simp [e1, e2, b1, hlen]
  -- in front, in front
  · refine ⟨[], by simp, by simp [a1, a2, c1, c2], fun Points hlen => ?_⟩
    simp [e1, e2, b1, hlen]

/-- A plane cuts a planar quad in at most two edges: kept corners and
intersection points together never exceed five. -/
theorem clip_count_le (d0 d1 d2 d3 : ℚ) (hplanar : d0 + d2 = d1 + d3) :
    (if d0 ≤ CLIP_EPSILON then 1 else 0) +
      (if (d0 < -CLIP_EPSILON ∧ CLIP_EPSILON < d1) ∨ (CLIP_EPSILON < d0 ∧ d1 < -CLIP_EPSILON)
        then 1 else 0) +
      ((if d1 ≤ CLIP_EPSILON then 1 else 0) +
      (if (d1 < -CLIP_EPSILON ∧ CLIP_EPSILON < d2) ∨ (CLIP_EPSILON < d1 ∧ d2 < -CLIP_EPSILON)
        then 1 else 0)) +
      ((if d2 ≤ CLIP_EPSILON then 1 else 0) +
      (if (d2 < -CLIP_EPSILON ∧ CLIP_EPSILON < d3) ∨ (CLIP_EPSILON < d2 ∧ d3 < -CLIP_EPSILON)
        then 1 else 0)) +
      ((if d3 ≤ CLIP_EPSILON then 1 else 0) +
      (if (d3 < -CLIP_EPSILON ∧ CLIP_EPSILON < d0) ∨ (CLIP_EPSILON < d3 ∧ d0 < -CLIP_EPSILON)
        then 1 else 0)) ≤ 5 := by
  have hε := CLIP_EPSILON_pos
  rcases location_cases d0 with ⟨a0, b0, c0, -⟩ | ⟨a0, b0, c0, -⟩ | ⟨a0, b0, c0, -⟩ <;>
    rcases location_cases d1 with ⟨a1, b1, c1, -⟩ | ⟨a1, b1, c1, -⟩ | ⟨a1, b1, c1, -⟩ <;>
    rcases location_cases d2 with ⟨a2, b2, c2, -⟩ | ⟨a2, b2, c2, -⟩ | ⟨a2, b2, c2, -⟩ <;>
    rcases location_cases d3 with ⟨a3, b3, c3, -⟩ | ⟨a3, b3, c3, -⟩ | ⟨a3, b3, c3, -⟩ <;>
    first
    | (exfalso; linarith)
    | simp [a0, b0, c0, a1, b1, c1, a2, b2, c2, a3, b3, c3]

/-- The clipping loop on a planar quad runs to completion; its output is, corner
by corner, the corner when it is not in front followed by the intersection
points (all on the plane) of the edge that leaves it. -/
theorem clipWaterQuad_spec (P : D3DXPLANE) (len : D3DXVECTOR3 → ℚ) (wp : Fin 4 → CLitVertex)
    (hplanar : D3DXPlaneDotCoord P (wp 0).pos + D3DXPlaneDotCoord P (wp 2).pos =
      D3DXPlaneDotCoord P (wp 1).pos + D3DXPlaneDotCoord P (wp 3).pos) :
    ∃ i0 i1 i2 i3 : List CLitVertex,
      (∀ q ∈ i0 ++ i1 ++ i2 ++ i3, D3DXPlaneDotCoord P q.pos = 0) ∧
      clipWaterQuad P len wp = some
        (((if D3DXPlaneDotCoord P (wp 0).pos ≤ CLIP_EPSILON then [wp 0] else []) ++ i0) ++
          ((if D3DXPlaneDotCoord P (wp 1).pos ≤ CLIP_EPSILON then [wp 1] else []) ++ i1) ++
          ((if D3DXPlaneDotCoord P (wp 2).pos ≤ CLIP_EPSILON then [wp 2] else []) ++ i2) ++
          ((if D3DXPlaneDotCoord P (wp 3).pos ≤ CLIP_EPSILON then [wp 3] else []) ++ i3)) := by
  obtain ⟨i0, on0, len0, run0⟩ := clipWaterEdge_spec P len wp 0
  obtain ⟨i1, on1, len1, run1⟩ := clipWaterEdge_spec P len wp 1
  obtain ⟨i2, on2, len2, run2⟩ := clipWaterEdge_spec P len wp 2
  obtain ⟨i3, on3, len3, run3⟩ := clipWaterEdge_spec P len wp 3
  have s0 : (0 : Fin 4) + 1 = 1 := rfl
  have s1 : (1 : Fin 4) + 1 = 2 := rfl
  have s2 : (2 : Fin 4) + 1 = 3 := rfl
  have s3 : (3 : Fin 4) + 1 = 0 := rfl
  rw [s0] at len0
  rw [s1] at len1
  rw [s2] at len2
  rw [s3] at len3
  have hcount := clip_count_le _ _ _ _ hplanar
  rw [← len0, ← len1, ← len2, ← len3] at hcount
  set k0 := (if D3DXPlaneDotCoord P (wp 0).pos ≤ CLIP_EPSILON then [wp 0] else []) with hk0
  set k1 := (if D3DXPlaneDotCoord P (wp 1).pos ≤ CLIP_EPSILON then [wp 1] else []) with hk1
  set k2 := (if D3DXPlaneDotCoord P (wp 2).pos ≤ CLIP_EPSILON then [wp 2] else []) with hk2
  set k3 := (if D3DXPlaneDotCoord P (wp 3).pos ≤ CLIP_EPSILON then [wp 3] else []) with hk3
  have c0 : (if D3DXPlaneDotCoord P (wp 0).pos ≤ CLIP_EPSILON then 1 else 0) = k0.length := by
    rw [hk0]; split_ifs <;> rfl
  have c1 : (if D3DXPlaneDotCoord P (wp 1).pos ≤ CLIP_EPSILON then 1 else 0) = k1.length := by
    rw [hk1]; split_ifs <;> rfl
  have c2 : (if D3DXPlaneDotCoord P (wp 2).pos ≤ CLIP_EPSILON then 1 else 0) = k2.length := by
    rw [hk2]; split_ifs <;> rfl
  have c3 : (if D3DXPlaneDotCoord P (wp 3).pos ≤ CLIP_EPSILON then 1 else 0) = k3.length := by
    rw [hk3]; split_ifs <;> rfl
  rw [c0, c1, c2, c3] at hcount
  refine ⟨i0, i1, i2, i3, ?_, ?_⟩
  · intro q hq
    simp only [List.mem_append] at hq
    rcases hq with ((hq | hq) | hq) | hq
    · exact on0 q hq
    · exact on1 q hq
    · exact on2 q hq
    · exact on3 q hq
  · unfold clipWaterQuad
    simp only [List.foldlM_cons, List.foldlM_nil]
    have r0 := run0 [] (by simp)
    rw [if_pos (by simp only [List.length_nil, List.length_append]; omega)] at r0
    have r1 := run1 ([] ++ (k0 ++ i0)) (by simp only [List.nil_append, List.length_append]; omega)
    rw [if_pos (by simp only [List.nil_append, List.length_append]; omega)] at r1
    have r2 := run2 ([] ++ (k0 ++ i0) ++ (k1 ++ i1))
      (by simp only [List.nil_append, List.length_append]; omega)
    rw [if_pos (by simp only [List.nil_append, List.length_append]; omega)] at r2
    have r3 := run3 ([] ++ (k0 ++ i0) ++ (k1 ++ i1) ++ (k2 ++ i2))
      (by simp only [List.nil_append, List.length_append]; omega)
    rw [if_pos (by simp only [List.nil_append, List.length_append]; omega)] at r3
    rw [r0]
    simp only [Option.bind_eq_bind, Option.some_bind, Option.pure_def]
    rw [r1]
    simp only [Option.bind_eq_bind, Option.some_bind, Option.pure_def]
    rw [r2]
    simp only [Option.bind_eq_bind, Option.some_bind, Option.pure_def]
    rw [r3]
    simp only [Option.bind_eq_bind, Option.some_bind, Option.pure_def, List.nil_append]

/-- The allocation loop of `AddMesh`, started at iteration `k` with `n + k` meshes
held in an array of `n + Count` slots. -/
theorem addMesh_loop (alloc : MeshAllocator) (n Count : Nat) (hfit : n + Count < 2 ^ 32) :
    ∀ (d k : Nat) (t : CTerrain) (buf : List MeshSlot), Count - k = d → k ≤ Count →
      t.m_pMesh = some buf → buf.length = n + Count → t.m_nMeshCount = n + k →
      ∃ (ok : Bool) (t' : CTerrain),
        forEachM (CTerrain.addMeshStep alloc) (List.range' k d) t = some (ok, t') ∧
        (ok = false ↔ ∃ i, k ≤ i ∧ i < Count ∧ alloc.newMesh i = none) ∧
        (ok = true → t'.m_nMeshCount = n + Count ∧
          ∃ buf', t'.m_pMesh = some buf' ∧ buf'.length = n + Count ∧
            (∀ j, j < n + k → buf'[j]? = buf[j]?) ∧
            ∀ i, k ≤ i → i < Count →
              ∃ m, alloc.newMesh i = some m ∧ buf'[n + i]? = some (MeshSlot.mesh m)) := by
  intro d
  induction d with
  | zero =>
    intro k t buf hd hk hp hlen hcount
    have hkC : k = Count := by omega
    refine ⟨true, t, by simp [forEachM], ?_, ?_⟩
    · constructor
      · intro h; cases h
      · rintro ⟨i, h1, h2, -⟩; omega
    · intro _
      refine ⟨by omega, buf, hp, hlen, fun j _ => rfl, ?_⟩
      intro i h1 h2; omega
  | succ d ih =>
    intro k t buf hd hk hp hlen hcount
    have hkC : k < Count := by omega
    have hslot : t.m_nMeshCount < buf.length := by omega
    rw [List.range'_succ]
    unfold forEachM
    cases hnew : alloc.newMesh k with
    | none =>
      refine ⟨false, { t with m_pMesh := some (buf.set t.m_nMeshCount MeshSlot.null) }, ?_, ?_, ?_⟩
      · simp [CTerrain.addMeshStep, hp, hnew, storeAt, hslot]
      · constructor
        · intro _; exact ⟨k, le_refl _, hkC, hnew⟩
        · intro _; rfl
      · intro h; cases h
    | some m =>
      have hmod : (t.m_nMeshCount + 1) % ULONG_RANGE = n + (k + 1) := by
        unfold ULONG_RANGE
        rw [hcount, Nat.mod_eq_of_lt (by omega)]
        omega
      obtain ⟨ok, t', hrun, hfail, hsucc⟩ := ih (k + 1)
        { t with m_pMesh := some (buf.set t.m_nMeshCount (MeshSlot.mesh m)),
                 m_nMeshCount := (t.m_nMeshCount + 1) % ULONG_RANGE }
        (buf.set t.m_nMeshCount (MeshSlot.mesh m)) (by omega) (by omega) rfl
        (by simp [hlen]) hmod
      refine ⟨ok, t', ?_, ?_, ?_⟩
      · simp only [CTerrain.addMeshStep, hp, hnew, storeAt, hslot, if_true, Option.map_some']
        exact hrun
      · rw [hfail]
        constructor
        · rintro ⟨i, h1, h2, h3⟩
          exact ⟨i, by omega, h2, h3⟩
        · rintro ⟨i, h1, h2, h3⟩
          have hne : i ≠ k := by
            intro h; subst h; rw [hnew] at h3; cases h3
          exact ⟨i, by omega, h2, h3⟩
      · intro hok
        obtain ⟨hc, buf', hp', hlen', hkeep, hnewer⟩ := hsucc hok
        refine ⟨hc, buf', hp', hlen', ?_, ?_⟩
        · intro j hj
          rw [hkeep j (by omega), List.getElem?_set_ne (by omega)]
        · intro i h1 h2
          by_cases hik : i = k
          · subst hik
            refine ⟨m, hnew, ?_⟩
            rw [hkeep (n + i) (by omega), ← hcount, List.getElem?_set_self hslot]
          · exact hnewer i (by omega) h2

theorem ulongSub_add_cancel (n Count : Nat) (h : n < 2 ^ 32) : ulongSub (n + Count) Count = n := by
  unfold ulongSub ULONG_RANGE
  have e : ((n + Count : Nat) : Int) - (Count : Int) = (n : Int) := by push_cast; ring
  rw [e]
  have h2 : ((n : Int) % ((2 ^ 32 : Nat) : Int)) = (n : Int) := by
    rw [← Int.natCast_mod, Nat.mod_eq_of_lt h]
  rw [h2]
  exact Int.toNat_natCast _

theorem toLong_of_lt (n : Nat) (h : n < 2 ^ 31) : toLong n = (n : Int) := by
  unfold toLong ULONG_RANGE
  have h2 : n % 2 ^ 32 = n := Nat.mod_eq_of_lt (by omega)
  rw [h2, if_pos h]

/-- What `AddMesh` does on a terrain that holds `n` meshes, when the array of
`n + Count` pointers fits the 32-bit address space. -/
theorem AddMesh_spec (t : CTerrain) (Count : Nat) (alloc : MeshAllocator)
    (hheld : (t.m_pMesh.getD []).length = t.m_nMeshCount)
    (hfit : (t.m_nMeshCount + Count) * 4 < 2 ^ 32) :
    ∃ (r : Int) (t' : CTerrain), t.AddMesh Count alloc = some (r, t') ∧
      (r = -1 ↔ (alloc.arrayAllocated = false ∨ ∃ i, i < Count ∧ alloc.newMesh i = none)) ∧
      (r ≠ -1 → r = (t.m_nMeshCount : Int) ∧ t'.m_nMeshCount = t.m_nMeshCount + Count ∧
        ∃ pMesh, t'.m_pMesh = some pMesh ∧ pMesh.length = t.m_nMeshCount + Count ∧
          (∀ j, j < t.m_nMeshCount → pMesh[j]? = (t.m_pMesh.getD [])[j]?) ∧
          ∀ i, i < Count →
            ∃ m, alloc.newMesh i = some m ∧
              pMesh[t.m_nMeshCount + i]? = some (MeshSlot.mesh m)) := by
  set n := t.m_nMeshCount with hn
  unfold CTerrain.AddMesh
  by_cases harr : alloc.arrayAllocated = false
  · rw [if_pos harr]
    exact ⟨-1, t, rfl, by simp [harr], fun h => absurd rfl h⟩
  · rw [if_neg harr]
    have hsize : (n + Count) % ULONG_RANGE = n + Count := Nat.mod_eq_of_lt (by
      unfold ULONG_RANGE; omega)
    have hzb : (Count * 4) % ULONG_RANGE / 4 = Count := by
      rw [Nat.mod_eq_of_lt (by unfold ULONG_RANGE; omega)]; omega
    have hcb : (n * 4) % ULONG_RANGE / 4 = n := by
      rw [Nat.mod_eq_of_lt (by unfold ULONG_RANGE; omega)]; omega
    -- the new array: the old entries, then `Count` cleared slots
    obtain ⟨buf, hbuf, hbuflen, hbufold⟩ : ∃ buf : List MeshSlot,
        ((zeroMemory (List.replicate ((n + Count) % ULONG_RANGE) MeshSlot.garbage) n
            ((Count * 4) % ULONG_RANGE)).bind fun pMeshBuffer =>
          (match t.m_pMesh with
            | some old => memcpySlots pMeshBuffer old ((n * 4) % ULONG_RANGE)
            | none => some pMeshBuffer)) = some buf ∧
        buf.length = n + Count ∧ ∀ j, j < n → buf[j]? = (t.m_pMesh.getD [])[j]? := by
      have hz : zeroMemory (List.replicate ((n + Count) % ULONG_RANGE) MeshSlot.garbage) n
          ((Count * 4) % ULONG_RANGE) =
          some (List.replicate n MeshSlot.garbage ++ List.replicate Count MeshSlot.null) := by
        unfold zeroMemory
        simp only [hsize, hzb, List.length_replicate, le_refl, if_true, List.take_replicate,
          List.drop_replicate, Nat.sub_self, List.replicate_zero, List.append_nil]
        simp
      rw [hz, Option.some_bind]
      cases hp : t.m_pMesh with
      | none =>
        rw [hp] at hheld
        simp only [Option.getD_none, List.length_nil] at hheld
        refine ⟨_, rfl, by simp, ?_⟩
        intro j hj; omega
      | some old =>
        rw [hp] at hheld
        simp only [Option.getD_some] at hheld
        refine ⟨old ++ List.replicate Count MeshSlot.null, ?_, by simp [hheld], ?_⟩
        · simp only [memcpySlots, hcb]
          rw [if_pos (by simp [hheld])]
          simp [← hheld]
        · intro j hj
          simp only [Option.getD_some]
          rw [List.getElem?_append_left (by omega)]
    obtain ⟨ok, t', hrun, hfail, hsucc⟩ := addMesh_loop alloc n Count (by omega) Count 0
      { t with m_pMesh := some buf } buf (by omega) (by omega) rfl hbuflen (by simp [hn])
    rw [← Option.bind_assoc, hbuf, Option.some_bind, List.range_eq_range']
    dsimp only
    rw [hrun, Option.map_some']
    cases ok with
    | false =>
      refine ⟨-1, t', rfl, ?_, fun h => absurd rfl h⟩
      have := hfail.mp rfl
      obtain ⟨i, -, h2, h3⟩ := this
      simp only [true_iff]
      exact Or.inr ⟨i, h2, h3⟩
    | true =>
      obtain ⟨hc, buf', hp', hlen', hkeep, hnewer⟩ := hsucc rfl
      have hr : toLong (ulongSub t'.m_nMeshCount Count) = (n : Int) := by
        rw [hc, ulongSub_add_cancel n Count (by omega), toLong_of_lt n (by omega)]
      refine ⟨(n : Int), t', by simp [hr], ?_, ?_⟩
      · constructor
        · intro h; omega
        · rintro (h | ⟨i, h2, h3⟩)
          · exact absurd h harr
          · have : true = false := hfail.mpr ⟨i, Nat.zero_le _, h2, h3⟩
            cases this
      · intro _
        refine ⟨rfl, hc, buf', hp', hlen', ?_, ?_⟩
        · intro j hj
          rw [hkeep j (by omega), hbufold j hj]
        · intro i hi
          exact hnewer i (Nat.zero_le _) hi

/-- A loop that stores one computed value per element of `l` at `Counter`,
`Counter + 1`, ...: it runs through when the values are defined and the
array has room, and leaves value `k` in slot `Counter + k`. -/
theorem foldlM_storeNext {α : Type} (g : Nat → Option α) :
    ∀ (l : List Nat) (buf : List (Option α)) (c : Nat),
      (∀ i ∈ l, ∃ v, g i = some v) → c + l.length ≤ buf.length →
      ∃ buf', l.foldlM (fun st i => (g i).bind fun v => storeNext st v) (buf, c)
          = some (buf', c + l.length) ∧
        buf'.length = buf.length ∧
        (∀ j, j < c → buf'[j]? = buf[j]?) ∧
        (∀ k i, l[k]? = some i → buf'[c + k]? = some (g i)) := by
  intro l
  induction l with
  | nil =>
    intro buf c _ _
    exact ⟨buf, rfl, rfl, fun _ _ => rfl, by simp⟩
  | cons a l ih =>
    intro buf c hdef hroom
    obtain ⟨v, hv⟩ := hdef a (List.mem_cons_self _ _)
    have hc : c < buf.length := by simp only [List.length_cons] at hroom; omega
    obtain ⟨buf', hrun, hlen, hkeep, hval⟩ := ih (buf.set c (some v)) (c + 1)
      (fun i hi => hdef i (List.mem_cons_of_mem _ hi))
      (by simp only [List.length_cons] at hroom; simp only [List.length_set]; omega)
    refine ⟨buf', ?_, ?_, ?_, ?_⟩
    · have hs : storeNext (buf, c) v = some (buf.set c (some v), c + 1) := by
        simp [storeNext, storeAt, hc]
      rw [List.foldlM_cons, hv]
      simp only [Option.some_bind, Option.bind_eq_bind]
      rw [hs, Option.some_bind, hrun]
      simp only [List.length_cons]
      congr 2
      omega
    · rw [hlen, List.length_set]
    · intro j hj
      rw [hkeep j (by omega), List.getElem?_set_ne (by omega)]
    · intro k i hk
      cases k with
      | zero =>
        simp only [List.getElem?_cons_zero, Option.some.injEq] at hk
        subst hk
        rw [Nat.add_zero, hkeep c (by omega), List.getElem?_set_self hc, hv]
      | succ k =>
        simp only [List.getElem?_cons_succ] at hk
        have := hval k i hk
        rw [show c + (k + 1) = c + 1 + k by omega]
        exact this

theorem storeIndices_append (st : List (Option Nat) × Nat) (l1 l2 : List Nat) :
    storeIndices st (l1 ++ l2) = (storeIndices st l1).bind fun st => storeIndices st l2 := by
  unfold storeIndices
  rw [List.foldlM_append]
  rfl

theorem foldlM_storeIndices (f : Nat → List Nat) :
    ∀ (l : List Nat) (st : List (Option Nat) × Nat),
      l.foldlM (fun st a => storeIndices st (f a)) st = storeIndices st (l.flatMap f) := by
  intro l
  induction l with
  | nil => intro st; rfl
  | cons a l ih =>
    intro st
    rw [List.foldlM_cons, List.flatMap_cons, storeIndices_append]
    cases h : storeIndices st (f a) with
    | none => rfl
    | some st' => exact ih st'

theorem stripIndices_length : stripIndices.length = IndexCount := by
  decide!

theorem fillIndices_eq_storeIndices (pIndex : List (Option Nat)) :
    fillIndices pIndex = storeIndices (pIndex, 0) ((List.range (BlockHeight - 1)).flatMap rowIndices) := by
  unfold fillIndices
  rw [← foldlM_storeIndices]
  congr 1
  funext st vz
  unfold rowIndices
  split_ifs with hvz
  · rw [← foldlM_storeIndices]
    congr 1
    funext st vx
    split_ifs with h
    · simp [storeIndices, List.foldlM]
    · simp [storeIndices, List.foldlM]
  · rw [← foldlM_storeIndices]
    congr 1
    funext st vx
    split_ifs with h
    · simp [storeIndices, List.foldlM]
    · simp [storeIndices, List.foldlM]

theorem rowIndices_flat : (List.range (BlockHeight - 1)).flatMap rowIndices = stripIndices := by
  decide!

theorem stripIndices_ushort : ∀ v ∈ stripIndices, v % 2 ^ 16 = v := by
  decide!

theorem storeIndices_fresh (l : List Nat) (hl : ∀ v ∈ l, v % 2 ^ 16 = v) :
    storeIndices (List.replicate l.length none, 0) l = some (l.map some, l.length) := by
  obtain ⟨buf', hrun, hlen, -, hval⟩ := foldlM_storeNext (fun v => some (v % 2 ^ 16))
    l (List.replicate l.length none) 0 (fun i _ => ⟨_, rfl⟩) (by simp)
  have hbuf : buf' = l.map some := by
    apply List.ext_getElem?
    intro k
    by_cases hk : k < l.length
    · have h1 := hval k l[k] (List.getElem?_eq_getElem hk)
      rw [Nat.zero_add] at h1
      rw [h1, List.getElem?_map, List.getElem?_eq_getElem hk, hl _ (List.getElem_mem hk)]
      rfl
    · rw [List.getElem?_eq_none (by rw [hlen]; simpa using hk),
        List.getElem?_eq_none (by simpa using hk)]
  rw [Nat.zero_add, hbuf] at hrun
  exact hrun

/-- The index loop on a buffer of `IndexCount` unwritten slots: it runs through,
leaves `Counter = IndexCount` and the buffer holding the strip. -/
theorem fillIndices_eq :
    fillIndices (List.replicate IndexCount none) = some (stripIndices.map some, IndexCount) := by
  rw [fillIndices_eq_storeIndices, rowIndices_flat, ← stripIndices_length]
  exact storeIndices_fresh stripIndices stripIndices_ushort

/-- C6: `IndexCount = (BlockWidth * 2) * QuadsHigh + (QuadsHigh - 1) = 559`, and on
the buffer that `AddIndex(IndexCount)` allocates for a mesh without indices the
tri-strip index loop runs through without leaving the buffer, ends with
`Counter = 559 = IndexCount`, and has written every one of the positions
`0 .. 558`. -/
theorem index_buffer_filled_exactly (m : CMesh) (hnone : m.m_pIndex = none) :
    IndexCount = 559 ∧
    ∃ pIndex filled : List (Option Nat),
      (m.AddIndex IndexCount true).2.m_pIndex = some pIndex ∧ pIndex.length = IndexCount ∧
      fillIndices pIndex = some (filled, IndexCount) ∧ filled.length = IndexCount ∧
      ∀ k, k < IndexCount → ∃ v, filled[k]? = some (some v) := by
  refine ⟨rfl, List.replicate IndexCount none, stripIndices.map some, ?_, ?_, fillIndices_eq,
    ?_, ?_⟩
  · simp [CMesh.AddIndex, hnone]
  · simp
  · rw [List.length_map]; exact stripIndices_length
  · intro k hk
    have hlen : stripIndices.length = IndexCount := stripIndices_length
    have hk2 : k < stripIndices.length := by omega
    refine ⟨stripIndices[k], ?_⟩
    rw [List.getElem?_map, List.getElem?_eq_getElem hk2]
    rfl

theorem index_buffer_filled_exactly_witness :
    IndexCount = 559 ∧
    ∃ pIndex filled : List (Option Nat),
      (freshMesh.AddIndex IndexCount true).2.m_pIndex = some pIndex ∧
      pIndex.length = IndexCount ∧
      fillIndices pIndex = some (filled, IndexCount) ∧ filled.length = IndexCount ∧
      ∀ k, k < IndexCount → ∃ v, filled[k]? = some (some v) :=
  index_buffer_filled_exactly freshMesh rfl

theorem stripTriangles_length : (stripTriangles stripIndices).length = PrimitiveCount := by
  decide!

theorem stripTriangles_proper :
    ((stripTriangles stripIndices).filter (fun tri => !isDegenerate tri)).length = 512 := by
  decide!

theorem stripTriangles_degenerate :
    ((stripTriangles stripIndices).enum.filter (fun tri => isDegenerate tri.2)).map
        (fun tri => tri.1) =
      (List.range 15).flatMap (fun j => [35 * j + 32, 35 * j + 33, 35 * j + 34]) := by
  decide!

/-- C7: `m_nPrimitiveCount = (QuadsWide * QuadsHigh) * 2 + (QuadsHigh - 1) * 3 = 557`
is the index count minus 2 and the number of triangles of the strip that the
index loop writes; exactly 512 of them are non-degenerate, and the degenerate
ones are the 45 triangles number `35 j + 32, 35 j + 33, 35 j + 34`
(`j = 0 .. 14`), three at each of the 15 row transitions. -/
theorem strip_primitive_count :
    PrimitiveCount = 557 ∧ PrimitiveCount = IndexCount - 2 ∧
    ∃ strip : List Nat,
      fillIndices (List.replicate IndexCount none) = some (strip.map some, IndexCount) ∧
      (stripTriangles strip).length = PrimitiveCount ∧
      ((stripTriangles strip).filter (fun tri => !isDegenerate tri)).length = 512 ∧
      ((stripTriangles strip).filter (fun tri => isDegenerate tri)).length = 45 ∧
      ((stripTriangles strip).enum.filter (fun tri => isDegenerate tri.2)).map
          (fun tri => tri.1) =
        (List.range 15).flatMap (fun j => [35 * j + 32, 35 * j + 33, 35 * j + 34]) := by
  refine ⟨rfl, rfl, stripIndices, fillIndices_eq, stripTriangles_length, stripTriangles_proper,
    ?_, stripTriangles_degenerate⟩
  decide!

/-- C8: on a terrain that holds `n` meshes (with the array of `n + Count` pointers
fitting the address space) `AddMesh(Count)` returns -1 exactly when an
allocation fails; otherwise it returns `n`, the mesh count becomes `n + Count`,
the `n` existing entries keep their indices, and slot `n + i` holds the mesh
created by the `i`-th `new CMesh()`. -/
theorem AddMesh_returns_first_index (t : CTerrain) (Count : Nat) (alloc : MeshAllocator)
    (hheld : (t.m_pMesh.getD []).length = t.m_nMeshCount)
    (hfit : (t.m_nMeshCount + Count) * 4 < 2 ^ 32) :
    ∃ (r : Int) (t' : CTerrain), t.AddMesh Count alloc = some (r, t') ∧
      (r = -1 ↔ (alloc.arrayAllocated = false ∨ ∃ i, i < Count ∧ alloc.newMesh i = none)) ∧
      (r ≠ -1 → r = (t.m_nMeshCount : Int) ∧ t'.m_nMeshCount = t.m_nMeshCount + Count ∧
        ∃ pMesh, t'.m_pMesh = some pMesh ∧ pMesh.length = t.m_nMeshCount + Count ∧
          (∀ j, j < t.m_nMeshCount → pMesh[j]? = (t.m_pMesh.getD [])[j]?) ∧
          ∀ i, i < Count →
            ∃ m, alloc.newMesh i = some m ∧
              pMesh[t.m_nMeshCount + i]? = some (MeshSlot.mesh m)) :=
  AddMesh_spec t Count alloc hheld hfit

theorem AddMesh_returns_first_index_witness :
    ∃ (r : Int) (t' : CTerrain), terrainNew.AddMesh 2 allocAll = some (r, t') ∧
      (r = -1 ↔ (allocAll.arrayAllocated = false ∨ ∃ i, i < 2 ∧ allocAll.newMesh i = none)) ∧
      (r ≠ -1 → r = (terrainNew.m_nMeshCount : Int) ∧
        t'.m_nMeshCount = terrainNew.m_nMeshCount + 2 ∧
        ∃ pMesh, t'.m_pMesh = some pMesh ∧ pMesh.length = terrainNew.m_nMeshCount + 2 ∧
          (∀ j, j < terrainNew.m_nMeshCount → pMesh[j]? = (terrainNew.m_pMesh.getD [])[j]?) ∧
          ∀ i, i < 2 →
            ∃ m, allocAll.newMesh i = some m ∧
              pMesh[terrainNew.m_nMeshCount + i]? = some (MeshSlot.mesh m)) :=
  AddMesh_returns_first_index terrainNew 2 allocAll rfl (by decide)

/-- C9: when the mesh array is not `NULL`, or no D3D device has been set,
`LoadHeightMap` returns `false` and the terrain is left as it was, field for
field. -/
theorem LoadHeightMap_refuses (t : CTerrain) (env : LoadEnv) (Width Height : Nat)
    (h : t.m_pMesh ≠ none ∨ t.m_pD3DDevice = none) :
    t.LoadHeightMap env Width Height = some (false, t) := by
  unfold CTerrain.LoadHeightMap
  by_cases hm : t.m_pMesh.isSome = true
  · rw [if_pos hm]
  · rw [if_neg hm]
    have hnone : t.m_pMesh = none := by
      cases hp : t.m_pMesh with
      | none => rfl
      | some a => rw [hp] at hm; simp at hm
    rcases h with h | h
    · exact absurd hnone h
    · rw [if_pos (by rw [h]; rfl)]

theorem LoadHeightMap_refuses_witness :
    ({ terrainNew with m_pD3DDevice := none }).LoadHeightMap (envAllOk 289) 17 17
        = some (false, { terrainNew with m_pD3DDevice := none }) ∧
      ({ terrain17 with m_pMesh := some [MeshSlot.mesh freshMesh], m_nMeshCount := 1 }).LoadHeightMap
          (envAllOk 289) 17 17
        = some (false,
            { terrain17 with m_pMesh := some [MeshSlot.mesh freshMesh], m_nMeshCount := 1 }) :=
  ⟨LoadHeightMap_refuses _ _ 17 17 (Or.inr rfl),
    LoadHeightMap_refuses _ _ 17 17 (Or.inl (by simp))⟩

/-- The vertex loop over a list of rows, started at `Counter = c`. -/
theorem fillRows_spec (t : CTerrain) (StartX : Nat) :
    ∀ (rows : List Nat) (buf : List (Option CVertex)) (c : Nat),
      (∀ vz ∈ rows, ∀ dx, dx < BlockWidth → ∃ v, t.vertexAt (StartX + dx) vz = some v) →
      c + rows.length * BlockWidth ≤ buf.length →
      ∃ buf', rows.foldlM
          (fun st vz =>
            (List.range' StartX BlockWidth).foldlM
              (fun st vx => (t.vertexAt vx vz).bind fun v => storeNext st v) st)
          (buf, c) = some (buf', c + rows.length * BlockWidth) ∧
        buf'.length = buf.length ∧
        (∀ j, j < c → buf'[j]? = buf[j]?) ∧
        (∀ r vz, rows[r]? = some vz → ∀ dx, dx < BlockWidth →
          buf'[c + r * BlockWidth + dx]? = some (t.vertexAt (StartX + dx) vz)) := by
  intro rows
  induction rows with
  | nil =>
    intro buf c _ _
    exact ⟨buf, by simp, rfl, fun _ _ => rfl, by simp⟩
  | cons vz rows ih =>
    intro buf c hdef hroom
    simp only [List.length_cons] at hroom
    have hroom1 : c + (List.range' StartX BlockWidth).length ≤ buf.length := by
      rw [List.length_range']; nlinarith
    obtain ⟨buf1, hrun1, hlen1, hkeep1, hval1⟩ :=
      foldlM_storeNext (fun vx => t.vertexAt vx vz) (List.range' StartX BlockWidth) buf c
        (by
          intro i hi
          rw [List.mem_range'_1] at hi
          obtain ⟨v, hv⟩ := hdef vz (List.mem_cons_self _ _) (i - StartX) (by omega)
          exact ⟨v, by rw [← hv]; congr 1; omega⟩)
        hroom1
    rw [List.length_range'] at hrun1
    obtain ⟨buf2, hrun2, hlen2, hkeep2, hval2⟩ := ih buf1 (c + BlockWidth)
      (fun vz' hvz' => hdef vz' (List.mem_cons_of_mem _ hvz'))
      (by rw [hlen1]; nlinarith)
    refine ⟨buf2, ?_, ?_, ?_, ?_⟩
    · simp only [List.foldlM_cons, Option.bind_eq_bind]
      rw [hrun1, Option.some_bind, hrun2]
      simp only [List.length_cons]
      congr 2
      ring
    · rw [hlen2, hlen1]
    · intro j hj
      rw [hkeep2 j (by omega), hkeep1 j hj]
    · intro r vz' hr dx hdx
      cases r with
      | zero =>
        simp only [List.getElem?_cons_zero, Option.some.injEq] at hr
        subst hr
        rw [Nat.zero_mul, Nat.add_zero, hkeep2 (c + dx) (by omega)]
        exact hval1 dx (StartX + dx) (by rw [List.getElem?_range' _ _ hdx]; simp)
      | succ r =>
        simp only [List.getElem?_cons_succ] at hr
        have := hval2 r vz' hr dx hdx
        rw [show c + (r + 1) * BlockWidth + dx = c + BlockWidth + r * BlockWidth + dx by ring]
        exact this

theorem fillVertices_spec (t : CTerrain) (StartX StartZ : Nat)
    (hdef : ∀ dx dz, dx < BlockWidth → dz < BlockHeight →
      ∃ v, t.vertexAt (StartX + dx) (StartZ + dz) = some v) :
    ∃ verts, t.fillVertices StartX StartZ (List.replicate (BlockWidth * BlockHeight) none)
        = some (verts, BlockWidth * BlockHeight) ∧
      ∀ dx dz, dx < BlockWidth → dz < BlockHeight →
        verts[dx + dz * BlockWidth]? = some (t.vertexAt (StartX + dx) (StartZ + dz)) := by
  obtain ⟨buf', hrun, -, -, hval⟩ := fillRows_spec t StartX (List.range' StartZ BlockHeight)
    (List.replicate (BlockWidth * BlockHeight) none) 0
    (by
      intro vz hvz dx hdx
      rw [List.mem_range'_1] at hvz
      obtain ⟨v, hv⟩ := hdef dx (vz - StartZ) hdx (by omega)
      exact ⟨v, by rw [← hv]; congr 1; omega⟩)
    (by simp [List.length_range', Nat.mul_comm])
  refine ⟨buf', ?_, ?_⟩
  · unfold CTerrain.fillVertices
    rw [hrun, List.length_range']
    simp [Nat.mul_comm]
  · intro dx dz hdx hdz
    have := hval dz (StartZ + dz) (by rw [List.getElem?_range' _ _ hdz]; simp) dx hdx
    rw [← this]
    congr 1
    omega

theorem buildBlock_spec (t : CTerrain) (env : MeshBuilder) (BW z x : Nat)
    (meshes : List MeshSlot) (slot : MeshSlot)
    (hp : t.m_pMesh = some meshes) (hslot : meshes[x + z * BW]? = some slot)
    (hfresh : SlotFresh slot)
    (hv : env.addVertexOk (x + z * BW) = true) (hi : env.addIndexOk (x + z * BW) = true)
    (hb : 0 ≤ env.buildBuffers (x + z * BW))
    (hdef : ∀ dx dz, dx < BlockWidth → dz < BlockHeight →
      ∃ v, t.vertexAt (x * (BlockWidth - 1) + dx) (z * (BlockHeight - 1) + dz) = some v) :
    ∃ m', t.buildBlock env BW z x
        = some (true, { t with m_pMesh := some (meshes.set (x + z * BW) (MeshSlot.mesh m')) }) ∧
      BlockBuilt t (MeshSlot.mesh m') x z := by
  obtain ⟨m, rfl, hmv, hmi⟩ := hfresh
  obtain ⟨verts, hfill, hverts⟩ := fillVertices_spec t _ _ hdef
  refine ⟨CMesh.mk env.VERTEX_FVF env.vertexSize (some verts) (some (stripIndices.map some))
    (decide (0 ≤ env.buildBuffers (x + z * BW))), ?_, ?_⟩
  rotate_left
  · refine ⟨_, verts, rfl, rfl, ?_⟩
    intro dx dz hdx hdz
    obtain ⟨v, hv⟩ := hdef dx dz hdx hdz
    exact ⟨v, hv, by rw [hverts dx dz hdx hdz, hv]⟩
  · unfold CTerrain.buildBlock
    simp only [hp, Option.some_bind, hslot, CMesh.SetVertexFormat, CMesh.AddVertex, hv, if_true,
      CMesh.AddIndex, hi, hmv, hmi, Option.getD_none, List.nil_append, List.length_nil,
      Nat.cast_zero, lt_self_iff_false, if_false, hfill, fillIndices_eq, CMesh.BuildBuffers,
      not_lt.mpr hb, CTerrain.setMesh, Option.map_some']

theorem buildRow_spec (t : CTerrain) (env : MeshBuilder) (BW BH z : Nat) (hz : z < BH)
    (henv : ∀ b, b < BW * BH → env.addVertexOk b = true ∧ env.addIndexOk b = true ∧
      0 ≤ env.buildBuffers b)
    (hdef : ∀ vx vz, vx ≤ (BlockWidth - 1) * BW → vz ≤ (BlockHeight - 1) * BH →
      ∃ v, t.vertexAt vx vz = some v) :
    ∀ (d x0 : Nat) (meshes : List MeshSlot), x0 + d = BW →
      MeshesInv t BW (BW * BH) meshes (z * BW + x0) →
      ∃ meshes', forEachM (fun t x => t.buildBlock env BW z x) (List.range' x0 d)
          { t with m_pMesh := some meshes } = some (true, { t with m_pMesh := some meshes' }) ∧
        MeshesInv t BW (BW * BH) meshes' (z * BW + BW) := by
  intro d
  induction d with
  | zero =>
    intro x0 meshes hx hinv
    have : x0 = BW := by omega
    subst this
    exact ⟨meshes, by simp [forEachM], hinv⟩
  | succ d ih =>
    intro x0 meshes hx hinv
    obtain ⟨hlen, hbuilt, hfresh⟩ := hinv
    have hx0 : x0 < BW := by omega
    have hslot : x0 + z * BW < BW * BH := by
      have : (z + 1) * BW ≤ BH * BW := Nat.mul_le_mul_right BW hz
      nlinarith
    obtain ⟨s, hs, hsf⟩ := hfresh (x0 + z * BW) (by omega) hslot
    obtain ⟨hv, hi, hb⟩ := henv _ hslot
    obtain ⟨m', hrun, hblock⟩ := buildBlock_spec { t with m_pMesh := some meshes } env BW z x0
      meshes s rfl hs hsf hv hi hb
      (by
        intro dx dz hdx hdz
        have h1 : x0 * (BlockWidth - 1) + dx ≤ (BlockWidth - 1) * BW := by
          unfold BlockWidth at hdx ⊢
          have : (x0 + 1) * 16 ≤ BW * 16 := Nat.mul_le_mul_right 16 hx0
          omega
        have h2 : z * (BlockHeight - 1) + dz ≤ (BlockHeight - 1) * BH := by
          unfold BlockHeight at hdz ⊢
          have : (z + 1) * 16 ≤ BH * 16 := Nat.mul_le_mul_right 16 hz
          omega
        exact hdef _ _ h1 h2)
    obtain ⟨meshes', hrest, hinv'⟩ := ih (x0 + 1)
      (meshes.set (x0 + z * BW) (MeshSlot.mesh m')) (by omega)
      ⟨by rw [List.length_set, hlen], by
        intro b hb'
        by_cases hbe : b = x0 + z * BW
        · subst hbe
          refine ⟨MeshSlot.mesh m', List.getElem?_set_self (by omega), ?_⟩
          have e1 : (x0 + z * BW) % BW = x0 := by
            rw [Nat.add_mul_mod_self_right, Nat.mod_eq_of_lt hx0]
          have e2 : (x0 + z * BW) / BW = z := by
            rw [Nat.add_mul_div_right _ _ (by omega), Nat.div_eq_of_lt hx0, Nat.zero_add]
          rw [e1, e2]
          exact hblock
        · rw [List.getElem?_set_ne (Ne.symm hbe)]
          exact hbuilt b (by omega), by
        intro b hb1 hb2
        rw [List.getElem?_set_ne (by omega)]
        exact hfresh b (by omega) hb2⟩
    refine ⟨meshes', ?_, hinv'⟩
    rw [List.range'_succ]
    unfold forEachM
    simp only [hrun]
    exact hrest

theorem buildRows_spec (t : CTerrain) (env : MeshBuilder) (BW BH : Nat)
    (henv : ∀ b, b < BW * BH → env.addVertexOk b = true ∧ env.addIndexOk b = true ∧
      0 ≤ env.buildBuffers b)
    (hdef : ∀ vx vz, vx ≤ (BlockWidth - 1) * BW → vz ≤ (BlockHeight - 1) * BH →
      ∃ v, t.vertexAt vx vz = some v) :
    ∀ (d z0 : Nat) (meshes : List MeshSlot), z0 + d = BH →
      MeshesInv t BW (BW * BH) meshes (z0 * BW) →
      ∃ meshes', forEachM
          (fun t z => forEachM (fun t x => t.buildBlock env BW z x) (List.range BW) t)
          (List.range' z0 d) { t with m_pMesh := some meshes }
            = some (true, { t with m_pMesh := some meshes' }) ∧
        MeshesInv t BW (BW * BH) meshes' (BH * BW) := by
  intro d
  induction d with
  | zero =>
    intro z0 meshes hz hinv
    have : z0 = BH := by omega
    subst this
    exact ⟨meshes, by simp [forEachM], hinv⟩
  | succ d ih =>
    intro z0 meshes hz hinv
    obtain ⟨meshes1, hrow, hinv1⟩ := buildRow_spec t env BW BH z0 (by omega) henv hdef BW 0
      meshes (by omega) (by simpa using hinv)
    obtain ⟨meshes2, hrest, hinv2⟩ := ih (z0 + 1) meshes1 (by omega)
      (by rw [Nat.add_mul, Nat.one_mul]; exact hinv1)
    refine ⟨meshes2, ?_, hinv2⟩
    rw [List.range'_succ]
    unfold forEachM
    simp only [List.range_eq_range', hrow]
    simp only [List.range_eq_range'] at hrest
    exact hrest

/-- `BuildMeshes` on a terrain whose mesh array holds one fresh mesh per block:
it returns `true`, stores the primitive count, and builds every block. -/
theorem BuildMeshes_spec (t : CTerrain) (env : MeshBuilder) (meshes : List MeshSlot)
    (hp : t.m_pMesh = some meshes)
    (hinv : MeshesInv t (ulongSub t.m_nHeightMapWidth 1 / QuadsWide)
      ((ulongSub t.m_nHeightMapWidth 1 / QuadsWide) *
        (ulongSub t.m_nHeightMapHeight 1 / QuadsHigh)) meshes 0)
    (henv : ∀ b, b < (ulongSub t.m_nHeightMapWidth 1 / QuadsWide) *
        (ulongSub t.m_nHeightMapHeight 1 / QuadsHigh) →
      env.addVertexOk b = true ∧ env.addIndexOk b = true ∧ 0 ≤ env.buildBuffers b)
    (hdef : ∀ vx vz,
      vx ≤ (BlockWidth - 1) * (ulongSub t.m_nHeightMapWidth 1 / QuadsWide) →
      vz ≤ (BlockHeight - 1) * (ulongSub t.m_nHeightMapHeight 1 / QuadsHigh) →
      ∃ v, t.vertexAt vx vz = some v) :
    ∃ meshes', t.BuildMeshes env
        = some (true, { t with m_nPrimitiveCount := PrimitiveCount, m_pMesh := some meshes' }) ∧
      MeshesInv t (ulongSub t.m_nHeightMapWidth 1 / QuadsWide)
        ((ulongSub t.m_nHeightMapWidth 1 / QuadsWide) *
          (ulongSub t.m_nHeightMapHeight 1 / QuadsHigh)) meshes'
        ((ulongSub t.m_nHeightMapHeight 1 / QuadsHigh) *
          (ulongSub t.m_nHeightMapWidth 1 / QuadsWide)) := by
  obtain ⟨meshes', hrun, hinv'⟩ := buildRows_spec
    { t with m_nPrimitiveCount := PrimitiveCount } env _ _ henv hdef _ 0 meshes
    (Nat.zero_add _) (by simpa using hinv)
  refine ⟨meshes', ?_, hinv'⟩
  unfold CTerrain.BuildMeshes
  simp only [List.range_eq_range'] at hrun ⊢
  have e : ({ t with m_nPrimitiveCount := PrimitiveCount } : CTerrain) =
      { t with m_nPrimitiveCount := PrimitiveCount, m_pMesh := some meshes } := by
    rw [← hp]
  rw [e]
  exact hrun

theorem addMeshStep_frame (alloc : MeshAllocator) (t t' : CTerrain) (i : Nat) (ok : Bool)
    (h : CTerrain.addMeshStep alloc t i = some (ok, t')) :
    t' = { t with m_pMesh := t'.m_pMesh, m_nMeshCount := t'.m_nMeshCount } := by
  unfold CTerrain.addMeshStep at h
  cases hp : t.m_pMesh with
  | none => rw [hp] at h; cases h
  | some pMesh =>
    rw [hp] at h
    cases hn : alloc.newMesh i with
    | none =>
      rw [hn] at h
      simp only [storeAt] at h
      split_ifs at h
      · simp only [Option.map_some', Option.some.injEq, Prod.mk.injEq] at h
        rw [← h.2]
      · cases h
    | some m =>
      rw [hn] at h
      simp only [storeAt] at h
      split_ifs at h
      · simp only [Option.map_some', Option.some.injEq, Prod.mk.injEq] at h
        rw [← h.2]
      · cases h

theorem addMeshLoop_frame (alloc : MeshAllocator) :
    ∀ (l : List Nat) (t t' : CTerrain) (ok : Bool),
      forEachM (CTerrain.addMeshStep alloc) l t = some (ok, t') →
      t' = { t with m_pMesh := t'.m_pMesh, m_nMeshCount := t'.m_nMeshCount } := by
  intro l
  induction l with
  | nil =>
    intro t t' ok h
    simp only [forEachM, Option.some.injEq, Prod.mk.injEq] at h
    rw [← h.2]
  | cons i l ih =>
    intro t t' ok h
    unfold forEachM at h
    cases hs : CTerrain.addMeshStep alloc t i with
    | none => rw [hs] at h; cases h
    | some r =>
      obtain ⟨ok1, t1⟩ := r
      rw [hs] at h
      have f1 := addMeshStep_frame alloc t t1 i ok1 hs
      cases ok1 with
      | false =>
        simp only [Option.some.injEq, Prod.mk.injEq] at h
        rw [← h.2]
        exact f1
      | true =>
        simp only at h
        have f2 := ih t1 t' ok h
        rw [f2, f1]

/-- `AddMesh` changes nothing but the mesh array and the mesh count. -/
theorem AddMesh_frame (t t' : CTerrain) (Count : Nat) (alloc : MeshAllocator) (r : Int)
    (h : t.AddMesh Count alloc = some (r, t')) :
    t' = { t with m_pMesh := t'.m_pMesh, m_nMeshCount := t'.m_nMeshCount } := by
  unfold CTerrain.AddMesh at h
  split_ifs at h with harr
  · simp only [Option.some.injEq, Prod.mk.injEq] at h
    rw [← h.2]
  · simp only [Option.bind_eq_some, Option.map_eq_some'] at h
    obtain ⟨b1, -, b2, -, ⟨ok, t1⟩, hloop, hres⟩ := h
    have f := addMeshLoop_frame alloc _ _ _ _ hloop
    simp only at f
    split_ifs at hres
    · simp only [Prod.mk.injEq] at hres
      rw [← hres.2, f]
    · simp only [Prod.mk.injEq] at hres
      rw [← hres.2, f]

theorem ulongSub_of_le (a b : Nat) (hb : b ≤ a) (ha : a < 2 ^ 32) : ulongSub a b = a - b := by
  have := ulongSub_add_cancel (a - b) b (by omega)
  rwa [Nat.sub_add_cancel hb] at this

theorem vertexAt_defined (t : CTerrain) (hm : List Nat) (hp : t.m_pHeightMap = some hm)
    (hlen : hm.length = t.m_nHeightMapWidth * t.m_nHeightMapHeight)
    (hsize : hm.length < 2 ^ 32) (vx vz : Nat)
    (hvx : vx < t.m_nHeightMapWidth) (hvz : vz < t.m_nHeightMapHeight) :
    ∃ (b : Nat) (v : CVertex), hm[vx + vz * t.m_nHeightMapWidth]? = some b ∧
      t.vertexAt vx vz = some v ∧
      v.x = (vx : ℚ) * t.m_vecScale.x ∧ v.y = (b : ℚ) * t.m_vecScale.y ∧
      v.z = (vz : ℚ) * t.m_vecScale.z := by
  have hidx : vx + vz * t.m_nHeightMapWidth < hm.length := by
    rw [hlen]
    have : (vz + 1) * t.m_nHeightMapWidth ≤ t.m_nHeightMapHeight * t.m_nHeightMapWidth :=
      Nat.mul_le_mul_right _ hvz
    nlinarith
  refine ⟨hm[vx + vz * t.m_nHeightMapWidth],
    { x := (vx : ℚ) * t.m_vecScale.x
      y := ((hm[vx + vz * t.m_nHeightMapWidth] : Nat) : ℚ) * t.m_vecScale.y
      z := (vz : ℚ) * t.m_vecScale.z
      tu := (vx : ℚ) / ((ulongSub t.m_nHeightMapWidth 1 : Nat) : ℚ)
      tv := (vz : ℚ) / ((ulongSub t.m_nHeightMapHeight 1 : Nat) : ℚ)
      tu2 := (vx : ℚ) / 6
      tv2 := (vz : ℚ) / 6 }, List.getElem?_eq_getElem hidx, ?_, rfl, rfl, rfl⟩
  unfold CTerrain.vertexAt
  rw [ulongIndex_natCast _ _ _ (by omega), heightMapAt_of_eq t hm hp]
  simp [List.getElem?_eq_getElem hidx]

theorem LoadHeightMap_spec (t : CTerrain) (env : LoadEnv) (Width Height : Nat)
    (hW : 2 ≤ Width) (hH : 2 ≤ Height) (hsize : Width * Height < 2 ^ 31)
    (hmesh : t.m_pMesh = none) (hcount : t.m_nMeshCount = 0) (hdev : t.m_pD3DDevice ≠ none)
    (henv : env.Succeeds (((Width - 1) / QuadsWide) * ((Height - 1) / QuadsHigh))) :
    ∃ (t' : CTerrain) (hm : List Nat) (meshes : List MeshSlot),
      t.LoadHeightMap env Width Height = some (true, t') ∧
      t'.m_pHeightMap = some hm ∧ hm.length = Width * Height ∧
      t'.m_nHeightMapWidth = Width ∧ t'.m_nHeightMapHeight = Height ∧
      t'.m_vecScale = ⟨4 * ((512 / (Width - 1) : Nat) : ℚ), 2,
        4 * ((512 / (Height - 1) : Nat) : ℚ)⟩ ∧
      t'.m_nMeshCount = ((Width - 1) / QuadsWide) * ((Height - 1) / QuadsHigh) ∧
      t'.m_pMesh = some meshes ∧
      MeshesInv t' ((Width - 1) / QuadsWide)
        (((Width - 1) / QuadsWide) * ((Height - 1) / QuadsHigh)) meshes
        (((Width - 1) / QuadsWide) * ((Height - 1) / QuadsHigh)) := by
  obtain ⟨hha, hfile, hb, hd, hw, harr, hnew, hbuild⟩ := henv
  obtain ⟨bytes, hbytes⟩ : ∃ bytes, env.file = some bytes := by
    cases hf : env.file with
    | none => exact absurd hf hfile
    | some bytes => exact ⟨bytes, rfl⟩
  have hWlt : Width < 2 ^ 32 := by nlinarith
  have hHlt : Height < 2 ^ 32 := by nlinarith
  have hsW : ulongSub Width 1 = Width - 1 := ulongSub_of_le _ _ (by omega) hWlt
  have hsH : ulongSub Height 1 = Height - 1 := ulongSub_of_le _ _ (by omega) hHlt
  have hmod : (Width * Height) % ULONG_RANGE = Width * Height :=
    Nat.mod_eq_of_lt (by unfold ULONG_RANGE; omega)
  set N := ((Width - 1) / QuadsWide) * ((Height - 1) / QuadsHigh) with hN
  have hNle : N ≤ Width * Height := by
    have h1 : (Width - 1) / QuadsWide ≤ Width := le_trans (Nat.div_le_self _ _) (by omega)
    have h2 : (Height - 1) / QuadsHigh ≤ Height := le_trans (Nat.div_le_self _ _) (by omega)
    exact Nat.mul_le_mul h1 h2
  have hNmod : N % ULONG_RANGE = N := Nat.mod_eq_of_lt (by unfold ULONG_RANGE; omega)
  have hdev2 : t.m_pD3DDevice.isNone = false := by
    cases hd : t.m_pD3DDevice with
    | none => exact absurd hd hdev
    | some d => rfl
  unfold CTerrain.LoadHeightMap
  simp only [hmesh, Option.isSome_none, Bool.false_eq_true, if_false, hdev2, hsW, hsH,
    hha, hbytes, not_lt.mpr hb, not_lt.mpr hd, not_lt.mpr hw, hmod, ← hN, hNmod]
  rw [if_neg (by omega), if_neg (by simp)]
  set data := List.take (Width * Height) bytes ++
    List.drop bytes.length (List.map env.freshBytes (List.range (Width * Height))) with hdata
  have hdlen : data.length = Width * Height := by
    rw [hdata, List.length_append, List.length_take, List.length_drop, List.length_map,
      List.length_range]
    omega
  set t3 : CTerrain :=
    { m_pD3DDevice := t.m_pD3DDevice, m_bHardwareTnL := t.m_bHardwareTnL,
      m_bSinglePass := t.m_bSinglePass, m_fmtTexture := t.m_fmtTexture,
      m_pBaseTexture := env.baseTexture.texture, m_pDetailTexture := env.detailTexture.texture,
      m_pWaterTexture := env.waterTexture.texture, m_pHeightMap := some data,
      m_nHeightMapWidth := Width, m_nHeightMapHeight := Height, m_pMesh := none,
      m_nMeshCount := t.m_nMeshCount,
      m_vecScale := { x := 4 * ((512 / (Width - 1) : Nat) : ℚ), y := 2,
                      z := 4 * ((512 / (Height - 1) : Nat) : ℚ) },
      m_nPrimitiveCount := t.m_nPrimitiveCount } with ht3
  have hN16 : N * 16 ≤ Width * Height := by
    have h1 : (Width - 1) / QuadsWide * 16 ≤ Width := by
      have : (Width - 1) / 16 * 16 ≤ Width - 1 := Nat.div_mul_le_self _ _
      unfold QuadsWide BlockWidth
      omega
    have h2 : (Height - 1) / QuadsHigh ≤ Height := le_trans (Nat.div_le_self _ _) (by omega)
    calc N * 16 = ((Width - 1) / QuadsWide * 16) * ((Height - 1) / QuadsHigh) := by
          rw [hN]; ring
      _ ≤ Width * Height := Nat.mul_le_mul h1 h2
  obtain ⟨r, t4, hadd, hfail, hsucc⟩ := AddMesh_spec t3 N env.meshAlloc
    (by simp [ht3, hcount]) (by simp only [ht3, hcount]; omega)
  have hr : r ≠ -1 := by
    intro h
    rcases hfail.mp h with h1 | ⟨i, hi, hnone⟩
    · rw [harr] at h1; cases h1
    · obtain ⟨m, hm, -⟩ := hnew i hi
      rw [hm] at hnone; cases hnone
  obtain ⟨hr0, hc4, pMesh, hp4, hplen, -, hslots⟩ := hsucc hr
  have hframe := AddMesh_frame t3 t4 N env.meshAlloc r hadd
  have h4hm : t4.m_pHeightMap = some data := by rw [hframe]
  have h4W : t4.m_nHeightMapWidth = Width := by rw [hframe]
  have h4H : t4.m_nHeightMapHeight = Height := by rw [hframe]
  have h4s : t4.m_vecScale = ⟨4 * ((512 / (Width - 1) : Nat) : ℚ), 2,
      4 * ((512 / (Height - 1) : Nat) : ℚ)⟩ := by rw [hframe]
  have hc3 : t3.m_nMeshCount = 0 := hcount
  rw [hc3, Nat.zero_add] at hc4 hplen
  have hBWle : (BlockWidth - 1) * ((Width - 1) / QuadsWide) ≤ Width - 1 := by
    unfold QuadsWide BlockWidth
    have : (Width - 1) / 16 * 16 ≤ Width - 1 := Nat.div_mul_le_self _ _
    omega
  have hBHle : (BlockHeight - 1) * ((Height - 1) / QuadsHigh) ≤ Height - 1 := by
    unfold QuadsHigh BlockHeight
    have : (Height - 1) / 16 * 16 ≤ Height - 1 := Nat.div_mul_le_self _ _
    omega
  obtain ⟨meshes', hbuildrun, hinv'⟩ := BuildMeshes_spec t4 env.builder pMesh hp4
    (by
      rw [h4W, h4H, hsW, hsH]
      refine ⟨hplen, fun b hb => absurd hb (Nat.not_lt_zero _), ?_⟩
      intro b _ hb
      obtain ⟨m, hm, hmv, hmi⟩ := hnew b hb
      obtain ⟨m2, hm2, hget⟩ := hslots b hb
      rw [hc3, Nat.zero_add] at hget
      rw [hm] at hm2
      cases hm2
      exact ⟨_, hget, m, rfl, hmv, hmi⟩)
    (by rw [h4W, h4H, hsW, hsH]; exact hbuild)
    (by
      rw [h4W, h4H, hsW, hsH]
      intro vx vz hvx hvz
      obtain ⟨b, v, -, hv, -⟩ := vertexAt_defined t4 data h4hm (by rw [hdlen, h4W, h4H])
        (by omega) vx vz (by rw [h4W]; omega) (by rw [h4H]; omega)
      exact ⟨v, hv⟩)
  rw [h4W, h4H, hsW, hsH] at hinv'
  refine ⟨{ t4 with m_nPrimitiveCount := PrimitiveCount, m_pMesh := some meshes' }, data,
    meshes', ?_, h4hm, hdlen, h4W, h4H, h4s, hc4, rfl, ?_⟩
  · rw [hadd, Option.some_bind, hr0]
    simp only [hc3, Nat.cast_zero, lt_self_iff_false, if_false]
    exact hbuildrun
  · rw [Nat.mul_comm ((Height - 1) / QuadsHigh)] at hinv'
    exact hinv'

/-- C5 (amended): for `W, H >= 2` with `W - 1` and `H - 1` multiples of 16 (so
`W, H >= 17`), on a terrain that holds no meshes yet and has a device, with the
heightmap fitting the address space and every allocation, the file and the
texture loads succeeding, `LoadHeightMap` returns `true` having allocated
exactly `((W - 1) / 16) * ((H - 1) / 16)` meshes, and every heightmap sample
`(vx, vz)` with `vx < W`, `vz < H` is, in the mesh of some block `(x, z)`, the
local vertex `(vx - 16 x) + (vz - 16 z) * 17`, at position
`(vx * scale.x, heightmap[vx + vz * W] * scale.y, vz * scale.z)`. -/
theorem LoadHeightMap_blocks_cover (t : CTerrain) (env : LoadEnv) (Width Height : Nat)
    (hW : 2 ≤ Width) (hH : 2 ≤ Height)
    (hdW : 16 ∣ Width - 1) (hdH : 16 ∣ Height - 1)
    (hsize : Width * Height < 2 ^ 31)
    (hmesh : t.m_pMesh = none) (hcount : t.m_nMeshCount = 0) (hdev : t.m_pD3DDevice ≠ none)
    (henv : env.Succeeds (((Width - 1) / 16) * ((Height - 1) / 16))) :
    ∃ (t' : CTerrain) (hm : List Nat) (meshes : List MeshSlot),
      t.LoadHeightMap env Width Height = some (true, t') ∧
      t'.m_pHeightMap = some hm ∧ t'.m_pMesh = some meshes ∧
      meshes.length = ((Width - 1) / 16) * ((Height - 1) / 16) ∧
      t'.m_nMeshCount = ((Width - 1) / 16) * ((Height - 1) / 16) ∧
      ∀ vx vz, vx < Width → vz < Height →
        ∃ (x z : Nat) (mesh : CMesh) (verts : List (Option CVertex)) (v : CVertex) (b : Nat),
          x < (Width - 1) / 16 ∧ z < (Height - 1) / 16 ∧
          16 * x ≤ vx ∧ vx ≤ 16 * x + 16 ∧ 16 * z ≤ vz ∧ vz ≤ 16 * z + 16 ∧
          meshes[x + z * ((Width - 1) / 16)]? = some (MeshSlot.mesh mesh) ∧
          mesh.m_pVertex = some verts ∧
          verts[(vx - 16 * x) + (vz - 16 * z) * 17]? = some (some v) ∧
          hm[vx + vz * Width]? = some b ∧
          v.x = (vx : ℚ) * t'.m_vecScale.x ∧ v.y = (b : ℚ) * t'.m_vecScale.y ∧
          v.z = (vz : ℚ) * t'.m_vecScale.z := by
  obtain ⟨t', hm, meshes, hrun, hhm, hlen, hW', hH', -, hcnt, hp, hinv⟩ :=
    LoadHeightMap_spec t env Width Height hW hH hsize hmesh hcount hdev henv
  have hQW : QuadsWide = 16 := rfl
  have hQH : QuadsHigh = 16 := rfl
  rw [hQW, hQH] at hcnt hinv
  obtain ⟨hmlen, hbuilt, -⟩ := hinv
  refine ⟨t', hm, meshes, hrun, hhm, hp, hmlen, hcnt, ?_⟩
  intro vx vz hvx hvz
  obtain ⟨kW, hkW⟩ := hdW
  obtain ⟨kH, hkH⟩ := hdH
  have hBW : (Width - 1) / 16 = kW := by omega
  have hBH : (Height - 1) / 16 = kH := by omega
  rw [hBW, hBH] at hbuilt hmlen ⊢
  -- the block that holds the sample
  obtain ⟨x, hx, hx1, hx2⟩ : ∃ x, x < kW ∧ 16 * x ≤ vx ∧ vx ≤ 16 * x + 16 := by
    by_cases h : vx / 16 < kW
    · exact ⟨vx / 16, h, by omega, by omega⟩
    · exact ⟨kW - 1, by omega, by omega, by omega⟩
  obtain ⟨z, hz, hz1, hz2⟩ : ∃ z, z < kH ∧ 16 * z ≤ vz ∧ vz ≤ 16 * z + 16 := by
    by_cases h : vz / 16 < kH
    · exact ⟨vz / 16, h, by omega, by omega⟩
    · exact ⟨kH - 1, by omega, by omega, by omega⟩
  have hslot : x + z * kW < kW * kH := by
    have : (z + 1) * kW ≤ kH * kW := Nat.mul_le_mul_right kW hz
    nlinarith
  obtain ⟨s, hs, m, verts, rfl, hmv, hverts⟩ := hbuilt (x + z * kW) hslot
  have e1 : (x + z * kW) % kW = x := by
    rw [Nat.add_mul_mod_self_right, Nat.mod_eq_of_lt hx]
  have e2 : (x + z * kW) / kW = z := by
    rw [Nat.add_mul_div_right _ _ (by omega), Nat.div_eq_of_lt hx, Nat.zero_add]
  rw [e1, e2] at hverts
  obtain ⟨v, hv, hget⟩ := hverts (vx - 16 * x) (vz - 16 * z) (by unfold BlockWidth; omega)
    (by unfold BlockHeight; omega)
  have hvx' : x * (BlockWidth - 1) + (vx - 16 * x) = vx := by unfold BlockWidth; omega
  have hvz' : z * (BlockHeight - 1) + (vz - 16 * z) = vz := by unfold BlockHeight; omega
  rw [hvx', hvz'] at hv
  obtain ⟨b, v', hb, hv', h1, h2, h3⟩ := vertexAt_defined t' hm hhm (by rw [hlen, hW', hH'])
    (by rw [hlen]; omega) vx vz (by rw [hW']; exact hvx) (by rw [hH']; exact hvz)
  rw [hv] at hv'
  cases hv'
  rw [hW'] at hb
  exact ⟨x, z, m, verts, v, b, hx, hz, hx1, hx2, hz1, hz2, hs, hmv, hget, hb, h1, h2, h3⟩

theorem envAllOk_succeeds (n N : Nat) : (envAllOk n).Succeeds N := by
  refine ⟨rfl, by simp [envAllOk], by simp [envAllOk], by simp [envAllOk], by simp [envAllOk],
    rfl, ?_, ?_⟩
  · intro i _
    exact ⟨freshMesh, rfl, rfl, rfl⟩
  · intro b _
    exact ⟨rfl, rfl, by simp [envAllOk]⟩

theorem LoadHeightMap_blocks_cover_witness :
    ∃ (t' : CTerrain) (hm : List Nat) (meshes : List MeshSlot),
      terrainNew.LoadHeightMap (envAllOk 289) 17 17 = some (true, t') ∧
      t'.m_pHeightMap = some hm ∧ t'.m_pMesh = some meshes ∧
      meshes.length = ((17 - 1) / 16) * ((17 - 1) / 16) ∧
      t'.m_nMeshCount = ((17 - 1) / 16) * ((17 - 1) / 16) ∧
      ∀ vx vz, vx < 17 → vz < 17 →
        ∃ (x z : Nat) (mesh : CMesh) (verts : List (Option CVertex)) (v : CVertex) (b : Nat),
          x < (17 - 1) / 16 ∧ z < (17 - 1) / 16 ∧
          16 * x ≤ vx ∧ vx ≤ 16 * x + 16 ∧ 16 * z ≤ vz ∧ vz ≤ 16 * z + 16 ∧
          meshes[x + z * ((17 - 1) / 16)]? = some (MeshSlot.mesh mesh) ∧
          mesh.m_pVertex = some verts ∧
          verts[(vx - 16 * x) + (vz - 16 * z) * 17]? = some (some v) ∧
          hm[vx + vz * 17]? = some b ∧
          v.x = (vx : ℚ) * t'.m_vecScale.x ∧ v.y = (b : ℚ) * t'.m_vecScale.y ∧
          v.z = (vz : ℚ) * t'.m_vecScale.z :=
  LoadHeightMap_blocks_cover terrainNew (envAllOk 289) 17 17 (by decide) (by decide)
    (by decide) (by decide) (by decide) rfl rfl (by simp [terrainNew])
    (envAllOk_succeeds _ _)

/-- C5 (as stated, fails at `W = H = 1`): `W - 1 = 0` is a multiple of 16 and every
other premise holds, yet `LoadHeightMap` does not return (it divides `512` by
`W - 1 = 0`), and there is no block `(x, z)` with `x < (W - 1) / 16` to hold the
sample `(0, 0)`. -/
theorem LoadHeightMap_blocks_cover_fails_at_one :
    (1 ≤ 1 ∧ 16 ∣ 1 - 1 ∧ 1 * 1 < 2 ^ 31) ∧
    (terrainNew.m_pMesh = none ∧ terrainNew.m_nMeshCount = 0 ∧ terrainNew.m_pD3DDevice ≠ none) ∧
    (envAllOk 1).Succeeds (((1 - 1) / 16) * ((1 - 1) / 16)) ∧
    terrainNew.LoadHeightMap (envAllOk 1) 1 1 = none ∧
    (¬ ∃ t' : CTerrain, terrainNew.LoadHeightMap (envAllOk 1) 1 1 = some (true, t')) ∧
    (¬ ∃ x z : Nat, x < (1 - 1) / 16 ∧ z < (1 - 1) / 16 ∧ 16 * x ≤ 0 ∧ 16 * z ≤ 0) := by
  have hnone : terrainNew.LoadHeightMap (envAllOk 1) 1 1 = none := by
    have h1 : ulongSub 1 1 = 0 := by decide
    simp [CTerrain.LoadHeightMap, terrainNew, h1]
  refine ⟨⟨le_refl _, by decide, by decide⟩, ⟨rfl, rfl, by simp [terrainNew]⟩,
    envAllOk_succeeds _ _, hnone, ?_, ?_⟩
  · rintro ⟨t', h⟩
    rw [hnone] at h
    cases h
  · rintro ⟨x, z, hx, -⟩
    omega

theorem toULong_neg_one : toULong (-1) = 2 ^ 32 - 1 := by
  unfold toULong ULONG_RANGE
  simp only [Nat.cast_pow, Nat.cast_ofNat]
  omega

theorem toULong_neg (n : Nat) (h0 : 0 < n) (h : n < 2 ^ 31) :
    toULong (-(toLong n)) = 2 ^ 32 - n := by
  rw [toLong_of_lt n h]
  unfold toULong ULONG_RANGE
  simp only [Nat.cast_pow, Nat.cast_ofNat]
  omega

/-- C11: for a heightmap with `W >= 2` and `H >= 2` held in memory,
`GetHeightMapNormal(x, z)` returns the up vector `(0, 1, 0)` and reads nothing
when `x >= W` or `z >= H`; otherwise it returns, and the three offsets it reads,
computed with 32-bit wraparound, are `x + z W`, the horizontal neighbour
(`x + 1` when `x < W - 1`, else `x - 1`) and the vertical neighbour (row `z + 1`
when `z < H - 1`, else row `z - 1`), each below `W * H`. -/
theorem GetHeightMapNormal_in_bounds (t : CTerrain) (hm : List Nat)
    (vecNormalize : D3DXVECTOR3 → D3DXVECTOR3) (x z : Nat)
    (hmap : t.HasHeightMap hm)
    (hW : 2 ≤ t.m_nHeightMapWidth) (hH : 2 ≤ t.m_nHeightMapHeight) :
    ((x ≥ t.m_nHeightMapWidth ∨ z ≥ t.m_nHeightMapHeight) →
      t.GetHeightMapNormal vecNormalize x z = some ⟨0, 1, 0⟩ ∧
      t.GetHeightMapNormalReads x z = []) ∧
    (x < t.m_nHeightMapWidth → z < t.m_nHeightMapHeight →
      t.GetHeightMapNormalReads x z =
        [x + z * t.m_nHeightMapWidth,
          (if x < t.m_nHeightMapWidth - 1 then x + 1 else x - 1) + z * t.m_nHeightMapWidth,
          x + (if z < t.m_nHeightMapHeight - 1 then z + 1 else z - 1) * t.m_nHeightMapWidth] ∧
      (∀ i ∈ t.GetHeightMapNormalReads x z,
        i < t.m_nHeightMapWidth * t.m_nHeightMapHeight) ∧
      ∃ n, t.GetHeightMapNormal vecNormalize x z = some n) := by
  obtain ⟨hp, hlen, hsmall⟩ := hmap
  set W := t.m_nHeightMapWidth with hWd
  set H := t.m_nHeightMapHeight with hHd
  constructor
  · intro hout
    have hchk : (x : ℚ) < 0 ∨ (z : ℚ) < 0 ∨ x ≥ W ∨ z ≥ H := Or.inr (Or.inr hout)
    unfold CTerrain.GetHeightMapNormal CTerrain.GetHeightMapNormalReads
    simp only [← hWd, ← hHd, if_pos hchk, and_self]
  · intro hx hz
    have hchk : ¬ ((x : ℚ) < 0 ∨ (z : ℚ) < 0 ∨ x ≥ W ∨ z ≥ H) := by
      rintro (h | h | h | h)
      · exact absurd h (not_lt.mpr (Nat.cast_nonneg x))
      · exact absurd h (not_lt.mpr (Nat.cast_nonneg z))
      · omega
      · omega
    have hWH : W * H < 2 ^ 31 := by rw [← hlen]; exact hsmall
    have hrow : (z + 1) * W ≤ H * W := Nat.mul_le_mul_right W hz
    have hidx : x + z * W < W * H := by nlinarith
    have hWlt : W < 2 ^ 31 := by nlinarith
    have hHlt : H < 2 ^ 31 := by nlinarith
    have hsW : ulongSub W 1 = W - 1 := ulongSub_of_le _ _ (by omega) (by omega)
    have hsH : ulongSub H 1 = H - 1 := ulongSub_of_le _ _ (by omega) (by omega)
    have e0 : ulongAdd x (z * W) = x + z * W := by
      unfold ulongAdd ULONG_RANGE; exact Nat.mod_eq_of_lt (by omega)
    have eX : ulongAdd (x + z * W) (t.HMAddX x) =
        (if x < W - 1 then x + 1 else x - 1) + z * W := by
      unfold CTerrain.HMAddX ulongAdd ULONG_RANGE
      rw [← hWd, hsW]
      split_ifs with h
      · rw [Nat.mod_eq_of_lt (by omega)]; omega
      · rw [toULong_neg_one]
        omega
    have eZ : ulongAdd (x + z * W) (t.HMAddZ z) =
        x + (if z < H - 1 then z + 1 else z - 1) * W := by
      unfold CTerrain.HMAddZ ulongAdd ULONG_RANGE
      rw [← hWd, ← hHd, hsH]
      split_ifs with h
      · rw [Nat.mod_eq_of_lt (by nlinarith)]; ring
      · rw [toULong_neg W (by omega) hWlt]
        have hz1 : z = H - 1 := by omega
        have hzW : z * W = (z - 1) * W + W := by
          have : z = (z - 1) + 1 := by omega
          conv_lhs => rw [this, Nat.add_mul, Nat.one_mul]
        rw [hzW]
        have : x + ((z - 1) * W + W) + (2 ^ 32 - W) = (x + (z - 1) * W) + 2 ^ 32 := by omega
        rw [this, Nat.add_mod_right, Nat.mod_eq_of_lt (by nlinarith)]
    have hreads : t.GetHeightMapNormalReads x z =
        [x + z * W, (if x < W - 1 then x + 1 else x - 1) + z * W,
          x + (if z < H - 1 then z + 1 else z - 1) * W] := by
      unfold CTerrain.GetHeightMapNormalReads
      simp only [← hWd, ← hHd, if_neg hchk, e0, eX, eZ]
    have hrow2 : z * W + W ≤ W * H := by
      have : (z + 1) * W = z * W + W := by ring
      rw [← this, Nat.mul_comm W H]; exact hrow
    have bX : (if x < W - 1 then x + 1 else x - 1) + z * W < W * H := by
      split_ifs <;> omega
    have bZ : x + (if z < H - 1 then z + 1 else z - 1) * W < W * H := by
      split_ifs with h
      · have h2 : (z + 2) * W ≤ H * W := Nat.mul_le_mul_right W (by omega)
        have h3 : (z + 2) * W = (z + 1) * W + W := by ring
        rw [Nat.mul_comm W H]
        omega
      · have h2 : (z - 1) * W ≤ z * W := Nat.mul_le_mul_right W (by omega)
        omega
    refine ⟨hreads, ?_, ?_⟩
    · rw [hreads]
      intro i hi
      simp only [List.mem_cons, List.mem_singleton, List.not_mem_nil, or_false] at hi
      rcases hi with rfl | rfl | rfl
      · exact hidx
      · exact bX
      · exact bZ
    · unfold CTerrain.GetHeightMapNormal
      simp only [← hWd, ← hHd, if_neg hchk, e0, eX, eZ, heightMapAt_of_eq t hm hp]
      rw [List.get?_eq_get (by rw [hlen]; exact hidx), List.get?_eq_get (by rw [hlen]; exact bX),
        List.get?_eq_get (by rw [hlen]; exact bZ)]
      simp

theorem GetHeightMapNormal_in_bounds_witness :
    terrain17.GetHeightMapNormalReads 16 16 = [288, 287, 271] ∧
      (∀ i ∈ terrain17.GetHeightMapNormalReads 16 16, i < 17 * 17) ∧
      terrain17.GetHeightMapNormal id 16 17 = some ⟨0, 1, 0⟩ := by
  have h := GetHeightMapNormal_in_bounds terrain17 _ id 16 16 terrain17_hasHeightMap
    (by decide) (by decide)
  have h2 := GetHeightMapNormal_in_bounds terrain17 _ id 16 17 terrain17_hasHeightMap
    (by decide) (by decide)
  obtain ⟨hr, hb, -⟩ := h.2 (by decide) (by decide)
  refine ⟨?_, hb, (h2.1 (Or.inr (by decide))).1⟩
  rw [hr]
  decide

/-- The world-space width `(W - 1) * scale.x` that `LoadHeightMap` produces, for a
load that succeeds: `(W - 1) * (4 * (512 / (W - 1)))` with the integer
quotient. -/
theorem LoadHeightMap_world_size (t : CTerrain) (env : LoadEnv) (Width Height : Nat)
    (hW : 2 ≤ Width) (hH : 2 ≤ Height) (hsize : Width * Height < 2 ^ 31)
    (hmesh : t.m_pMesh = none) (hcount : t.m_nMeshCount = 0) (hdev : t.m_pD3DDevice ≠ none)
    (henv : env.Succeeds (((Width - 1) / QuadsWide) * ((Height - 1) / QuadsHigh))) :
    ∃ t' : CTerrain, t.LoadHeightMap env Width Height = some (true, t') ∧
      ((t'.m_nHeightMapWidth - 1 : Nat) : ℚ) * t'.m_vecScale.x
        = (((Width - 1) * (4 * (512 / (Width - 1))) : Nat) : ℚ) ∧
      ((t'.m_nHeightMapHeight - 1 : Nat) : ℚ) * t'.m_vecScale.z
        = (((Height - 1) * (4 * (512 / (Height - 1))) : Nat) : ℚ) := by
  obtain ⟨t', hm, meshes, hrun, -, -, hW', hH', hs, -⟩ :=
    LoadHeightMap_spec t env Width Height hW hH hsize hmesh hcount hdev henv
  refine ⟨t', hrun, ?_, ?_⟩
  · rw [hW', hs]; push_cast; ring
  · rw [hH', hs]; push_cast; ring

/-- C12 (evaluation at the failing input): `Width = Height = 49` meets the
documented requirement (`48` is a multiple of 16) and the load succeeds, but
the integer quotient `512 / 48 = 10` gives `scale.x = scale.z = 40`, so the map
is `48 * 40 = 1920` wide and deep, not the `2048` of the 513-wide terrain. -/
theorem LoadHeightMap_49_world_size :
    QuadsWide ∣ 49 - 1 ∧
    ∃ t' : CTerrain, loaded49 = some (true, t') ∧
      t'.m_vecScale.x = 40 ∧ t'.m_vecScale.z = 40 ∧
      ((t'.m_nHeightMapWidth - 1 : Nat) : ℚ) * t'.m_vecScale.x = 1920 ∧
      ((t'.m_nHeightMapHeight - 1 : Nat) : ℚ) * t'.m_vecScale.z = 1920 ∧
      ((t'.m_nHeightMapWidth - 1 : Nat) : ℚ) * t'.m_vecScale.x ≠ 2048 := by
  refine ⟨⟨3, by decide⟩, ?_⟩
  obtain ⟨t', hm, meshes, hrun, -, -, hW', hH', hs, -⟩ :=
    LoadHeightMap_spec terrainNew (envAllOk (49 * 49)) 49 49 (by decide) (by decide)
      (by decide) rfl rfl (by simp [terrainNew]) (envAllOk_succeeds _ _)
  refine ⟨t', hrun, ?_, ?_, ?_, ?_, ?_⟩
  · rw [hs]; norm_num
  · rw [hs]; norm_num
  · rw [hW', hs]; norm_num
  · rw [hH', hs]; norm_num
  · rw [hW', hs]; norm_num

/-- For the sizes whose quad count divides 512 the formula does keep the map
size: `(W - 1) * (4 * (512 / (W - 1))) = 2048`. -/
theorem scale_keeps_size_of_dvd (W : Nat) (h2 : 2 ≤ W) (hd : W - 1 ∣ 512) :
    (W - 1) * (4 * (512 / (W - 1))) = 2048 := by
  obtain ⟨k, hk⟩ := hd
  have hpos : 0 < W - 1 := by omega
  rw [hk, Nat.mul_div_cancel_left k hpos]
  calc (W - 1) * (4 * k) = 4 * ((W - 1) * k) := by ring
    _ = 2048 := by rw [← hk]

/-- C13: the product of the shorts 123 and 456 stored in the `short a3` is not
56088 but `56088 mod 2^16` read as signed, -9448, and its line carries the
"(incorrect!)" marker; the same product in the `int b3` is 56088. -/
theorem IntMult_short_product :
    IntMult.main.a3 = -9448 ∧ IntMult.main.a3 ≠ 123 * 456 ∧
    IntMult.main.a3 = (123 * 456) % 2 ^ 16 - 2 ^ 16 ∧
    IntMult.main.b3 = 56088 ∧ IntMult.main.b3 = 123 * 456 ∧
    IntMult.main.shortLine = [.number 123, .text " * ", .number 456, .text " = ",
      .number (-9448), .text " (incorrect!)", .endl] ∧
    IntMult.main.intLine = [.number 123, .text " * ", .number 456, .text " = ",
      .number 56088, .endl] := by
  decide

/-- C14: with overflow taken as wraparound mod `2^32`, the product of the ints
123450 and 67890 stored in `c3` is not 8381020500 but -208914092, and its line
carries the "(incorrect!)" marker. -/
theorem IntMult_int_product :
    IntMult.main.c3 = -208914092 ∧ (123450 : Int) * 67890 = 8381020500 ∧
    IntMult.main.c3 ≠ 123450 * 67890 ∧
    IntMult.main.intOverflowLine = [.number 123450, .text " * ", .number 67890, .text " = ",
      .number (-208914092), .text " (incorrect!)", .endl] := by
  decide

/-- C15 (what the code does): the `unsigned` product `d3` is
`8381020500 mod 2^32 = 4086053204`, not the mathematical product
`123450 * 67890 = 8381020500`, and it is printed without the "(incorrect!)"
marker that the `int` line with the same operands carries. -/
theorem IntMult_unsigned_product :
    IntMult.main.d3 = 4086053204 ∧ IntMult.main.d3 ≠ 123450 * 67890 ∧
    IntMult.main.d3 = (123450 * 67890) % 2 ^ 32 ∧
    IntMult.main.unsignedLine = [.number 123450, .text " * ", .number 67890, .text " = ",
      .number 4086053204, .endl] ∧
    CoutItem.text " (incorrect!)" ∉ IntMult.main.unsignedLine ∧
    CoutItem.text " (incorrect!)" ∈ IntMult.main.intOverflowLine := by
  decide

/-- C20: `UpdatePlayer` runs to completion and, with `y` the player's y after the
height collision: in FPS camera mode with `y < WaterLevel * scale.y = 54 * scale.y`
it sets friction 250, gravity `(0, -260, 0)`, max XZ velocity 40 and max Y
velocity 60; in FPS mode otherwise friction 250, gravity `(0, -500, 0)`, max XZ
velocity 125 and max Y velocity 400; in any other camera mode it calls none of
the four setters and the four values stay as they were. -/
theorem UpdatePlayer_water_parameters (t : CTerrain) (p : CPlayer) (camera : CCamera)
    (TimeScale g : ℚ)
    (hcam : p.m_pCamera = some camera)
    (hg : t.GetHeight p.m_vecPos.x p.m_vecPos.z
        (decide (Odd (castInt (p.m_vecPos.z / t.m_vecScale.z)))) = some g) :
    WaterLevel * t.m_vecScale.y = 54 * t.m_vecScale.y ∧
    ∃ calls : List PlayerCall,
      CTerrain.UpdatePlayer (some t) (some p) TimeScale = some calls ∧
      (camera.m_CameraMode = CAMERA_MODE.MODE_FPS →
        (if p.m_vecPos.y < g - p.m_Volume.Min.y then g - p.m_Volume.Min.y else p.m_vecPos.y)
          < WaterLevel * t.m_vecScale.y →
        calls.filter (fun c => !c.movesPlayer) =
          [PlayerCall.SetFriction 250, PlayerCall.SetGravity ⟨0, -260, 0⟩,
            PlayerCall.SetMaxVelocityXZ 40, PlayerCall.SetMaxVelocityY 60] ∧
        (p.performAll calls).m_fFriction = 250 ∧
        (p.performAll calls).m_vecGravity = ⟨0, -260, 0⟩ ∧
        (p.performAll calls).m_fMaxVelocityXZ = 40 ∧
        (p.performAll calls).m_fMaxVelocityY = 60) ∧
      (camera.m_CameraMode = CAMERA_MODE.MODE_FPS →
        ¬ (if p.m_vecPos.y < g - p.m_Volume.Min.y then g - p.m_Volume.Min.y else p.m_vecPos.y)
          < WaterLevel * t.m_vecScale.y →
        calls.filter (fun c => !c.movesPlayer) =
          [PlayerCall.SetFriction 250, PlayerCall.SetGravity ⟨0, -500, 0⟩,
            PlayerCall.SetMaxVelocityXZ 125, PlayerCall.SetMaxVelocityY 400] ∧
        (p.performAll calls).m_fFriction = 250 ∧
        (p.performAll calls).m_vecGravity = ⟨0, -500, 0⟩ ∧
        (p.performAll calls).m_fMaxVelocityXZ = 125 ∧
        (p.performAll calls).m_fMaxVelocityY = 400) ∧
      (camera.m_CameraMode ≠ CAMERA_MODE.MODE_FPS →
        calls.filter (fun c => !c.movesPlayer) = [] ∧
        (p.performAll calls).m_fFriction = p.m_fFriction ∧
        (p.performAll calls).m_vecGravity = p.m_vecGravity ∧
        (p.performAll calls).m_fMaxVelocityXZ = p.m_fMaxVelocityXZ ∧
        (p.performAll calls).m_fMaxVelocityY = p.m_fMaxVelocityY) := by
  refine ⟨by unfold WaterLevel; rfl, ?_⟩
  have hrq : decide (Int.tmod (castInt (p.m_vecPos.z / t.m_vecScale.z)) 2 ≠ 0)
      = decide (Odd (castInt (p.m_vecPos.z / t.m_vecScale.z))) :=
    decide_eq_decide.mpr (tmod_two_ne_zero_iff_odd _)
  unfold CTerrain.UpdatePlayer
  simp only [hrq, hg, hcam, Option.some_bind]
  refine ⟨_, rfl, ?_⟩
  by_cases hc : p.m_vecPos.y < g - p.m_Volume.Min.y
  · by_cases hmode : camera.m_CameraMode = CAMERA_MODE.MODE_FPS
    · by_cases hw : g - p.m_Volume.Min.y < WaterLevel * t.m_vecScale.y
      · simp [hc, hmode, hw, CPlayer.performAll, CPlayer.perform, PlayerCall.movesPlayer,
          List.filter]
      · simp [hc, hmode, hw, CPlayer.performAll, CPlayer.perform, PlayerCall.movesPlayer,
          List.filter]
    · simp [hc, hmode, CPlayer.performAll, CPlayer.perform, PlayerCall.movesPlayer,
        List.filter]
  · by_cases hmode : camera.m_CameraMode = CAMERA_MODE.MODE_FPS
    · by_cases hw : p.m_vecPos.y < WaterLevel * t.m_vecScale.y
      · simp [hc, hmode, hw, CPlayer.performAll, CPlayer.perform, PlayerCall.movesPlayer,
          List.filter]
      · simp [hc, hmode, hw, CPlayer.performAll, CPlayer.perform, PlayerCall.movesPlayer,
          List.filter]
    · simp [hc, hmode, CPlayer.performAll, CPlayer.perform, PlayerCall.movesPlayer,
        List.filter]

theorem terrain17_GetHeight_at_2_0 (ReverseQuad : Bool) :
    terrain17.GetHeight 256 0 ReverseQuad = some 4 := by
  obtain ⟨b, hb, hget⟩ := GetHeight_at_grid terrain17 _ 2 0 ReverseQuad terrain17_hasHeightMap
    (by simp [terrain17]) (by simp [terrain17]) (by simp [terrain17]) (by simp [terrain17])
  have hb2 : b = 2 := by
    have h2 : ((List.range 289).map (fun i => i % 256)).get? (2 + 0 * 17) = some 2 := by
      simp
    have hW : terrain17.m_nHeightMapWidth = 17 := rfl
    rw [hW, h2] at hb
    exact (Option.some.inj hb).symm
  subst hb2
  have e1 : ((2 : Nat) : ℚ) * terrain17.m_vecScale.x = 256 := by norm_num [terrain17]
  have e2 : ((0 : Nat) : ℚ) * terrain17.m_vecScale.z = 0 := by norm_num [terrain17]
  have e3 : ((2 : Nat) : ℚ) * terrain17.m_vecScale.y = 4 := by norm_num [terrain17]
  rw [e1, e2, e3] at hget
  exact hget

theorem UpdatePlayer_water_parameters_witness :
    ∃ calls : List PlayerCall,
      CTerrain.UpdatePlayer (some terrain17) (some playerSwimming) 1 = some calls ∧
      calls.filter (fun c => !c.movesPlayer) =
        [PlayerCall.SetFriction 250, PlayerCall.SetGravity ⟨0, -260, 0⟩,
          PlayerCall.SetMaxVelocityXZ 40, PlayerCall.SetMaxVelocityY 60] ∧
      (playerSwimming.performAll calls).m_fMaxVelocityY = 60 := by
  obtain ⟨-, calls, hrun, hunder, -, -⟩ :=
    UpdatePlayer_water_parameters terrain17 playerSwimming
      ⟨CAMERA_MODE.MODE_FPS, ⟨256, 20, 0⟩, ⟨⟨-3, -3, -3⟩, ⟨3, 3, 3⟩⟩⟩ 1 4 rfl
      (terrain17_GetHeight_at_2_0 _)
  have h := hunder rfl (by norm_num [playerSwimming, terrain17, WaterLevel])
  exact ⟨calls, hrun, h.1, h.2.2.2.2⟩

/-- C19: `CMyD3DInit::ValidateDisplayMode` returns true exactly for the display
modes with `Width >= 640`, `Height >= 480` and `RefreshRate >= 60`. -/
theorem ValidateDisplayMode_iff (Mode : D3DDISPLAYMODE) :
    CMyD3DInit.ValidateDisplayMode Mode = true ↔
      Mode.Width ≥ 640 ∧ Mode.Height ≥ 480 ∧ Mode.RefreshRate ≥ 60 := by
  unfold CMyD3DInit.ValidateDisplayMode
  split_ifs with h
  · simp only [Bool.false_eq_true, false_iff]
    omega
  · simp only [true_iff]
    omega

theorem testBit_31_iff (n : Nat) (h : n < 2 ^ 32) : n.testBit 31 = true ↔ 2 ^ 31 ≤ n := by
  rw [Nat.testBit_to_div_mod]
  simp only [decide_eq_true_eq]
  omega

theorem land_ge_iff (x y : Nat) (hx : x < 2 ^ 32) (hy : y < 2 ^ 32) :
    2 ^ 31 ≤ x &&& y ↔ 2 ^ 31 ≤ x ∧ 2 ^ 31 ≤ y := by
  have hxy : x &&& y < 2 ^ 32 := lt_of_le_of_lt Nat.and_le_left hx
  rw [← testBit_31_iff _ hxy, ← testBit_31_iff _ hx, ← testBit_31_iff _ hy, Nat.testBit_and,
    Bool.and_eq_true]

theorem toULong_lt (a : Int) : toULong a < 2 ^ 32 := by
  unfold toULong ULONG_RANGE
  simp only [Nat.cast_pow, Nat.cast_ofNat]
  omega

theorem toULong_ge_iff (a : Int) (h1 : -2 ^ 31 ≤ a) (h2 : a < 2 ^ 31) :
    2 ^ 31 ≤ toULong a ↔ a < 0 := by
  unfold toULong ULONG_RANGE
  simp only [Nat.cast_pow, Nat.cast_ofNat]
  omega

theorem toLong_range (u : Nat) : -2 ^ 31 ≤ toLong u ∧ toLong u < 2 ^ 31 := by
  unfold toLong ULONG_RANGE
  split_ifs <;> push_cast <;> omega

theorem toLong_neg_iff (u : Nat) (h : u < 2 ^ 32) : toLong u < 0 ↔ 2 ^ 31 ≤ u := by
  unfold toLong ULONG_RANGE
  split_ifs <;> push_cast <;> omega

theorem longAnd_range (a b : Int) : -2 ^ 31 ≤ longAnd a b ∧ longAnd a b < 2 ^ 31 :=
  toLong_range _

/-- The sign bit of `a & b` is set exactly when it is set in both operands. -/
theorem longAnd_neg_iff (a b : Int) (ha1 : -2 ^ 31 ≤ a) (ha2 : a < 2 ^ 31)
    (hb1 : -2 ^ 31 ≤ b) (hb2 : b < 2 ^ 31) :
    longAnd a b < 0 ↔ a < 0 ∧ b < 0 := by
  unfold longAnd
  rw [toLong_neg_iff _ (lt_of_le_of_lt Nat.and_le_left (toULong_lt a)),
    land_ge_iff _ _ (toULong_lt a) (toULong_lt b), toULong_ge_iff a ha1 ha2,
    toULong_ge_iff b hb1 hb2]

theorem DisplayWndProc_rotation1 (env : AppEnv) (app : CGameApp) (wParam lParam : Nat)
    (hid : LOWORD wParam = env.ids.ID_ANIM_ROTATION1) :
    app.DisplayWndProc env WM_COMMAND wParam lParam =
      some (env.DefWindowProc, { app with m_bRotation1 := !app.m_bRotation1 },
        [AppCall.api "GetMenu",
          AppCall.CheckMenuItem env.ids.ID_ANIM_ROTATION1 (checkFlags (!app.m_bRotation1)),
          AppCall.DefWindowProc WM_COMMAND wParam lParam]) := by
  have hmsg : ¬ WM_COMMAND = WM_CREATE ∧ ¬ WM_COMMAND = WM_CLOSE ∧ ¬ WM_COMMAND = WM_DESTROY ∧
      ¬ WM_COMMAND = WM_SIZE ∧ ¬ WM_COMMAND = WM_KEYDOWN := by decide
  obtain ⟨h1, h2, h3, h4, h5⟩ := hmsg
  unfold CGameApp.DisplayWndProc
  simp only [h1, h2, h3, h4, h5, hid, if_true, if_false]

theorem DisplayWndProc_rotation2 (env : AppEnv) (app : CGameApp) (wParam lParam : Nat)
    (hid : LOWORD wParam = env.ids.ID_ANIM_ROTATION2)
    (hne : env.ids.ID_ANIM_ROTATION2 ≠ env.ids.ID_ANIM_ROTATION1) :
    app.DisplayWndProc env WM_COMMAND wParam lParam =
      some (env.DefWindowProc, { app with m_bRotation2 := !app.m_bRotation2 },
        [AppCall.api "GetMenu",
          AppCall.CheckMenuItem env.ids.ID_ANIM_ROTATION2 (checkFlags (!app.m_bRotation2)),
          AppCall.DefWindowProc WM_COMMAND wParam lParam]) := by
  have hmsg : ¬ WM_COMMAND = WM_CREATE ∧ ¬ WM_COMMAND = WM_CLOSE ∧ ¬ WM_COMMAND = WM_DESTROY ∧
      ¬ WM_COMMAND = WM_SIZE ∧ ¬ WM_COMMAND = WM_KEYDOWN := by decide
  obtain ⟨h1, h2, h3, h4, h5⟩ := hmsg
  unfold CGameApp.DisplayWndProc
  simp only [h1, h2, h3, h4, h5, hid, hne, if_true, if_false]

/-- C18: for every application state, `DisplayWndProc` on `WM_COMMAND` with
`LOWORD(wParam) = ID_ANIM_ROTATION1` returns, having negated `m_bRotation1` and
written no other member (so `m_bRotation2`, `m_bActive` and the viewport size
stay), and on the same message again gives back the original state; likewise
with `ID_ANIM_ROTATION2` (a different identifier) and `m_bRotation2`. -/
theorem DisplayWndProc_toggles_rotation (env : AppEnv) (app : CGameApp) (wParam lParam : Nat) :
    (LOWORD wParam = env.ids.ID_ANIM_ROTATION1 →
      ∃ (r : Int) (app1 : CGameApp) (log : List AppCall),
        app.DisplayWndProc env WM_COMMAND wParam lParam = some (r, app1, log) ∧
        app1 = { app with m_bRotation1 := !app.m_bRotation1 } ∧
        app1.m_bRotation1 = (!app.m_bRotation1) ∧
        app1.m_bRotation2 = app.m_bRotation2 ∧
        app1.m_bActive = app.m_bActive ∧
        app1.m_nViewWidth = app.m_nViewWidth ∧
        app1.m_nViewHeight = app.m_nViewHeight ∧
        ∃ (r2 : Int) (log2 : List AppCall),
          app1.DisplayWndProc env WM_COMMAND wParam lParam = some (r2, app, log2)) ∧
    (LOWORD wParam = env.ids.ID_ANIM_ROTATION2 →
      env.ids.ID_ANIM_ROTATION2 ≠ env.ids.ID_ANIM_ROTATION1 →
      ∃ (r : Int) (app1 : CGameApp) (log : List AppCall),
        app.DisplayWndProc env WM_COMMAND wParam lParam = some (r, app1, log) ∧
        app1 = { app with m_bRotation2 := !app.m_bRotation2 } ∧
        app1.m_bRotation2 = (!app.m_bRotation2) ∧
        app1.m_bRotation1 = app.m_bRotation1 ∧
        app1.m_bActive = app.m_bActive ∧
        app1.m_nViewWidth = app.m_nViewWidth ∧
        app1.m_nViewHeight = app.m_nViewHeight ∧
        ∃ (r2 : Int) (log2 : List AppCall),
          app1.DisplayWndProc env WM_COMMAND wParam lParam = some (r2, app, log2)) := by
  constructor
  · intro hid
    refine ⟨_, _, _, DisplayWndProc_rotation1 env app wParam lParam hid, rfl, rfl, rfl, rfl,
      rfl, rfl, ?_⟩
    rw [DisplayWndProc_rotation1 env _ wParam lParam hid]
    cases app
    simp only [Bool.not_not]
    exact ⟨_, _, rfl⟩
  · intro hid hne
    refine ⟨_, _, _, DisplayWndProc_rotation2 env app wParam lParam hid hne, rfl, rfl, rfl, rfl,
      rfl, rfl, ?_⟩
    rw [DisplayWndProc_rotation2 env _ wParam lParam hid hne]
    cases app
    simp only [Bool.not_not]
    exact ⟨_, _, rfl⟩

theorem DisplayWndProc_toggles_rotation_witness :
    (∃ (r : Int) (app1 : CGameApp) (log : List AppCall),
      appNew.DisplayWndProc envOk WM_COMMAND 40001 0 = some (r, app1, log) ∧
      app1.m_bRotation1 = true ∧ app1.m_bRotation2 = true ∧
      ∃ (r2 : Int) (log2 : List AppCall),
        app1.DisplayWndProc envOk WM_COMMAND 40001 0 = some (r2, appNew, log2)) ∧
    (∃ (r : Int) (app1 : CGameApp) (log : List AppCall),
      appNew.DisplayWndProc envOk WM_COMMAND 40002 0 = some (r, app1, log) ∧
      app1.m_bRotation1 = false ∧ app1.m_bRotation2 = false ∧
      ∃ (r2 : Int) (log2 : List AppCall),
        app1.DisplayWndProc envOk WM_COMMAND 40002 0 = some (r2, appNew, log2)) := by
  constructor
  · obtain ⟨r, app1, log, hrun, happ, -, -, -, -, -, hback⟩ :=
      (DisplayWndProc_toggles_rotation envOk appNew 40001 0).1 (by decide)
    refine ⟨r, app1, log, hrun, ?_, ?_, hback⟩
    · rw [happ]; rfl
    · rw [happ]; rfl
  · obtain ⟨r, app1, log, hrun, happ, -, -, -, -, -, hback⟩ :=
      (DisplayWndProc_toggles_rotation envOk appNew 40002 0).2 (by decide) (by decide)
    refine ⟨r, app1, log, hrun, ?_, ?_, hback⟩
    · rw [happ]; rfl
    · rw [happ]; rfl

theorem methodsOf_append (l1 l2 : List AppCall) :
    methodsOf (l1 ++ l2) = methodsOf l1 ++ methodsOf l2 := by
  unfold methodsOf
  exact List.filterMap_append _ _ _

theorem methodsOf_releaseIfSet (p : Option Nat) : methodsOf (releaseIfSet p) = [] := by
  cases p <;> rfl

theorem methodsOf_flatten (ls : List (List AppCall)) (h : ∀ l ∈ ls, methodsOf l = []) :
    methodsOf ls.flatten = [] := by
  induction ls with
  | nil => rfl
  | cons l ls ih =>
    rw [List.flatten_cons, methodsOf_append, h l (List.mem_cons_self _ _),
      ih (fun l1 hl1 => h l1 (List.mem_cons_of_mem _ hl1))]
    rfl

theorem methodsOf_map_WriteVertex (vs : List CGameApp.CVertex) :
    methodsOf (vs.map AppCall.WriteVertex) = [] := by
  induction vs with
  | nil => rfl
  | cons v vs ih =>
    unfold methodsOf at ih ⊢
    rw [List.map_cons, List.filterMap_cons]
    exact ih

theorem methodsOf_drawOnTexture (env : AppEnv) (app : CGameApp) (i : Nat) :
    methodsOf (app.drawOnTexture env i) = [] := by
  unfold CGameApp.drawOnTexture
  split
  · rfl
  · split_ifs <;> rfl

theorem ReleaseObjects_methods (app : CGameApp) :
    methodsOf app.ReleaseObjects.2 = [AppMethod.ReleaseObjects] := by
  unfold CGameApp.ReleaseObjects
  simp only [methodsOf_append, methodsOf_releaseIfSet, List.append_nil]
  rw [methodsOf_flatten]
  · split_ifs <;> rfl
  · intro l hl
    obtain ⟨i, -, rfl⟩ := List.mem_map.mp hl
    exact methodsOf_releaseIfSet _

/-- `ShutDown` returns true, leaves the device, the Direct3D object, the menu
and the window `NULL`, and enters `ReleaseObjects` only. -/
theorem ShutDown_spec (app : CGameApp) :
    app.ShutDown.1 = true ∧
    app.ShutDown.2.1.m_pD3DDevice = none ∧ app.ShutDown.2.1.m_pD3D = none ∧
    app.ShutDown.2.1.m_hMenu = none ∧ app.ShutDown.2.1.m_hWnd = none ∧
    methodsOf app.ShutDown.2.2 = [AppMethod.ShutDown, AppMethod.ReleaseObjects] := by
  refine ⟨rfl, rfl, rfl, rfl, rfl, ?_⟩
  unfold CGameApp.ShutDown
  simp only [methodsOf_append, methodsOf_releaseIfSet, ReleaseObjects_methods, List.append_nil]
  split_ifs <;> rfl

/-- `CreateDisplay` enters no other method; it returns true exactly when the
Direct3D object is created and neither the enumeration nor the device creation
fails, and then `m_pD3D` is set and `m_pD3DDevice` is the created device. -/
theorem CreateDisplay_spec (env : AppEnv) (app : CGameApp) :
    methodsOf (app.CreateDisplay env).2.2 = [AppMethod.CreateDisplay] ∧
    ((app.CreateDisplay env).1 = true ↔
      env.Direct3DCreate9.isSome = true ∧ FAILED env.Enumerate = false ∧
        FAILED env.CreateDisplayResult = false) ∧
    ((app.CreateDisplay env).1 = true →
      (app.CreateDisplay env).2.1.m_pD3D.isSome = true ∧
      (app.CreateDisplay env).2.1.m_pD3DDevice = env.GetDirect3DDevice) := by
  unfold CGameApp.CreateDisplay
  cases h1 : env.Direct3DCreate9 with
  | none => simp [methodsOf]
  | some d =>
    cases h2 : FAILED env.Enumerate with
    | true => simp [methodsOf]
    | false =>
      cases h3 : FAILED env.CreateDisplayResult with
      | true => simp [methodsOf]
      | false =>
        simp only [Option.isNone_some, Bool.false_eq_true, if_false, methodsOf_append]
        refine ⟨?_, by simp, by simp⟩
        split_ifs <;> rfl

/-- When `BuildObjects` returns, the device was set; it leaves the device and
the Direct3D object as they were and enters `ReleaseObjects` only. -/
theorem BuildObjects_spec (env : AppEnv) (app : CGameApp) (r : Bool × CGameApp × List AppCall)
    (h : app.BuildObjects env = some r) :
    app.m_pD3DDevice.isSome = true ∧ r.2.1.m_pD3DDevice = app.m_pD3DDevice ∧
    r.2.1.m_pD3D = app.m_pD3D ∧
    methodsOf r.2.2 = [AppMethod.BuildObjects, AppMethod.ReleaseObjects] := by
  have hdraw : ∀ a : CGameApp,
      methodsOf ((List.range 6).map fun i => a.drawOnTexture env i).flatten = [] := by
    intro a
    apply methodsOf_flatten
    intro l hl
    obtain ⟨i, -, rfl⟩ := List.mem_map.mp hl
    exact methodsOf_drawOnTexture _ _ _
  have hrep : methodsOf (List.replicate 6 (AppCall.api "D3DXCreateTextureFromFile")) = [] := rfl
  have hrel : methodsOf ([AppCall.method AppMethod.BuildObjects, AppCall.api "srand"]
      ++ app.ReleaseObjects.2) = [AppMethod.BuildObjects, AppMethod.ReleaseObjects] := by
    rw [methodsOf_append, ReleaseObjects_methods]; rfl
  unfold CGameApp.BuildObjects at h
  have hdev1 : app.ReleaseObjects.1.m_pD3DDevice = app.m_pD3DDevice := rfl
  cases hdev : app.m_pD3DDevice with
  | none => simp [hdev1, hdev] at h
  | some dev =>
    cases hf1 : FAILED env.CreateVertexBuffer.hRet with
    | true =>
      simp only [hdev1, hdev, hf1, if_true] at h
      obtain rfl := Option.some.inj h
      exact ⟨rfl, rfl, rfl, by rw [methodsOf_append, hrel]; rfl⟩
    | false =>
      cases hvb : env.CreateVertexBuffer.pointer with
      | none => simp [hdev1, hdev, hf1, hvb] at h
      | some vb =>
        cases hf2 : FAILED env.Lock.hRet with
        | true =>
          simp only [hdev1, hdev, hf1, hvb, hf2, if_true, if_false, Bool.false_eq_true] at h
          obtain rfl := Option.some.inj h
          exact ⟨rfl, rfl, rfl, by rw [methodsOf_append, methodsOf_append, hrel]; rfl⟩
        | false =>
          cases hpv : env.Lock.pointer with
          | none => simp [hdev1, hdev, hf1, hvb, hf2, hpv] at h
          | some pv =>
            simp only [hdev1, hdev, hf1, hvb, hf2, hpv, if_false, Bool.false_eq_true] at h
            split_ifs at h with hf3
            · obtain rfl := Option.some.inj h
              refine ⟨rfl, rfl, rfl, ?_⟩
              simp only [methodsOf_append, hrel, hrep, methodsOf_map_WriteVertex]
              rfl
            · obtain rfl := Option.some.inj h
              refine ⟨rfl, rfl, rfl, ?_⟩
              simp only [methodsOf_append, hrel, hrep, methodsOf_map_WriteVertex, hdraw]
              rfl

/-- `SetupRenderStates` returns when the device and the Direct3D object are set,
and enters no other method. -/
theorem SetupRenderStates_spec (env : AppEnv) (app : CGameApp)
    (hdev : app.m_pD3DDevice.isSome = true) (hd3d : app.m_pD3D.isSome = true) :
    ∃ r : CGameApp × List AppCall, app.SetupRenderStates env = some r ∧
      methodsOf r.2 = [AppMethod.SetupRenderStates] := by
  obtain ⟨dev, hdev⟩ := Option.isSome_iff_exists.mp hdev
  obtain ⟨d3d, hd3d⟩ := Option.isSome_iff_exists.mp hd3d
  unfold CGameApp.SetupRenderStates
  simp only [hdev, hd3d]
  split_ifs <;> exact ⟨_, rfl, rfl⟩



/-- `BuildObjects` returns when the device is set and the environment hands out
valid pointers. -/
theorem BuildObjects_total (env : AppEnv) (app : CGameApp)
    (hdev : app.m_pD3DDevice.isSome = true) (hvalid : env.PointersValid) :
    ∃ r : Bool × CGameApp × List AppCall, app.BuildObjects env = some r := by
  obtain ⟨dev, hdev⟩ := Option.isSome_iff_exists.mp hdev
  have hdev1 : app.ReleaseObjects.1.m_pD3DDevice = some dev := hdev
  unfold CGameApp.BuildObjects
  simp only [hdev1]
  cases hf1 : FAILED env.CreateVertexBuffer.hRet with
  | true =>
    simp only [if_true]
    exact ⟨_, rfl⟩
  | false =>
    obtain ⟨vb, hvb⟩ := Option.isSome_iff_exists.mp (hvalid.2.1 hf1)
    simp only [hvb, Bool.false_eq_true, if_false]
    cases hf2 : FAILED env.Lock.hRet with
    | true =>
    simp only [if_true]
    exact ⟨_, rfl⟩
    | false =>
      obtain ⟨pv, hpv⟩ := Option.isSome_iff_exists.mp (hvalid.2.2 hf2)
      simp only [hpv, Bool.false_eq_true, if_false]
      split_ifs
      · exact ⟨_, rfl⟩
      · exact ⟨_, rfl⟩

/-- The three outcomes of `InitInstance`, by the results of `CreateDisplay` and
`BuildObjects`. -/
theorem InitInstance_cases (env : AppEnv) (app : CGameApp) :
    ((app.CreateDisplay env).1 = false →
      app.InitInstance env = some (false, (app.CreateDisplay env).2.1.ShutDown.2.1,
        (app.CreateDisplay env).2.2 ++ (app.CreateDisplay env).2.1.ShutDown.2.2)) ∧
    ((app.CreateDisplay env).1 = true → (app.CreateDisplay env).2.1.BuildObjects env = none →
      app.InitInstance env = none) ∧
    (∀ built : Bool × CGameApp × List AppCall, (app.CreateDisplay env).1 = true →
      (app.CreateDisplay env).2.1.BuildObjects env = some built → built.1 = false →
      app.InitInstance env = some (false, built.2.1.ShutDown.2.1,
        (app.CreateDisplay env).2.2 ++ built.2.2 ++ built.2.1.ShutDown.2.2)) ∧
    (∀ built : Bool × CGameApp × List AppCall, (app.CreateDisplay env).1 = true →
      (app.CreateDisplay env).2.1.BuildObjects env = some built → built.1 = true →
      ∃ render : CGameApp × List AppCall,
        methodsOf render.2 = [AppMethod.SetupRenderStates] ∧
        app.InitInstance env = some (true, render.1,
          (app.CreateDisplay env).2.2 ++ built.2.2 ++ built.2.1.SetupGameState.2 ++ render.2)) := by
  refine ⟨?_, ?_, ?_, ?_⟩
  · intro hcd
    unfold CGameApp.InitInstance
    simp only [hcd, Bool.not_false, if_true]
  · intro hcd hb
    unfold CGameApp.InitInstance
    simp only [hcd, hb, Bool.not_true, Bool.false_eq_true, if_false]
  · intro built hcd hb hok
    unfold CGameApp.InitInstance
    simp only [hcd, hb, hok, Bool.not_true, Bool.not_false, Bool.false_eq_true, if_false, if_true]
  · intro built hcd hb hok
    obtain ⟨hdev, hdev2, hd3d2, -⟩ := BuildObjects_spec env _ built hb
    have hd3d := ((CreateDisplay_spec env app).2.2 hcd).1
    have hdev3 : built.2.1.SetupGameState.1.m_pD3DDevice.isSome = true := by
      show built.2.1.m_pD3DDevice.isSome = true
      rw [hdev2]; exact hdev
    have hd3d3 : built.2.1.SetupGameState.1.m_pD3D.isSome = true := by
      show built.2.1.m_pD3D.isSome = true
      rw [hd3d2]; exact hd3d
    obtain ⟨render, hrender, hm⟩ := SetupRenderStates_spec env _ hdev3 hd3d3
    refine ⟨render, hm, ?_⟩
    unfold CGameApp.InitInstance
    simp only [hcd, hb, hok, hrender, Bool.not_true, Bool.false_eq_true, if_false]


theorem FAILED_eq_true_iff (hr : Int) : FAILED hr = true ↔ hr < 0 := by
  unfold FAILED
  exact decide_eq_true_iff

/-- The `HRESULT` tested after the six texture loads is a failure exactly when
each of the six is. -/
theorem texture_hRet_failed_iff (h : Nat → Int)
    (hrange : ∀ i, i < 6 → -2 ^ 31 ≤ h i ∧ h i < 2 ^ 31) :
    FAILED (longAnd (longAnd (longAnd (longAnd (longAnd (h 0) (h 1)) (h 2)) (h 3)) (h 4)) (h 5))
      = true ↔ ∀ i, i < 6 → h i < 0 := by
  have r0 := hrange 0 (by norm_num)
  have r1 := hrange 1 (by norm_num)
  have r2 := hrange 2 (by norm_num)
  have r3 := hrange 3 (by norm_num)
  have r4 := hrange 4 (by norm_num)
  have r5 := hrange 5 (by norm_num)
  rw [FAILED_eq_true_iff,
    longAnd_neg_iff _ _ (longAnd_range _ _).1 (longAnd_range _ _).2 r5.1 r5.2,
    longAnd_neg_iff _ _ (longAnd_range _ _).1 (longAnd_range _ _).2 r4.1 r4.2,
    longAnd_neg_iff _ _ (longAnd_range _ _).1 (longAnd_range _ _).2 r3.1 r3.2,
    longAnd_neg_iff _ _ (longAnd_range _ _).1 (longAnd_range _ _).2 r2.1 r2.2,
    longAnd_neg_iff _ _ r0.1 r0.2 r1.1 r1.2]
  constructor
  · rintro ⟨⟨⟨⟨⟨h0, h1⟩, h2⟩, h3⟩, h4⟩, h5⟩ i hi
    interval_cases i <;> assumption
  · intro hall
    exact ⟨⟨⟨⟨⟨hall 0 (by norm_num), hall 1 (by norm_num)⟩, hall 2 (by norm_num)⟩,
      hall 3 (by norm_num)⟩, hall 4 (by norm_num)⟩, hall 5 (by norm_num)⟩

/-- `BuildObjects` once the vertex buffer is created and locked: it returns, and
its result is the negation of the `FAILED` test on the combined `HRESULT`. -/
theorem BuildObjects_of_buffer (env : AppEnv) (app : CGameApp)
    (hdev : app.m_pD3DDevice.isSome = true)
    (hvb : FAILED env.CreateVertexBuffer.hRet = false)
    (hvbp : env.CreateVertexBuffer.pointer.isSome = true)
    (hlock : FAILED env.Lock.hRet = false)
    (hlockp : env.Lock.pointer.isSome = true) :
    ∃ (app1 : CGameApp) (log : List AppCall),
      app.BuildObjects env =
        some (!FAILED (longAnd (longAnd (longAnd (longAnd (longAnd
            (env.D3DXCreateTextureFromFile 0).hRet (env.D3DXCreateTextureFromFile 1).hRet)
            (env.D3DXCreateTextureFromFile 2).hRet) (env.D3DXCreateTextureFromFile 3).hRet)
            (env.D3DXCreateTextureFromFile 4).hRet) (env.D3DXCreateTextureFromFile 5).hRet),
          app1, log) ∧
      app1.m_pTextures = (List.range 6).map fun i => (env.D3DXCreateTextureFromFile i).texture := by
  obtain ⟨dev, hdev⟩ := Option.isSome_iff_exists.mp hdev
  obtain ⟨vb, hvbp⟩ := Option.isSome_iff_exists.mp hvbp
  obtain ⟨pv, hlockp⟩ := Option.isSome_iff_exists.mp hlockp
  unfold CGameApp.BuildObjects
  have hdev1 : app.ReleaseObjects.1.m_pD3DDevice = some dev := hdev
  simp only [hdev1, hvb, hvbp, hlock, hlockp, Bool.false_eq_true, if_false]
  split_ifs with hf
  · exact ⟨_, _, by rw [hf]; rfl, rfl⟩
  · rw [Bool.not_eq_true] at hf
    exact ⟨_, _, by rw [hf]; rfl, rfl⟩

/-- C16: `InitInstance` bails out on failure. If `CreateDisplay` returns false,
`InitInstance` returns false having entered only `CreateDisplay`, `ShutDown` and
the `ReleaseObjects` of `ShutDown` (so not `BuildObjects`, `SetupGameState` or
`SetupRenderStates`). If `CreateDisplay` returns true and `BuildObjects` returns
false, it returns false having entered `CreateDisplay`, `BuildObjects` and
`ShutDown` (each of the last two with its `ReleaseObjects`) and neither
`SetupGameState` nor `SetupRenderStates`. After the `ShutDown` of either path the
device, the Direct3D object, the menu and the window are `NULL`. If both return
true it returns true after `SetupGameState` and `SetupRenderStates`. So it
returns true exactly when `CreateDisplay` and `BuildObjects` both return true,
and it does return whenever the environment hands out valid pointers. -/
theorem InitInstance_bails_out (env : AppEnv) (app : CGameApp) :
    ((app.CreateDisplay env).1 = false →
      ∃ (app1 : CGameApp) (log : List AppCall),
        app.InitInstance env = some (false, app1, log) ∧
        methodsOf log = [AppMethod.CreateDisplay, AppMethod.ShutDown, AppMethod.ReleaseObjects] ∧
        app1.m_pD3DDevice = none ∧ app1.m_pD3D = none ∧ app1.m_hMenu = none ∧
        app1.m_hWnd = none) ∧
    ((app.CreateDisplay env).1 = true →
      ∀ built : Bool × CGameApp × List AppCall,
        (app.CreateDisplay env).2.1.BuildObjects env = some built →
        ∃ (app1 : CGameApp) (log : List AppCall),
          app.InitInstance env = some (built.1, app1, log) ∧
          (built.1 = false →
            methodsOf log = [AppMethod.CreateDisplay, AppMethod.BuildObjects,
              AppMethod.ReleaseObjects, AppMethod.ShutDown, AppMethod.ReleaseObjects] ∧
            app1.m_pD3DDevice = none ∧ app1.m_pD3D = none ∧ app1.m_hMenu = none ∧
            app1.m_hWnd = none) ∧
          (built.1 = true →
            methodsOf log = [AppMethod.CreateDisplay, AppMethod.BuildObjects,
              AppMethod.ReleaseObjects, AppMethod.SetupGameState,
              AppMethod.SetupRenderStates])) ∧
    ((∃ (app1 : CGameApp) (log : List AppCall), app.InitInstance env = some (true, app1, log)) ↔
      (app.CreateDisplay env).1 = true ∧
      ∃ (a2 : CGameApp) (l2 : List AppCall),
        (app.CreateDisplay env).2.1.BuildObjects env = some (true, a2, l2)) ∧
    (env.PointersValid →
      ∃ r : Bool × CGameApp × List AppCall, app.InitInstance env = some r) := by
  obtain ⟨hfail, hnone, hbfail, hok⟩ := InitInstance_cases env app
  have hcdm := (CreateDisplay_spec env app).1
  have hgs : ∀ a : CGameApp, methodsOf a.SetupGameState.2 = [AppMethod.SetupGameState] :=
    fun _ => rfl
  refine ⟨?_, ?_, ?_, ?_⟩
  · intro hcd
    obtain ⟨-, h1, h2, h3, h4, hm⟩ := ShutDown_spec (app.CreateDisplay env).2.1
    exact ⟨_, _, hfail hcd, by rw [methodsOf_append, hcdm, hm]; rfl, h1, h2, h3, h4⟩
  · intro hcd built hb
    obtain ⟨-, -, -, hbm⟩ := BuildObjects_spec env _ built hb
    cases hb1 : built.1 with
    | false =>
      obtain ⟨-, h1, h2, h3, h4, hm⟩ := ShutDown_spec built.2.1
      refine ⟨_, _, hbfail built hcd hb hb1, fun _ => ⟨?_, h1, h2, h3, h4⟩, fun h => ?_⟩
      · rw [methodsOf_append, methodsOf_append, hcdm, hbm, hm]; rfl
      · exact absurd h (by decide)
    | true =>
      obtain ⟨render, hrm, hrun⟩ := hok built hcd hb hb1
      refine ⟨_, _, hrun, fun h => absurd h (by decide), fun _ => ?_⟩
      rw [methodsOf_append, methodsOf_append, methodsOf_append, hcdm, hbm, hgs, hrm]; rfl
  · constructor
    · rintro ⟨app1, log, hrun⟩
      cases hcd : (app.CreateDisplay env).1 with
      | false =>
        rw [hfail hcd] at hrun
        exact absurd (congrArg (fun r => r.1) (Option.some.inj hrun)) Bool.false_ne_true
      | true =>
        refine ⟨rfl, ?_⟩
        cases hb : (app.CreateDisplay env).2.1.BuildObjects env with
        | none =>
          rw [hnone hcd hb] at hrun
          exact absurd hrun (by simp)
        | some built =>
          cases hb1 : built.1 with
          | false =>
            rw [hbfail built hcd hb hb1] at hrun
            exact absurd (congrArg (fun r => r.1) (Option.some.inj hrun)) Bool.false_ne_true
          | true =>
            refine ⟨built.2.1, built.2.2, ?_⟩
            rw [← hb1]
    · rintro ⟨hcd, a2, l2, hb⟩
      obtain ⟨render, -, hrun⟩ := hok _ hcd hb rfl
      exact ⟨_, _, hrun⟩
  · intro hvalid
    cases hcd : (app.CreateDisplay env).1 with
    | false => exact ⟨_, hfail hcd⟩
    | true =>
      have hspec := CreateDisplay_spec env app
      have hdev : (app.CreateDisplay env).2.1.m_pD3DDevice.isSome = true := by
        rw [(hspec.2.2 hcd).2]
        exact hvalid.1 (hspec.2.1.mp hcd).2.2
      obtain ⟨built, hb⟩ := BuildObjects_total env _ hdev hvalid
      cases hb1 : built.1 with
      | false => exact ⟨_, hbfail built hcd hb hb1⟩
      | true =>
        obtain ⟨render, -, hrun⟩ := hok built hcd hb hb1
        exact ⟨_, hrun⟩

theorem InitInstance_bails_out_witness :
    (∃ (app1 : CGameApp) (log : List AppCall),
      appNew.InitInstance envNoD3D = some (false, app1, log) ∧
      methodsOf log = [AppMethod.CreateDisplay, AppMethod.ShutDown, AppMethod.ReleaseObjects] ∧
      app1.m_hWnd = none) ∧
    (∃ (app1 : CGameApp) (log : List AppCall),
      appNew.InitInstance envNoTextures = some (false, app1, log) ∧
      methodsOf log = [AppMethod.CreateDisplay, AppMethod.BuildObjects,
        AppMethod.ReleaseObjects, AppMethod.ShutDown, AppMethod.ReleaseObjects] ∧
      app1.m_pD3DDevice = none) := by
  constructor
  · obtain ⟨app1, log, hrun, hm, -, -, -, hw⟩ :=
      (InitInstance_bails_out envNoD3D appNew).1 (by decide)
    exact ⟨app1, log, hrun, hm, hw⟩
  · have h : ((appNew.CreateDisplay envNoTextures).2.1.BuildObjects envNoTextures).map
        (fun r => r.1) = some false := by decide
    obtain ⟨built, hb, hb1⟩ := Option.map_eq_some'.mp h
    obtain ⟨app1, log, hrun, hf, -⟩ :=
      (InitInstance_bails_out envNoTextures appNew).2.1 (by decide) built hb
    rw [hb1] at hrun
    exact ⟨app1, log, hrun, (hf hb1).1, (hf hb1).2.1⟩

/-- C17 (counterexample): the load of the first texture fails with `E_FAIL`
(negative) while the other five succeed; the vertex buffer is created and
locked; yet `BuildObjects` returns true, with `m_pTextures[0]` left `NULL`. -/
theorem BuildObjects_one_texture_missing :
    FAILED (envOneTextureMissing.D3DXCreateTextureFromFile 0).hRet = true ∧
    (envOneTextureMissing.D3DXCreateTextureFromFile 0).hRet = -2147467259 ∧
    FAILED envOneTextureMissing.CreateVertexBuffer.hRet = false ∧
    FAILED envOneTextureMissing.Lock.hRet = false ∧
    (appWithDevice.BuildObjects envOneTextureMissing).map (fun r => r.1) = some true ∧
    (appWithDevice.BuildObjects envOneTextureMissing).map (fun r => r.2.1.m_pTextures) =
      some [none, some 11, some 12, some 13, some 14, some 15] := by
  refine ⟨by decide, by decide, by decide, by decide, by decide, by decide⟩

/-- C17 (amended): when the device is set, the vertex buffer is created and
locked and the six `HRESULT`s are 32-bit values, `BuildObjects` returns, and it
returns false exactly when all six `D3DXCreateTextureFromFile` calls return a
failure `HRESULT`; if at least one of them succeeds it returns true. -/
theorem BuildObjects_fails_iff_all_textures_fail (env : AppEnv) (app : CGameApp)
    (hdev : app.m_pD3DDevice.isSome = true)
    (hvb : FAILED env.CreateVertexBuffer.hRet = false)
    (hvbp : env.CreateVertexBuffer.pointer.isSome = true)
    (hlock : FAILED env.Lock.hRet = false)
    (hlockp : env.Lock.pointer.isSome = true)
    (hrange : ∀ i, i < 6 → -2 ^ 31 ≤ (env.D3DXCreateTextureFromFile i).hRet ∧
      (env.D3DXCreateTextureFromFile i).hRet < 2 ^ 31) :
    ∃ (r : Bool) (app1 : CGameApp) (log : List AppCall),
      app.BuildObjects env = some (r, app1, log) ∧
      (r = false ↔ ∀ i, i < 6 → FAILED (env.D3DXCreateTextureFromFile i).hRet = true) ∧
      ((∃ i, i < 6 ∧ FAILED (env.D3DXCreateTextureFromFile i).hRet = false) → r = true) := by
  obtain ⟨app1, log, hrun, -⟩ := BuildObjects_of_buffer env app hdev hvb hvbp hlock hlockp
  have hiff := texture_hRet_failed_iff (fun i => (env.D3DXCreateTextureFromFile i).hRet) hrange
  simp only [← FAILED_eq_true_iff] at hiff
  have h1 : ∀ b : Bool, (!b) = false ↔ b = true := by decide
  refine ⟨_, app1, log, hrun, (h1 _).trans hiff, ?_⟩
  rintro ⟨i, hi, hfi⟩
  by_contra hne
  rw [Bool.not_eq_true] at hne
  have := ((h1 _).trans hiff).mp hne i hi
  rw [hfi] at this
  exact absurd this (by decide)

theorem BuildObjects_fails_iff_all_textures_fail_witness :
    (∃ (app1 : CGameApp) (log : List AppCall),
      appWithDevice.BuildObjects envNoTextures = some (false, app1, log)) ∧
    (∃ (app1 : CGameApp) (log : List AppCall),
      appWithDevice.BuildObjects envOk = some (true, app1, log)) := by
  constructor
  · obtain ⟨r, app1, log, hrun, hiff, -⟩ :=
      BuildObjects_fails_iff_all_textures_fail envNoTextures appWithDevice rfl rfl rfl rfl rfl
        (fun i _ => by norm_num [envNoTextures, envOk, E_FAIL])
    have hr : r = false := hiff.mpr (fun i _ => rfl)
    rw [hr] at hrun
    exact ⟨app1, log, hrun⟩
  · obtain ⟨r, app1, log, hrun, -, htrue⟩ :=
      BuildObjects_fails_iff_all_textures_fail envOk appWithDevice rfl rfl rfl rfl rfl
        (fun i _ => by norm_num [envOk])
    have hr : r = true := htrue ⟨0, by norm_num, by decide⟩
    rw [hr] at hrun
    exact ⟨app1, log, hrun⟩

theorem stripTriangles_orientation :
    ((stripTriangles stripIndices).enum.filter (fun p => !isDegenerate p.2)).all
      (fun p => orientation (woundTriangle p.1 p.2) == -1) = true := by
  decide!

theorem stripTriangles_orientation_D3D :
    ((stripTriangles stripIndices).enum.filter (fun p => !isDegenerate p.2)).all
      (fun p => orientation (woundTriangleD3D p.1 p.2) == -1) = true := by
  decide!

theorem stripTriangles_enum_proper :
    ((stripTriangles stripIndices).enum.filter (fun p => !isDegenerate p.2)).length = 512 := by
  decide!

theorem strip_mem_35 :
    ((35, (33, 50, 32)) : Nat × Nat × Nat × Nat) ∈ (stripTriangles stripIndices).enum := by
  decide!

theorem strip_mem_0 :
    ((0, (0, 17, 1)) : Nat × Nat × Nat × Nat) ∈ (stripTriangles stripIndices).enum := by
  decide!

/-- C22: the strip that the index loop writes into a block has 512
non-degenerate triangles, and with the strip parity taken into account (the
first two indices of triangle `k` swapped when `k` is odd) the 2D cross product
of the edges of every one of them is `-1` in the (column, row) grid plane: all
have the same orientation. The same holds with the parity rule that swaps the
last two indices. -/
theorem strip_winding_consistent :
    ∃ strip : List Nat,
      fillIndices (List.replicate IndexCount none) = some (strip.map some, IndexCount) ∧
      ((stripTriangles strip).enum.filter (fun p => !isDegenerate p.2)).length = 512 ∧
      (∀ p ∈ (stripTriangles strip).enum, isDegenerate p.2 = false →
        orientation (woundTriangle p.1 p.2) = -1) ∧
      (∀ p ∈ (stripTriangles strip).enum, isDegenerate p.2 = false →
        orientation (woundTriangleD3D p.1 p.2) = -1) ∧
      (∀ p ∈ (stripTriangles strip).enum, ∀ q ∈ (stripTriangles strip).enum,
        isDegenerate p.2 = false → isDegenerate q.2 = false →
        orientation (woundTriangle p.1 p.2) = orientation (woundTriangle q.1 q.2)) := by
  have h1 : ∀ p ∈ (stripTriangles stripIndices).enum, isDegenerate p.2 = false →
      orientation (woundTriangle p.1 p.2) = -1 := by
    intro p hp hd
    have hall := List.all_eq_true.mp stripTriangles_orientation p
      (List.mem_filter.mpr ⟨hp, by rw [hd]; rfl⟩)
    exact eq_of_beq hall
  have h2 : ∀ p ∈ (stripTriangles stripIndices).enum, isDegenerate p.2 = false →
      orientation (woundTriangleD3D p.1 p.2) = -1 := by
    intro p hp hd
    have hall := List.all_eq_true.mp stripTriangles_orientation_D3D p
      (List.mem_filter.mpr ⟨hp, by rw [hd]; rfl⟩)
    exact eq_of_beq hall
  refine ⟨stripIndices, fillIndices_eq, stripTriangles_enum_proper, h1, h2, ?_⟩
  intro p hp q hq hdp hdq
  rw [h1 p hp hdp, h1 q hq hdq]

theorem strip_winding_consistent_witness :
    isDegenerate (33, 50, 32) = false ∧ orientation (woundTriangle 35 (33, 50, 32)) = -1 ∧
    isDegenerate (0, 17, 1) = false ∧ orientation (woundTriangle 0 (0, 17, 1)) = -1 := by
  obtain ⟨strip, hfill, -, h1, -, -⟩ := strip_winding_consistent
  have hs : strip = stripIndices := by
    have h := Option.some.inj (hfill.symm.trans fillIndices_eq)
    have h2 : strip.map some = stripIndices.map some := (Prod.mk.inj h).1
    have hinj : Function.Injective (List.map (some : Nat → Option Nat)) :=
      List.map_injective_iff.mpr (Option.some_injective _)
    exact hinj h2
  rw [hs] at h1
  have m35 : ((35, (33, 50, 32)) : Nat × Nat × Nat × Nat) ∈ (stripTriangles stripIndices).enum :=
    strip_mem_35
  have m0 : ((0, (0, 17, 1)) : Nat × Nat × Nat × Nat) ∈ (stripTriangles stripIndices).enum :=
    strip_mem_0
  have d35 : isDegenerate (33, 50, 32) = false := by decide
  have d0 : isDegenerate (0, 17, 1) = false := by decide
  exact ⟨d35, h1 (35, (33, 50, 32)) m35 d35, d0, h1 (0, (0, 17, 1)) m0 d0⟩

theorem ite_mod_two_eq_decide_odd (n : Nat) :
    (if n % 2 ≠ 0 then true else false) = decide (Odd n) := by
  rcases Nat.mod_two_eq_zero_or_one n with h | h
  · have hn : ¬ Odd n := by rw [Nat.odd_iff, h]; decide
    simp [h, hn]
  · have hn : Odd n := Nat.odd_iff.mpr h
    simp [h, hn]

/-- C21: `UpdateCamera` makes no call on the camera when the context or the
camera is `NULL` or the camera mode is not `MODE_THIRDPERSON`. In third-person
mode, with `h = GetHeight(pos.x, pos.z, rq) - Volume.Min.y` and `rq` true exactly
when the row index `(ULONG)(pos.z / scale.z)` is odd, it runs to completion and:
if `pos.y < h` its one `SetPosition` call has the argument `(pos.x, h, pos.z)`,
which becomes the camera position; if `pos.y >= h` it makes no `SetPosition` call
and the position stays. -/
theorem UpdateCamera_third_person_only (pContext : Option CTerrain) (pCamera : Option CCamera)
    (pPlayer : Option CPlayer) (TimeScale : ℚ) :
    ((pContext = none ∨ pCamera = none ∨
        ∃ c, pCamera = some c ∧ c.m_CameraMode ≠ CAMERA_MODE.MODE_THIRDPERSON) →
      CTerrain.UpdateCamera pContext pCamera pPlayer TimeScale = some []) ∧
    (∀ (t : CTerrain) (c : CCamera) (g : ℚ),
      pContext = some t → pCamera = some c →
      c.m_CameraMode = CAMERA_MODE.MODE_THIRDPERSON →
      t.GetHeight c.m_vecPos.x c.m_vecPos.z
        (decide (Odd (castULong (c.m_vecPos.z / t.m_vecScale.z)))) = some g →
      ∃ calls : List CameraCall,
        CTerrain.UpdateCamera pContext pCamera pPlayer TimeScale = some calls ∧
        (c.m_vecPos.y < g - c.m_Volume.Min.y →
          calls.filter CameraCall.setsPosition =
            [CameraCall.SetPosition ⟨c.m_vecPos.x, g - c.m_Volume.Min.y, c.m_vecPos.z⟩] ∧
          (c.performAll calls).m_vecPos = ⟨c.m_vecPos.x, g - c.m_Volume.Min.y, c.m_vecPos.z⟩) ∧
        (g - c.m_Volume.Min.y ≤ c.m_vecPos.y →
          calls.filter CameraCall.setsPosition = [] ∧
          (c.performAll calls).m_vecPos = c.m_vecPos)) := by
  constructor
  · rintro (h | h | ⟨c, h, hmode⟩)
    · subst h
      cases pCamera <;> rfl
    · subst h
      cases pContext <;> rfl
    · subst h
      cases pContext with
      | none => rfl
      | some t =>
        unfold CTerrain.UpdateCamera
        simp only [hmode, ne_eq, not_false_eq_true, if_true]
  · intro t c g ht hc hmode hg
    subst ht hc
    unfold CTerrain.UpdateCamera
    simp only [hmode, ne_eq, not_true_eq_false, if_false, ite_mod_two_eq_decide_odd, hg,
      Option.some_bind]
    by_cases hcol : c.m_vecPos.y < g - c.m_Volume.Min.y
    · have hc2 : ¬ (g - c.m_Volume.Min.y ≤ c.m_vecPos.y) := not_le.mpr hcol
      cases pPlayer with
      | none =>
        exact ⟨_, rfl, by
          simp [hcol, hc2, CCamera.performAll, CCamera.perform, CameraCall.setsPosition,
            List.filter]⟩
      | some player =>
        exact ⟨_, rfl, by
          simp [hcol, hc2, CCamera.performAll, CCamera.perform, CameraCall.setsPosition,
            List.filter]⟩
    · have hc2 : g - c.m_Volume.Min.y ≤ c.m_vecPos.y := not_lt.mp hcol
      cases pPlayer with
      | none =>
        exact ⟨_, rfl, by
          simp [hcol, hc2, CCamera.performAll, CCamera.perform, CameraCall.setsPosition,
            List.filter]⟩
      | some player =>
        exact ⟨_, rfl, by
          simp [hcol, hc2, CCamera.performAll, CCamera.perform, CameraCall.setsPosition,
            List.filter]⟩

theorem UpdateCamera_third_person_only_witness :
    ∃ calls : List CameraCall,
      CTerrain.UpdateCamera (some terrain17) (some cameraBelow) (some playerBelow) 1 = some calls ∧
      calls.filter CameraCall.setsPosition = [CameraCall.SetPosition ⟨256, 109, 384⟩] ∧
      (cameraBelow.performAll calls).m_vecPos = ⟨256, 109, 384⟩ := by
  obtain ⟨calls, hrun, hlow, -⟩ :=
    (UpdateCamera_third_person_only (some terrain17) (some cameraBelow) (some playerBelow) 1).2
      terrain17 cameraBelow 106 rfl rfl rfl (terrain17_GetHeight_at_2_3 _)
  have hlt : cameraBelow.m_vecPos.y < 106 - cameraBelow.m_Volume.Min.y := by
    norm_num [cameraBelow]
  have hh : (106 : ℚ) - cameraBelow.m_Volume.Min.y = 109 := by norm_num [cameraBelow]
  have h := hlow hlt
  rw [hh] at h
  exact ⟨calls, hrun, h.1, h.2⟩

theorem renderCalls_append (l1 l2 : List AppCall) :
    renderCalls (l1 ++ l2) = renderCalls l1 ++ renderCalls l2 := by
  unfold renderCalls
  exact List.filter_append _ _

theorem renderCalls_ProcessInput (frame : FrameEnv) (app : CGameApp) :
    renderCalls (app.ProcessInput frame) = [] := by
  unfold CGameApp.ProcessInput
  simp only [renderCalls_append]
  split_ifs <;> rfl

theorem renderCalls_AnimateObjects (app : CGameApp) : renderCalls app.AnimateObjects = [] := by
  unfold CGameApp.AnimateObjects
  simp only [renderCalls_append]
  split_ifs <;> rfl

/-- The draw part of a frame returns when the device is set: it makes the
rendering calls of one frame, no reset, and sets `m_bLostDevice` exactly when
`Present` fails, writing no other member. -/
theorem drawFrame_spec (frame : FrameEnv) (app : CGameApp)
    (hdev : app.m_pD3DDevice.isSome = true) :
    ∃ d : CGameApp × List AppCall, app.drawFrame frame = some d ∧
      d.1 = (if FAILED frame.Present then { app with m_bLostDevice := true } else app) ∧
      renderCalls d.2 = frameCalls ∧
      d.2.count (AppCall.api "ResetDisplay") = 0 := by
  obtain ⟨dev, hdev⟩ := Option.isSome_iff_exists.mp hdev
  have hin := renderCalls_ProcessInput frame app
  have han := renderCalls_AnimateObjects app
  have hin2 : (app.ProcessInput frame).count (AppCall.api "ResetDisplay") = 0 := by
    unfold CGameApp.ProcessInput
    simp only [List.count_append]
    split_ifs <;> rfl
  have han2 : app.AnimateObjects.count (AppCall.api "ResetDisplay") = 0 := by
    unfold CGameApp.AnimateObjects
    simp only [List.count_append]
    split_ifs <;> rfl
  unfold CGameApp.drawFrame
  simp only [hdev]
  cases hp : FAILED frame.Present <;> cases hf : app.m_bFilterEnabled <;>
    cases hm : app.m_bMipEnabled <;>
  · simp only [if_true, if_false, Bool.false_eq_true]
    refine ⟨_, rfl, rfl, ?_, ?_⟩
    · simp only [renderCalls_append, hin, han]
      rfl
    · simp only [List.count_append, hin2, han2]
      rfl

/-- What `SetupRenderStates` leaves alone: the device, the Direct3D object and
the flags `m_bActive` and `m_bLostDevice`; it makes no rendering call and no
reset. -/
theorem SetupRenderStates_frame (env : AppEnv) (app : CGameApp) (r : CGameApp × List AppCall)
    (h : app.SetupRenderStates env = some r) :
    r.1.m_pD3DDevice = app.m_pD3DDevice ∧ r.1.m_pD3D = app.m_pD3D ∧
    r.1.m_bActive = app.m_bActive ∧ r.1.m_bLostDevice = app.m_bLostDevice ∧
    renderCalls r.2 = [] ∧ r.2.count (AppCall.api "ResetDisplay") = 0 := by
  unfold CGameApp.SetupRenderStates at h
  cases hdev : app.m_pD3DDevice with
  | none => simp [hdev] at h
  | some dev =>
    cases hd3d : app.m_pD3D with
    | none => simp [hdev, hd3d] at h
    | some d3d =>
      simp only [hdev, hd3d] at h
      split_ifs at h <;>
      · obtain rfl := Option.some.inj h
        exact ⟨rfl, rfl, rfl, rfl, rfl, rfl⟩

/-- One call of `FrameAdvance` with the device and the Direct3D object set: it
returns, keeps the device, the Direct3D object and `m_bActive`, and falls into
one of four cases. -/
theorem FrameAdvance_step (env : AppEnv) (frame : FrameEnv) (app : CGameApp)
    (hdev : app.m_pD3DDevice.isSome = true) (hd3d : app.m_pD3D.isSome = true) :
    ∃ r : CGameApp × List AppCall, app.FrameAdvance env frame = some r ∧
      r.1.m_pD3DDevice = app.m_pD3DDevice ∧ r.1.m_pD3D = app.m_pD3D ∧
      r.1.m_bActive = app.m_bActive ∧
      (app.m_bActive = false → r.1 = app ∧ renderCalls r.2 = [] ∧
        r.2.count (AppCall.api "ResetDisplay") = 0) ∧
      (app.m_bActive = true → app.m_bLostDevice = true →
        frame.TestCooperativeLevel ≠ D3DERR_DEVICENOTRESET →
        r.1 = app ∧ renderCalls r.2 = [] ∧ r.2.count (AppCall.api "ResetDisplay") = 0) ∧
      (app.m_bActive = true → app.m_bLostDevice = true →
        frame.TestCooperativeLevel = D3DERR_DEVICENOTRESET →
        ∃ render drawn : CGameApp × List AppCall,
          app.SetupRenderStates env = some render ∧
          CGameApp.drawFrame frame { render.1 with m_bLostDevice := false } = some drawn ∧
          r = (drawn.1, [AppCall.api "CTimer::Tick", AppCall.api "TestCooperativeLevel",
            AppCall.api "ResetDisplay"] ++ render.2 ++ drawn.2) ∧
          renderCalls render.2 = [] ∧ renderCalls drawn.2 = frameCalls ∧
          renderCalls r.2 = frameCalls ∧ r.2.count (AppCall.api "ResetDisplay") = 1 ∧
          r.1.m_bLostDevice = FAILED frame.Present) ∧
      (app.m_bActive = true → app.m_bLostDevice = false →
        renderCalls r.2 = frameCalls ∧ r.2.count (AppCall.api "ResetDisplay") = 0 ∧
        r.1.m_bLostDevice = FAILED frame.Present) := by
  cases hact : app.m_bActive with
  | false =>
    refine ⟨(app, [AppCall.api "CTimer::Tick"]), ?_, rfl, rfl, hact, fun _ => ⟨rfl, rfl, rfl⟩,
      fun h => absurd h (by decide), fun h => absurd h (by decide),
      fun h => absurd h (by decide)⟩
    unfold CGameApp.FrameAdvance
    simp only [hact, Bool.not_false, if_true]
  | true =>
    cases hlost : app.m_bLostDevice with
    | false =>
      obtain ⟨d, hd, hd1, hdr, hdc⟩ := drawFrame_spec frame app hdev
      have hrun : app.FrameAdvance env frame = some (d.1, [AppCall.api "CTimer::Tick"] ++ d.2) := by
        unfold CGameApp.FrameAdvance
        simp only [hact, hlost, hd, Bool.not_true, Bool.false_eq_true, if_false]
      have hfl : d.1.m_bLostDevice = FAILED frame.Present := by
        rw [hd1]
        cases hp : FAILED frame.Present
        · simp only [Bool.false_eq_true, if_false]; exact hlost
        · simp only [if_true]
      have hfields : d.1.m_pD3DDevice = app.m_pD3DDevice ∧ d.1.m_pD3D = app.m_pD3D ∧
          d.1.m_bActive = app.m_bActive := by
        rw [hd1]
        split_ifs <;> exact ⟨rfl, rfl, rfl⟩
      refine ⟨_, hrun, hfields.1, hfields.2.1, hfields.2.2.trans hact,
        fun h => absurd h (by decide), fun _ h => absurd h (by decide),
        fun _ h => absurd h (by decide), fun _ _ => ⟨?_, ?_, hfl⟩⟩
      · rw [renderCalls_append, hdr]; rfl
      · rw [List.count_append, hdc]; rfl
    | true =>
      obtain ⟨dev, hdev1⟩ := Option.isSome_iff_exists.mp hdev
      by_cases htcl : frame.TestCooperativeLevel = D3DERR_DEVICENOTRESET
      · obtain ⟨render, hrender, -⟩ := SetupRenderStates_spec env app hdev hd3d
        obtain ⟨hr1, hr2, hr3, -, hr5, hr6⟩ := SetupRenderStates_frame env app render hrender
        have hdev2 : (({ render.1 with m_bLostDevice := false } : CGameApp)).m_pD3DDevice.isSome
            = true := by
          show render.1.m_pD3DDevice.isSome = true
          rw [hr1]; exact hdev
        obtain ⟨d, hd, hd1, hdr, hdc⟩ := drawFrame_spec frame _ hdev2
        have hrun : app.FrameAdvance env frame = some (d.1,
            [AppCall.api "CTimer::Tick", AppCall.api "TestCooperativeLevel",
              AppCall.api "ResetDisplay"] ++ render.2 ++ d.2) := by
          unfold CGameApp.FrameAdvance
          simp only [hact, hlost, hdev1, htcl, hrender, hd, Bool.not_true, Bool.false_eq_true,
            if_false, if_true]
          rfl
        have hfl : d.1.m_bLostDevice = FAILED frame.Present := by
          rw [hd1]
          cases hp : FAILED frame.Present
          · simp only [Bool.false_eq_true, if_false]
          · simp only [if_true]
        have hfields : d.1.m_pD3DDevice = render.1.m_pD3DDevice ∧ d.1.m_pD3D = render.1.m_pD3D ∧
            d.1.m_bActive = render.1.m_bActive := by
          rw [hd1]
          split_ifs <;> exact ⟨rfl, rfl, rfl⟩
        have hrc : renderCalls ([AppCall.api "CTimer::Tick", AppCall.api "TestCooperativeLevel",
            AppCall.api "ResetDisplay"] ++ render.2 ++ d.2) = frameCalls := by
          rw [renderCalls_append, renderCalls_append, hr5, hdr]; rfl
        have hcc : ([AppCall.api "CTimer::Tick", AppCall.api "TestCooperativeLevel",
            AppCall.api "ResetDisplay"] ++ render.2 ++ d.2).count (AppCall.api "ResetDisplay")
            = 1 := by
          rw [List.count_append, List.count_append, hr6, hdc]; rfl
        refine ⟨_, hrun, hfields.1.trans hr1, hfields.2.1.trans hr2,
          (hfields.2.2.trans hr3).trans hact, fun h => absurd h (by decide),
          fun _ _ h => absurd htcl h,
          fun _ _ _ => ⟨render, d, hrender, hd, rfl, hr5, hdr, hrc, hcc, hfl⟩,
          fun _ h => absurd h (by decide)⟩
      · have hrun : app.FrameAdvance env frame = some (app,
            [AppCall.api "CTimer::Tick", AppCall.api "TestCooperativeLevel"]) := by
          unfold CGameApp.FrameAdvance
          simp only [hact, hlost, hdev1, htcl, Bool.not_true, Bool.false_eq_true, if_false,
            if_true]
          rfl
        exact ⟨_, hrun, rfl, rfl, hact, fun h => absurd h (by decide),
          fun _ _ _ => ⟨rfl, rfl, rfl⟩, fun _ _ h => absurd h htcl,
          fun _ h => absurd h (by decide)⟩

theorem frameCalls_ne_nil : frameCalls ≠ [] := by decide

/-- One call of `FrameAdvance` follows the two-state machine: whether it
renders and the flag afterwards are what `lostDeviceMachine` gives. -/
theorem FrameAdvance_refines (env : AppEnv) (frame : FrameEnv) (app : CGameApp)
    (hdev : app.m_pD3DDevice.isSome = true) (hd3d : app.m_pD3D.isSome = true) :
    ∃ r : CGameApp × List AppCall, app.FrameAdvance env frame = some r ∧
      r.1.m_pD3DDevice.isSome = true ∧ r.1.m_pD3D.isSome = true ∧
      r.1.m_bActive = app.m_bActive ∧
      (renderCalls r.2 = frameCalls ∨ renderCalls r.2 = []) ∧
      (decide (renderCalls r.2 = frameCalls), r.1.m_bLostDevice) =
        lostDeviceMachine app.m_bActive app.m_bLostDevice frame := by
  obtain ⟨r, hrun, h1, h2, h3, hinact, hstay, hreset, hdraw⟩ :=
    FrameAdvance_step env frame app hdev hd3d
  refine ⟨r, hrun, by rw [h1]; exact hdev, by rw [h2]; exact hd3d, h3, ?_, ?_⟩
  · cases hact : app.m_bActive with
    | false => exact Or.inr (hinact hact).2.1
    | true =>
      cases hlost : app.m_bLostDevice with
      | false => exact Or.inl (hdraw hact hlost).1
      | true =>
        by_cases htcl : frame.TestCooperativeLevel = D3DERR_DEVICENOTRESET
        · obtain ⟨_, _, _, _, _, _, _, hrc, _, _⟩ := hreset hact hlost htcl
          exact Or.inl hrc
        · exact Or.inr (hstay hact hlost htcl).2.1
  · have hne : ¬ (([] : List AppCall) = frameCalls) := fun h => frameCalls_ne_nil h.symm
    cases hact : app.m_bActive with
    | false =>
      obtain ⟨ha, hb, -⟩ := hinact hact
      rw [hb, ha]
      simp [lostDeviceMachine, hne]
    | true =>
      cases hlost : app.m_bLostDevice with
      | false =>
        obtain ⟨ha, -, hb⟩ := hdraw hact hlost
        rw [ha, hb]
        simp [lostDeviceMachine]
      | true =>
        by_cases htcl : frame.TestCooperativeLevel = D3DERR_DEVICENOTRESET
        · obtain ⟨_, _, _, _, _, _, _, hrc, _, hfl⟩ := hreset hact hlost htcl
          rw [hrc, hfl]
          simp [lostDeviceMachine, htcl]
        · obtain ⟨ha, hb, -⟩ := hstay hact hlost htcl
          rw [hb, ha]
          simp [lostDeviceMachine, htcl, hne, hlost]

/-- Consecutive frames follow the run of the two-state machine. -/
theorem runFrames_refines (env : AppEnv) (frames : List FrameEnv) :
    ∀ app : CGameApp, app.m_pD3DDevice.isSome = true → app.m_pD3D.isSome = true →
      ∃ results : List (CGameApp × List AppCall),
        app.runFrames env frames = some results ∧
        results.map (fun r => (decide (renderCalls r.2 = frameCalls), r.1.m_bLostDevice)) =
          lostDeviceRun app.m_bActive app.m_bLostDevice frames := by
  induction frames with
  | nil =>
    intro app _ _
    exact ⟨[], rfl, rfl⟩
  | cons frame frames ih =>
    intro app hdev hd3d
    obtain ⟨r, hrun, hdev1, hd3d1, hact, -, hm⟩ := FrameAdvance_refines env frame app hdev hd3d
    obtain ⟨rest, hrest, hmap⟩ := ih r.1 hdev1 hd3d1
    refine ⟨r :: rest, ?_, ?_⟩
    · unfold CGameApp.runFrames
      simp only [hrun, hrest]
    · have h2 : r.1.m_bLostDevice = (lostDeviceMachine app.m_bActive app.m_bLostDevice frame).2 :=
        congrArg Prod.snd hm
      rw [List.map_cons, hmap, hm, hact, h2]
      rfl

/-- C23: with the device and the Direct3D object set, every call of
`FrameAdvance` returns and does one of four things. Inactive: nothing is
rendered and the application is unchanged. Lost device and
`TestCooperativeLevel` other than `D3DERR_DEVICENOTRESET`: nothing is rendered
and the application is unchanged, so the flag stays true. Lost device and
`D3DERR_DEVICENOTRESET`: the display is reset, `SetupRenderStates` runs, the flag
is cleared, and then the frame is rendered from that state. Not lost: the frame
is rendered without a reset. A rendered frame makes the calls `Clear`,
`BeginScene`, twelve `DrawPrimitive`, `EndScene`, `Present` and leaves
`m_bLostDevice` set exactly when `Present` fails; so the flag goes from false to
true only in a rendered frame whose `Present` fails. Over any sequence of frames
the rendering and the flag follow the two-state machine `lostDeviceRun`. -/
theorem FrameAdvance_lost_device_machine (env : AppEnv) (app : CGameApp)
    (hdev : app.m_pD3DDevice.isSome = true) (hd3d : app.m_pD3D.isSome = true) :
    (∀ frame : FrameEnv, ∃ r : CGameApp × List AppCall,
      app.FrameAdvance env frame = some r ∧
      (app.m_bActive = false → r.1 = app ∧ renderCalls r.2 = []) ∧
      (app.m_bActive = true → app.m_bLostDevice = true →
        frame.TestCooperativeLevel ≠ D3DERR_DEVICENOTRESET →
        r.1 = app ∧ renderCalls r.2 = [] ∧ r.2.count (AppCall.api "ResetDisplay") = 0) ∧
      (app.m_bActive = true → app.m_bLostDevice = true →
        frame.TestCooperativeLevel = D3DERR_DEVICENOTRESET →
        ∃ render drawn : CGameApp × List AppCall,
          app.SetupRenderStates env = some render ∧
          CGameApp.drawFrame frame { render.1 with m_bLostDevice := false } = some drawn ∧
          r = (drawn.1, [AppCall.api "CTimer::Tick", AppCall.api "TestCooperativeLevel",
            AppCall.api "ResetDisplay"] ++ render.2 ++ drawn.2) ∧
          renderCalls render.2 = [] ∧ renderCalls drawn.2 = frameCalls ∧
          renderCalls r.2 = frameCalls ∧ r.2.count (AppCall.api "ResetDisplay") = 1 ∧
          r.1.m_bLostDevice = FAILED frame.Present) ∧
      (app.m_bActive = true → app.m_bLostDevice = false →
        renderCalls r.2 = frameCalls ∧ r.2.count (AppCall.api "ResetDisplay") = 0 ∧
        r.1.m_bLostDevice = FAILED frame.Present) ∧
      (app.m_bLostDevice = false → r.1.m_bLostDevice = true →
        renderCalls r.2 = frameCalls ∧ FAILED frame.Present = true) ∧
      (renderCalls r.2 = frameCalls ∨ renderCalls r.2 = []) ∧
      (decide (renderCalls r.2 = frameCalls), r.1.m_bLostDevice) =
        lostDeviceMachine app.m_bActive app.m_bLostDevice frame) ∧
    (∀ frames : List FrameEnv, ∃ results : List (CGameApp × List AppCall),
      app.runFrames env frames = some results ∧
      results.map (fun r => (decide (renderCalls r.2 = frameCalls), r.1.m_bLostDevice)) =
        lostDeviceRun app.m_bActive app.m_bLostDevice frames) := by
  refine ⟨fun frame => ?_, fun frames => runFrames_refines env frames app hdev hd3d⟩
  obtain ⟨r, hrun, -, -, -, hinact, hstay, hreset, hdraw⟩ :=
    FrameAdvance_step env frame app hdev hd3d
  obtain ⟨r2, hrun2, -, -, -, hor, hm⟩ := FrameAdvance_refines env frame app hdev hd3d
  obtain rfl : r2 = r := Option.some.inj (hrun2.symm.trans hrun)
  refine ⟨r2, hrun, fun h => ⟨(hinact h).1, (hinact h).2.1⟩, hstay, hreset, hdraw, ?_, hor, hm⟩
  intro hlost hlost2
  cases hact : app.m_bActive with
  | false =>
    rw [(hinact hact).1, hlost] at hlost2
    exact absurd hlost2 (by decide)
  | true =>
    obtain ⟨ha, -, hb⟩ := hdraw hact hlost
    exact ⟨ha, hb.symm.trans hlost2⟩

theorem FrameAdvance_lost_device_machine_witness :
    ∃ results : List (CGameApp × List AppCall),
      appActive.runFrames envOk [framePresentFails, frameStillLost, frameNotReset, frameOk]
        = some results ∧
      results.map (fun r => (decide (renderCalls r.2 = frameCalls), r.1.m_bLostDevice)) =
        [(true, true), (false, true), (true, false), (true, false)] := by
  obtain ⟨results, hrun, hmap⟩ :=
    (FrameAdvance_lost_device_machine envOk appActive rfl rfl).2
      [framePresentFails, frameStillLost, frameNotReset, frameOk]
  have hm : lostDeviceRun appActive.m_bActive appActive.m_bLostDevice
      [framePresentFails, frameStillLost, frameNotReset, frameOk] =
      [(true, true), (false, true), (true, false), (true, false)] := by decide
  rw [hm] at hmap
  exact ⟨results, hrun, hmap⟩

